import Mathlib

/-! goDBAssetImport: the asset reconciler of `main.asset.go`

A shallow embedding of `processAssets`, `getAssetID`, `createAsset` and
`updateAsset`, with explicit state passing.

Modelling conventions

* The process-wide state touched by these functions is gathered in `World`: the
  outcome counters, the pending parameter buffer of the row's `espXmlmc`
  instance, and the ordered trace of remote calls issued so far.
* Everything that lives outside `main.asset.go` is a field of `Env`: the flags and
  configuration tables, the helper functions (`getFieldValue`, the three caches,
  the three remote searches), the transport (`Invoke`) and `xml.Unmarshal` at each
  of the three response types.  The caches, the searches and the transport may
  answer differently depending on the calls made before, so they receive the
  trace.  A reference search is recorded as one event of its own kind; the
  helpers read and fill the caches and never write the outcome counters.
* `logger` and `debugLog` only write diagnostics and are left out.
* `espXmlmc.Invoke` hands the buffered parameters to the transport and leaves the
  buffer empty for the next request.
* Go `map` iteration order is unspecified; a map is an association list and the
  loop runs in list order, so every order is covered by some list.
-/

namespace GoDBAssetImport

/-! ## Values and formatting -/

/-- A scalar of Go type `interface{}` as found in a source row or in a mapping table. -/
inductive Value where
  | str (s : String)
  | int (i : Int)
  | null
deriving DecidableEq, Repr

/-- A Go `map[string]interface{}`; `List.lookup` plays `m[k]` and `none` is the nil of a
missing key. -/
abbrev GoMap := List (String × Value)

/-- The Go call `fmt.Sprintf("%v", x)` on a map element. -/
def sprintfV : Option Value → String
  | some (Value.str s) => s
  | some (Value.int i) => toString i
  | some Value.null => "<nil>"
  | none => "<nil>"

/-- The Go call `fmt.Sprintf("%s", x)` on a map element: a non-string operand is printed
with the bad-verb marker. -/
def sprintfS : Option Value → String
  | some (Value.str s) => s
  | some (Value.int i) => "%!s(int64=" ++ toString i ++ ")"
  | some Value.null => "%!s(<nil>)"
  | none => "%!s(<nil>)"

/-! ## Requests, responses, trace -/

/-- One call made on the request builder of `espXmlmc`. -/
inductive XmlTok where
  | SetParam (name value : String)
  | OpenElement (name : String)
  | CloseElement (name : String)
deriving DecidableEq, Repr

/-- One remote round trip, in the order issued. -/
inductive Event where
  | Invoke (service method : String) (params : List XmlTok)
  | searchSite (siteName : String)
  | searchGroup (groupName : String) (groupType : Int)
  | searchCustomer (custID : String)
deriving DecidableEq, Repr

/-- The fields of `xmlmcAssetResponse` read by `getAssetID`. -/
structure xmlmcAssetResponse where
  MethodResult : String
  ErrorRet : String
  AssetID : String
deriving DecidableEq, Repr

/-- The fields of `xmlmcUpdateResponse` read by `createAsset` and `updateAsset`. -/
structure xmlmcUpdateResponse where
  MethodResult : String
  ErrorRet : String
  ColList : List String
  AssetPK : String
deriving DecidableEq, Repr

/-- The fields of `xmlmcResponse` read after the follow-up calls. -/
structure xmlmcResponse where
  MethodResult : String
  ErrorRet : String
deriving DecidableEq, Repr

/-- The configuration value `assetIdentifierStruct`. -/
structure assetIdentifierStruct where
  DBColumn : String
  Entity : String
  EntityColumn : String
deriving DecidableEq, Repr

/-! ## Counters -/

/-- Modelled from the spec: the counters aggregate, whose type declaration is not part of
`main.asset.go`.  `created`, `createskipped`, `updated` and `updatedSkipped` are the four
fields the source increments; the other four are the remaining categories of the
end-of-run summary.  Totals are unbounded naturals. -/
structure counterTypeStruct where
  created : Nat
  createskipped : Nat
  createFailed : Nat
  updated : Nat
  updatedSkipped : Nat
  updateFailed : Nat
  updateRelatedSkipped : Nat
  updateRelatedFailed : Nat
deriving DecidableEq, Repr

/-- The eight outcome categories. -/
inductive CounterKind where
  | created | createskipped | createFailed | updated
  | updatedSkipped | updateFailed | updateRelatedSkipped | updateRelatedFailed
deriving DecidableEq, Repr

/-- Read one category of the aggregate. -/
def counterTypeStruct.get (c : counterTypeStruct) : CounterKind → Nat
  | CounterKind.created => c.created
  | CounterKind.createskipped => c.createskipped
  | CounterKind.createFailed => c.createFailed
  | CounterKind.updated => c.updated
  | CounterKind.updatedSkipped => c.updatedSkipped
  | CounterKind.updateFailed => c.updateFailed
  | CounterKind.updateRelatedSkipped => c.updateRelatedSkipped
  | CounterKind.updateRelatedFailed => c.updateRelatedFailed

/-- Sum of all outcome categories. -/
def counterTypeStruct.total (c : counterTypeStruct) : Nat :=
  c.created + c.createskipped + c.createFailed + c.updated
    + c.updatedSkipped + c.updateFailed + c.updateRelatedSkipped + c.updateRelatedFailed

/-- Exactly one category of `c'` is one more than in `c`; all others are equal. -/
def IncrementedOnce (c c' : counterTypeStruct) : Prop :=
  ∃ k : CounterKind, c'.get k = c.get k + 1 ∧ ∀ j : CounterKind, j ≠ k → c'.get j = c.get j

/-! ## Environment and state -/

/-- Everything `main.asset.go` reads or calls but does not define. -/
structure Env where
  configDryRun : Bool
  appServiceManager : String
  AssetClass : String
  AssetTypeID : Int
  APITimeNow : String
  AssetGenericFieldMapping : GoMap
  AssetTypeFieldMapping : GoMap
  getFieldValue : String → String → GoMap → String
  siteInCache : List Event → String → Bool × Int
  searchSite : List Event → String → Bool × Int
  groupInCache : List Event → String → Int → Bool × String
  searchGroup : List Event → String → Int → Bool × String
  customerInCache : List Event → String → Bool × String
  searchCustomer : List Event → String → Bool × String
  Invoke : List Event → String → String → List XmlTok → Except String String
  unmarshalAssetResponse : String → Except String xmlmcAssetResponse
  unmarshalUpdateResponse : String → Except String xmlmcUpdateResponse
  unmarshalResponse : String → Except String xmlmcResponse

/-- The mutable state: counters, request buffer of `espXmlmc`, remote calls so far. -/
structure World where
  counters : counterTypeStruct
  params : List XmlTok
  trace : List Event
deriving DecidableEq, Repr

/-- Append builder calls to the request buffer. -/
def World.emit (w : World) (ts : List XmlTok) : World :=
  { w with params := w.params ++ ts }

/-- Record a remote round trip. -/
def World.record (w : World) (e : Event) : World :=
  { w with trace := w.trace ++ [e] }

/-- The call `espXmlmc.ClearParam()`. -/
def World.ClearParam (w : World) : World :=
  { w with params := [] }

/-- The call `espXmlmc.Invoke(service, method)`: the buffered request goes out, the answer
(body or transport error) comes from the environment, the buffer is emptied. -/
def Invoke (env : Env) (w : World) (service method : String) : Except String String × World :=
  (env.Invoke w.trace service method w.params,
   { w with params := [], trace := w.trace ++ [Event.Invoke service method w.params] })

/-- The statement `counters.created++`. -/
def World.incCreated (w : World) : World :=
  { w with counters := { w.counters with created := w.counters.created + 1 } }

/-- The statement `counters.createskipped++`. -/
def World.incCreateskipped (w : World) : World :=
  { w with counters := { w.counters with createskipped := w.counters.createskipped + 1 } }

/-- The statement `counters.updated++`. -/
def World.incUpdated (w : World) : World :=
  { w with counters := { w.counters with updated := w.counters.updated + 1 } }

/-- The statement `counters.updatedSkipped++`. -/
def World.incUpdatedSkipped (w : World) : World :=
  { w with counters := { w.counters with updatedSkipped := w.counters.updatedSkipped + 1 } }

/-! ## getAssetID (lines 97-138) -/

/-- The search request assembled by `getAssetID` (lines 104-111). -/
def getAssetIDParams (env : Env) (assetID : String) (assetIdentifier : assetIdentifierStruct) :
    List XmlTok :=
  [ XmlTok.SetParam "application" env.appServiceManager,
    XmlTok.SetParam "entity" assetIdentifier.Entity,
    XmlTok.OpenElement "searchFilter",
    XmlTok.SetParam "column" assetIdentifier.EntityColumn,
    XmlTok.SetParam "value" assetID,
    XmlTok.SetParam "matchType" "exact",
    XmlTok.CloseElement "searchFilter",
    XmlTok.SetParam "maxResults" "1" ]

/-- The transport answer to the existence search of `getAssetID` (line 113). -/
def getAssetIDCall (env : Env) (w : World) (assetID : String)
    (assetIdentifier : assetIdentifierStruct) : Except String String × World :=
  Invoke env (w.emit (getAssetIDParams env assetID assetIdentifier)) "data" "entityBrowseRecords2"

/-- The function `getAssetID`: returns `(boolReturn, boolSuccess, returnAssetID)`. -/
def getAssetID (env : Env) (w : World) (assetID : String)
    (assetIdentifier : assetIdentifierStruct) : (Bool × Bool × String) × World :=
  let r := getAssetIDCall env w assetID assetIdentifier
  match r.1 with
  | Except.error _ => ((false, false, ""), r.2)
  | Except.ok XMLAssetSearch =>
    match env.unmarshalAssetResponse XMLAssetSearch with
    | Except.error _ => ((false, false, ""), r.2)
    | Except.ok xmlRespon =>
      if xmlRespon.MethodResult ≠ "ok" then ((false, false, ""), r.2)
      else if xmlRespon.AssetID ≠ "" then ((true, true, xmlRespon.AssetID), r.2)
      else ((false, true, xmlRespon.AssetID), r.2)

/-! ## Reference resolution (createAsset lines 142-244, updateAsset lines 396-498) -/

/-- The remote helper `searchSite(siteName, espXmlmc)`. -/
def searchSite (env : Env) (w : World) (siteName : String) : (Bool × Int) × World :=
  (env.searchSite w.trace siteName, w.record (Event.searchSite siteName))

/-- The remote helper `searchGroup(groupName, groupType, espXmlmc)`. -/
def searchGroup (env : Env) (w : World) (groupName : String) (groupType : Int) :
    (Bool × String) × World :=
  (env.searchGroup w.trace groupName groupType, w.record (Event.searchGroup groupName groupType))

/-- The remote helper `searchCustomer(custID, espXmlmc)`. -/
def searchCustomer (env : Env) (w : World) (custID : String) : (Bool × String) × World :=
  (env.searchCustomer w.trace custID, w.record (Event.searchCustomer custID))

/-- The local variables left by the resolution blocks and read by the mapping loops. -/
structure Refs where
  siteName : String
  siteID : String
  companyName : String
  companyID : String
  ownedByID : String
  ownedByName : String
  ownedByURN : String
  usedByID : String
  usedByName : String
  usedByURN : String
  lastLoggedOnByID : String
  lastLoggedOnByName : String
  lastLoggedOnByURN : String
deriving DecidableEq, Repr

/-- Site block of `createAsset` (lines 143-158): returns `(siteName, siteID)`. -/
def createAsset_site (env : Env) (w : World) (u : GoMap) : (String × String) × World :=
  let siteNameMapping := sprintfV (env.AssetGenericFieldMapping.lookup "h_site")
  let siteName := env.getFieldValue "h_site" siteNameMapping u
  if siteName ≠ "" then
    let c := env.siteInCache w.trace siteName
    if c.1 = true then ((siteName, toString c.2), w)
    else
      let r := searchSite env w siteName
      if r.1.1 = true then ((siteName, toString r.1.2), r.2)
      else ((siteName, ""), r.2)
  else ((siteName, ""), w)

/-- Site block of `updateAsset` (lines 397-412): returns `(siteName, siteID)`. -/
def updateAsset_site (env : Env) (w : World) (u : GoMap) : (String × String) × World :=
  let siteNameMapping := sprintfV (env.AssetGenericFieldMapping.lookup "h_site")
  let siteName := env.getFieldValue "h_site" siteNameMapping u
  if siteName ≠ "" ∧ siteName ≠ "<nil>" then
    let c := env.siteInCache w.trace siteName
    if c.1 = true then ((siteName, toString c.2), w)
    else
      let r := searchSite env w siteName
      if r.1.1 = true then ((siteName, toString r.1.2), r.2)
      else ((siteName, ""), r.2)
  else ((siteName, ""), w)

/-- Company block, the same text in both functions (lines 162-175 and 416-429): returns
`(companyName, companyID)`. -/
def resolveCompany (env : Env) (w : World) (u : GoMap) : (String × String) × World :=
  let companyNameMapping := sprintfV (env.AssetGenericFieldMapping.lookup "h_company_name")
  let companyName := env.getFieldValue "h_company_name" companyNameMapping u
  if companyName ≠ "" ∧ companyName ≠ "<nil>" then
    let c := env.groupInCache w.trace companyName 5
    if c.1 = true then ((companyName, c.2), w)
    else
      let r := searchGroup env w companyName 5
      if r.1.1 = true then ((companyName, r.1.2), r.2)
      else ((companyName, ""), r.2)
  else ((companyName, ""), w)

/-- Owned-by and used-by blocks, the same text for both fields in both functions (lines
179-198, 202-221, 433-452, 456-475), with `field` either `h_owned_by` or `h_used_by`:
returns `(id, name, urn)`. -/
def resolveUser (env : Env) (w : World) (u : GoMap) (field : String) :
    (String × String × String) × World :=
  let mapping := sprintfV (env.AssetGenericFieldMapping.lookup field)
  let id := env.getFieldValue field mapping u
  let r : String × World :=
    if id ≠ "" ∧ id ≠ "<nil>" then
      let c := env.customerInCache w.trace id
      if c.1 = true then (c.2, w)
      else
        let s := searchCustomer env w id
        if s.1.1 = true then (s.1.2, s.2) else ("", s.2)
    else ("", w)
  let urn := if r.1 ≠ "" then "urn:sys:0:" ++ r.1 ++ ":" ++ id else ""
  ((id, r.1, urn), r.2)

/-- Last-logged-on block of `createAsset` (lines 225-243): returns `(id, name, urn)`. -/
def createAsset_lastLoggedOn (env : Env) (w : World) (u : GoMap) :
    (String × String × String) × World :=
  let lastLoggedOnUserMapping := sprintfV (env.AssetTypeFieldMapping.lookup "h_last_logged_on_user")
  let lastLoggedOnByID := env.getFieldValue "h_last_logged_on_user" lastLoggedOnUserMapping u
  if lastLoggedOnUserMapping ≠ "" ∧ lastLoggedOnByID ≠ "" ∧ lastLoggedOnByID ≠ "<nil>" then
    let c := env.customerInCache w.trace lastLoggedOnByID
    if c.1 = true then
      ((lastLoggedOnByID, c.2, "urn:sys:0:" ++ c.2 ++ ":" ++ lastLoggedOnByID), w)
    else
      let s := searchCustomer env w lastLoggedOnByID
      if s.1.1 = true then
        ((lastLoggedOnByID, s.1.2, "urn:sys:0:" ++ s.1.2 ++ ":" ++ lastLoggedOnByID), s.2)
      else ((lastLoggedOnByID, "", ""), s.2)
  else ((lastLoggedOnByID, "", ""), w)

/-- Last-logged-on block of `updateAsset` (lines 479-497): on a cache miss the name is
taken from the search whatever its verdict; returns `(id, name, urn)`. -/
def updateAsset_lastLoggedOn (env : Env) (w : World) (u : GoMap) :
    (String × String × String) × World :=
  let lastLoggedOnUserMapping := sprintfV (env.AssetTypeFieldMapping.lookup "h_last_logged_on_user")
  let lastLoggedOnByID := env.getFieldValue "h_last_logged_on_user" lastLoggedOnUserMapping u
  if lastLoggedOnUserMapping ≠ "" ∧ lastLoggedOnByID ≠ "" ∧ lastLoggedOnByID ≠ "<nil>" then
    let c := env.customerInCache w.trace lastLoggedOnByID
    if c.1 = true then
      ((lastLoggedOnByID, c.2, "urn:sys:0:" ++ c.2 ++ ":" ++ lastLoggedOnByID), w)
    else
      let s := searchCustomer env w lastLoggedOnByID
      if s.1.1 = true then
        ((lastLoggedOnByID, s.1.2, "urn:sys:0:" ++ s.1.2 ++ ":" ++ lastLoggedOnByID), s.2)
      else ((lastLoggedOnByID, s.1.2, ""), s.2)
  else ((lastLoggedOnByID, "", ""), w)

/-- Lines 142-244 of `createAsset`: the five blocks in source order. -/
def createAsset_resolve (env : Env) (w : World) (u : GoMap) : Refs × World :=
  let s := createAsset_site env w u
  let c := resolveCompany env s.2 u
  let o := resolveUser env c.2 u "h_owned_by"
  let b := resolveUser env o.2 u "h_used_by"
  let l := createAsset_lastLoggedOn env b.2 u
  ({ siteName := s.1.1, siteID := s.1.2, companyName := c.1.1, companyID := c.1.2,
     ownedByID := o.1.1, ownedByName := o.1.2.1, ownedByURN := o.1.2.2,
     usedByID := b.1.1, usedByName := b.1.2.1, usedByURN := b.1.2.2,
     lastLoggedOnByID := l.1.1, lastLoggedOnByName := l.1.2.1, lastLoggedOnByURN := l.1.2.2 },
   l.2)

/-- Lines 396-498 of `updateAsset`: the five blocks in source order. -/
def updateAsset_resolve (env : Env) (w : World) (u : GoMap) : Refs × World :=
  let s := updateAsset_site env w u
  let c := resolveCompany env s.2 u
  let o := resolveUser env c.2 u "h_owned_by"
  let b := resolveUser env o.2 u "h_used_by"
  let l := updateAsset_lastLoggedOn env b.2 u
  ({ siteName := s.1.1, siteID := s.1.2, companyName := c.1.1, companyID := c.1.2,
     ownedByID := o.1.1, ownedByName := o.1.2.1, ownedByURN := o.1.2.2,
     usedByID := b.1.1, usedByName := b.1.2.1, usedByURN := b.1.2.2,
     lastLoggedOnByID := l.1.1, lastLoggedOnByName := l.1.2.1, lastLoggedOnByURN := l.1.2.2 },
   l.2)

/-! ## Field mapping loops -/

/-- Body of the loop over `AssetGenericFieldMapping`, the same text in both functions
(lines 261-290 and 510-539), for the entry `k ↦ v`. -/
def genericEntry (env : Env) (refs : Refs) (u : GoMap) (k : String) (v : Value) : List XmlTok :=
  let strMapping := sprintfV (some v)
  let value := env.getFieldValue k strMapping u
  (if k = "h_used_by" ∧ refs.usedByName ≠ "" ∧ refs.usedByURN ≠ "" then
      [XmlTok.SetParam "h_used_by" refs.usedByURN, XmlTok.SetParam "h_used_by_name" refs.usedByName]
    else [])
  ++ (if k = "h_owned_by" ∧ refs.ownedByName ≠ "" ∧ refs.ownedByURN ≠ "" then
      [XmlTok.SetParam "h_owned_by" refs.ownedByURN,
       XmlTok.SetParam "h_owned_by_name" refs.ownedByName]
    else [])
  ++ (if k = "h_site" ∧ refs.siteID ≠ "" ∧ refs.siteName ≠ "" then
      [XmlTok.SetParam "h_site" refs.siteName, XmlTok.SetParam "h_site_id" refs.siteID]
    else [])
  ++ (if k = "h_company_name" ∧ refs.companyID ≠ "" ∧ refs.companyName ≠ "" then
      [XmlTok.SetParam "h_company_name" refs.companyName,
       XmlTok.SetParam "h_company_id" refs.companyID]
    else [])
  ++ (if k ≠ "h_site" ∧ k ≠ "h_used_by" ∧ k ≠ "h_owned_by" ∧ k ≠ "h_company_name"
        ∧ strMapping ≠ "" ∧ value ≠ "" then
      [XmlTok.SetParam k value]
    else [])

/-- The loop over `AssetGenericFieldMapping`. -/
def genericLoop (env : Env) (refs : Refs) (u : GoMap) : List XmlTok :=
  (env.AssetGenericFieldMapping.map (fun kv => genericEntry env refs u kv.1 kv.2)).flatten

/-- Body of the loop over `AssetTypeFieldMapping`, the same text in both functions (lines
303-316 and 600-611), for the entry `k ↦ v`. -/
def typeEntry (env : Env) (refs : Refs) (u : GoMap) (k : String) (v : Value) : List XmlTok :=
  let strMapping := sprintfV (some v)
  let value := env.getFieldValue k strMapping u
  (if k = "h_last_logged_on_user" ∧ refs.lastLoggedOnByURN ≠ "" then
      [XmlTok.SetParam "h_last_logged_on_user" refs.lastLoggedOnByURN]
    else [])
  ++ (if k ≠ "h_last_logged_on_user" ∧ strMapping ≠ "" ∧ value ≠ "" then
      [XmlTok.SetParam k value]
    else [])

/-- The loop over `AssetTypeFieldMapping`. -/
def typeLoop (env : Env) (refs : Refs) (u : GoMap) : List XmlTok :=
  (env.AssetTypeFieldMapping.map (fun kv => typeEntry env refs u kv.1 kv.2)).flatten

/-! ## createAsset (lines 140-390) -/

/-- The create request assembled by lines 247-318. -/
def createAsset_params (env : Env) (refs : Refs) (u : GoMap) : List XmlTok :=
  [ XmlTok.SetParam "application" env.appServiceManager,
    XmlTok.SetParam "entity" "Asset",
    XmlTok.SetParam "returnModifiedData" "true",
    XmlTok.OpenElement "primaryEntityData",
    XmlTok.OpenElement "record",
    XmlTok.SetParam "h_class" env.AssetClass,
    XmlTok.SetParam "h_type" (toString env.AssetTypeID),
    XmlTok.SetParam "h_last_updated" env.APITimeNow,
    XmlTok.SetParam "h_last_updated_by" "Import - Add" ]
  ++ genericLoop env refs u
  ++ [ XmlTok.CloseElement "record",
       XmlTok.CloseElement "primaryEntityData",
       XmlTok.OpenElement "relatedEntityData",
       XmlTok.SetParam "relationshipName" "AssetClass",
       XmlTok.SetParam "entityAction" "insert",
       XmlTok.OpenElement "record",
       XmlTok.SetParam "h_type" (toString env.AssetTypeID) ]
  ++ typeLoop env refs u
  ++ [ XmlTok.CloseElement "record", XmlTok.CloseElement "relatedEntityData" ]

/-- State of `createAsset` on reaching the dry-run test of line 321: references resolved,
create request buffered. -/
def createAsset_prepare (env : Env) (w : World) (u : GoMap) : World :=
  let r := createAsset_resolve env w u
  r.2.emit (createAsset_params env r.1 u)

/-- The transport answer to the `entityAddRecord` call of line 324. -/
def createAsset_call (env : Env) (w : World) (u : GoMap) : Except String String × World :=
  Invoke env (createAsset_prepare env w u) "data" "entityAddRecord"

/-- The follow-up request of lines 353-360 writing the asset URN onto the new record. -/
def createAsset_urnParams (assetID : String) : List XmlTok :=
  [ XmlTok.SetParam "application" "com.hornbill.servicemanager",
    XmlTok.SetParam "entity" "Asset",
    XmlTok.OpenElement "primaryEntityData",
    XmlTok.OpenElement "record",
    XmlTok.SetParam "h_pk_asset_id" assetID,
    XmlTok.SetParam "h_asset_urn" ("urn:sys:entity:com.hornbill.servicemanager:Asset:" ++ assetID),
    XmlTok.CloseElement "record",
    XmlTok.CloseElement "primaryEntityData" ]

/-- Lines 361-379: the follow-up call and its three checks, each of which logs and
returns. -/
def createAsset_followUp (env : Env) (w : World) : World :=
  let f := Invoke env w "data" "entityUpdateRecord"
  match f.1 with
  | Except.error _ => f.2
  | Except.ok XMLUpdate =>
    match env.unmarshalResponse XMLUpdate with
    | Except.error _ => f.2
    | Except.ok xmlRespon => if xmlRespon.MethodResult ≠ "ok" then f.2 else f.2

/-- The function `createAsset`. -/
def createAsset (env : Env) (w : World) (u : GoMap) : World :=
  let w0 := createAsset_prepare env w u
  if env.configDryRun = false then
    let r := Invoke env w0 "data" "entityAddRecord"
    match r.1 with
    | Except.error _ => r.2
    | Except.ok XMLCreate =>
      match env.unmarshalUpdateResponse XMLCreate with
      | Except.error _ => r.2.incCreateskipped
      | Except.ok xmlRespon =>
        if xmlRespon.MethodResult ≠ "ok" then r.2.incCreateskipped
        else
          let w1 := r.2.incCreated
          let assetID := xmlRespon.AssetPK
          createAsset_followUp env (w1.emit (createAsset_urnParams assetID))
  else
    w0.incCreateskipped.ClearParam

/-! ## updateAsset (lines 392-696) -/

/-- The primary update request assembled by lines 501-542. -/
def updateAsset_params (env : Env) (refs : Refs) (u : GoMap) (strAssetID : String) :
    List XmlTok :=
  [ XmlTok.SetParam "application" env.appServiceManager,
    XmlTok.SetParam "entity" "Asset",
    XmlTok.SetParam "returnModifiedData" "true",
    XmlTok.OpenElement "primaryEntityData",
    XmlTok.OpenElement "record",
    XmlTok.SetParam "h_pk_asset_id" strAssetID,
    XmlTok.SetParam "h_asset_urn"
      ("urn:sys:entity:com.hornbill.servicemanager:Asset:" ++ strAssetID) ]
  ++ genericLoop env refs u
  ++ [ XmlTok.CloseElement "record", XmlTok.CloseElement "primaryEntityData" ]

/-- The related (extended) update request assembled by lines 583-613. -/
def updateAsset_extParams (env : Env) (refs : Refs) (u : GoMap) (strAssetID : String) :
    List XmlTok :=
  [ XmlTok.SetParam "application" env.appServiceManager,
    XmlTok.SetParam "entity" "Asset",
    XmlTok.SetParam "returnModifiedData" "true",
    XmlTok.OpenElement "primaryEntityData",
    XmlTok.OpenElement "record",
    XmlTok.SetParam "h_pk_asset_id" strAssetID,
    XmlTok.CloseElement "record",
    XmlTok.CloseElement "primaryEntityData",
    XmlTok.OpenElement "relatedEntityData",
    XmlTok.SetParam "relationshipName" "AssetClass",
    XmlTok.SetParam "entityAction" "update",
    XmlTok.OpenElement "record",
    XmlTok.SetParam "h_pk_asset_id" strAssetID ]
  ++ typeLoop env refs u
  ++ [ XmlTok.CloseElement "record", XmlTok.CloseElement "relatedEntityData" ]

/-- The last-updated stamp request assembled by lines 656-664. -/
def updateAsset_stampParams (env : Env) (strAssetID : String) : List XmlTok :=
  [ XmlTok.SetParam "application" env.appServiceManager,
    XmlTok.SetParam "entity" "Asset",
    XmlTok.OpenElement "primaryEntityData",
    XmlTok.OpenElement "record",
    XmlTok.SetParam "h_pk_asset_id" strAssetID,
    XmlTok.SetParam "h_last_updated" env.APITimeNow,
    XmlTok.SetParam "h_last_updated_by" "Import - Update",
    XmlTok.CloseElement "record",
    XmlTok.CloseElement "primaryEntityData" ]

/-- State of `updateAsset` on reaching the dry-run test of line 546: references resolved,
primary request buffered. -/
def updateAsset_prepare (env : Env) (w : World) (u : GoMap) (strAssetID : String) :
    Refs × World :=
  let r := updateAsset_resolve env w u
  (r.1, r.2.emit (updateAsset_params env r.1 u strAssetID))

/-- The function `updateAsset`: returns its boolean result and the new state. -/
def updateAsset (env : Env) (w : World) (u : GoMap) (strAssetID : String) : Bool × World :=
  let p := updateAsset_prepare env w u strAssetID
  if env.configDryRun = false then
    let r := Invoke env p.2 "data" "entityUpdateRecord"
    match r.1 with
    | Except.error _ => (false, r.2.incUpdatedSkipped)
    | Except.ok XMLUpdate =>
      match env.unmarshalUpdateResponse XMLUpdate with
      | Except.error _ => (false, r.2.incUpdatedSkipped)
      | Except.ok xmlRespon =>
        if xmlRespon.MethodResult ≠ "ok"
            ∧ xmlRespon.ErrorRet ≠ "There are no values to update" then
          (false, r.2.incUpdatedSkipped)
        else
          let boolRecordUpdated1 : Bool := decide (xmlRespon.ColList.length > 0)
          let e := Invoke env (r.2.emit (updateAsset_extParams env p.1 u strAssetID))
            "data" "entityUpdateRecord"
          match e.1 with
          | Except.error _ => (false, e.2.incUpdatedSkipped)
          | Except.ok XMLUpdateExt =>
            match env.unmarshalUpdateResponse XMLUpdateExt with
            | Except.error _ => (false, e.2.incUpdatedSkipped)
            | Except.ok xmlResponExt =>
              if xmlResponExt.MethodResult ≠ "ok"
                  ∧ xmlResponExt.ErrorRet ≠ "There are no values to update" then
                (false, e.2.incUpdatedSkipped)
              else
                let boolRecordUpdated : Bool :=
                  if xmlResponExt.ColList.length > 0 then true else boolRecordUpdated1
                if boolRecordUpdated = false then (true, e.2.incUpdatedSkipped)
                else
                  -- the three checks of lines 668-681 only log; the counter follows
                  let s := Invoke env (e.2.emit (updateAsset_stampParams env strAssetID))
                    "data" "entityUpdateRecord"
                  (true, s.2.incUpdated)
  else
    (true, p.2.incUpdatedSkipped.ClearParam)

/-! ### Observations on the update calls -/

/-- The checks applied to an update answer (lines 549-576 for the primary call, 617-643
for the related call): `none` for a hard failure (transport error, unreadable body, or a
result that is neither `ok` nor the no-values notice), otherwise the decoded response. -/
def updateResponse (env : Env) (res : Except String String) : Option xmlmcUpdateResponse :=
  match res with
  | Except.error _ => none
  | Except.ok body =>
    match env.unmarshalUpdateResponse body with
    | Except.error _ => none
    | Except.ok r =>
      if r.MethodResult ≠ "ok" ∧ r.ErrorRet ≠ "There are no values to update" then none
      else some r

/-- The transport answer to the primary update call of line 548. -/
def updateAsset_call (env : Env) (w : World) (u : GoMap) (strAssetID : String) :
    Except String String × World :=
  Invoke env (updateAsset_prepare env w u strAssetID).2 "data" "entityUpdateRecord"

/-- The transport answer to the related update call of line 616, issued after the primary
call. -/
def updateAsset_extCall (env : Env) (w : World) (u : GoMap) (strAssetID : String) :
    Except String String × World :=
  Invoke env
    ((updateAsset_call env w u strAssetID).2.emit
      (updateAsset_extParams env (updateAsset_prepare env w u strAssetID).1 u strAssetID))
    "data" "entityUpdateRecord"

/-- The request of an event that is an `Invoke` of the given method. -/
def Event.requestOf (method : String) : Event → Option (List XmlTok)
  | Event.Invoke _ m ps => if m = method then some ps else none
  | Event.searchSite _ => none
  | Event.searchGroup _ _ => none
  | Event.searchCustomer _ => none

/-- The `entityUpdateRecord` requests found in a trace, oldest first. -/
def updateCalls (tr : List Event) : List (List XmlTok) :=
  tr.filterMap (Event.requestOf "entityUpdateRecord")

/-- The `entityAddRecord` requests found in a trace, oldest first. -/
def createCalls (tr : List Event) : List (List XmlTok) :=
  tr.filterMap (Event.requestOf "entityAddRecord")

/-- An event issued by one of the three reference searches. -/
def Event.isSearch : Event → Bool
  | Event.Invoke _ _ _ => false
  | Event.searchSite _ => true
  | Event.searchGroup _ _ => true
  | Event.searchCustomer _ => true

/-! ## processAssets (lines 44-95) -/

/-- The existence search of one row (lines 52, 62, 66 and 76): the identifier column is
read with `%s`, a fresh `espXmlmc` instance is made, `getAssetID` is called. -/
def rowSearch (env : Env) (w : World) (assetIdentifier : assetIdentifierStruct)
    (assetRecord : GoMap) : (Bool × Bool × String) × World :=
  let assetIDIdent := assetIdentifier.DBColumn
  let assetID := sprintfS (assetRecord.lookup assetIDIdent)
  getAssetID env w.ClearParam assetID assetIdentifier

/-- One iteration of the loop of `processAssets` together with the worker it starts
(lines 57-91): the existence search, then the routing of lines 79-89. -/
def processRow (env : Env) (w : World) (assetIdentifier : assetIdentifierStruct)
    (assetRecord : GoMap) : World :=
  let g := rowSearch env w assetIdentifier assetRecord
  let boolUpdate := g.1.1
  let searchSuccess := g.1.2.1
  let assetIDInstance := g.1.2.2
  if searchSuccess = true then
    if boolUpdate = true then (updateAsset env g.2 assetRecord assetIDInstance).2
    else createAsset env g.2 assetRecord
  else g.2

/-- The function `processAssets`, rows handled one after the other (the schedule of a
one-slot admission gate; counter updates are serialised by `mutexCounters` in any
schedule). -/
def processAssets (env : Env) (w : World) (arrAssets : List GoMap)
    (assetIdentifier : assetIdentifierStruct) : World :=
  arrAssets.foldl (fun acc assetRecord => processRow env acc assetIdentifier assetRecord) w

/-! ## Sample data used to exercise the definitions -/

/-- All counters at zero, nothing buffered, nothing sent. -/
def sampleWorld : World :=
  { counters := { created := 0, createskipped := 0, createFailed := 0, updated := 0,
                  updatedSkipped := 0, updateFailed := 0, updateRelatedSkipped := 0,
                  updateRelatedFailed := 0 },
    params := [], trace := [] }

/-- A row with a name, an owner and a natural key. -/
def sampleRow : GoMap :=
  [("asset_tag", Value.str "A100"), ("name", Value.str "laptop-7"), ("owner", Value.str "42")]

/-- Assets are matched on their name. -/
def sampleIdentifier : assetIdentifierStruct :=
  { DBColumn := "asset_tag", Entity := "Asset", EntityColumn := "h_name" }

/-- Decoder used by the samples: three bodies are understood, anything else is unreadable. -/
def sampleUnmarshalUpdate (body : String) : Except String xmlmcUpdateResponse :=
  if body = "changed" then
    Except.ok { MethodResult := "ok", ErrorRet := "", ColList := ["h_name"], AssetPK := "77" }
  else if body = "unchanged" then
    Except.ok { MethodResult := "fail", ErrorRet := "There are no values to update",
                ColList := [], AssetPK := "" }
  else if body = "denied" then
    Except.ok { MethodResult := "fail", ErrorRet := "Access denied", ColList := [], AssetPK := "" }
  else Except.error "EOF"

/-- Decoder of search answers used by the samples. -/
def sampleUnmarshalAsset (body : String) : Except String xmlmcAssetResponse :=
  if body = "found" then Except.ok { MethodResult := "ok", ErrorRet := "", AssetID := "77" }
  else if body = "absent" then Except.ok { MethodResult := "ok", ErrorRet := "", AssetID := "" }
  else Except.error "EOF"

/-- An environment whose transport fails on every call; customer `42` is cached as
`Jane Doe`; a mapping value is the name of the source column. -/
def sampleEnv : Env :=
  { configDryRun := false
    appServiceManager := "com.hornbill.servicemanager"
    AssetClass := "computer"
    AssetTypeID := 3
    APITimeNow := "2020-01-01 00:00:00"
    AssetGenericFieldMapping := [("h_name", Value.str "name"), ("h_owned_by", Value.str "owner")]
    AssetTypeFieldMapping := []
    getFieldValue := fun _ m u => match u.lookup m with
      | some (Value.str s) => s
      | _ => ""
    siteInCache := fun _ _ => (false, 0)
    searchSite := fun _ _ => (false, 0)
    groupInCache := fun _ _ _ => (false, "")
    searchGroup := fun _ _ _ => (false, "")
    customerInCache := fun _ c => if c = "42" then (true, "Jane Doe") else (false, "")
    searchCustomer := fun _ _ => (false, "")
    Invoke := fun _ _ _ _ => Except.error "connection refused"
    unmarshalAssetResponse := sampleUnmarshalAsset
    unmarshalUpdateResponse := sampleUnmarshalUpdate
    unmarshalResponse := fun _ => Except.error "EOF" }

/-- The transport of a scripted run: the n-th `Invoke` of the run gets the n-th answer
of the script, and a transport error once the script is used up. -/
def scripted (script : List (Except String String)) :
    List Event → String → String → List XmlTok → Except String String :=
  fun tr _ _ _ => (script.get? tr.length).getD (Except.error "connection refused")

/-! ## Frame lemmas for reference resolution -/

/-- The state `w'` differs from `w` only by reference searches appended to the trace. -/
def SearchExt (w w' : World) : Prop :=
  ∃ es : List Event, (∀ e ∈ es, e.isSearch = true) ∧ w' = { w with trace := w.trace ++ es }

theorem SearchExt.refl (w : World) : SearchExt w w :=
  ⟨[], by simp, by simp⟩

theorem SearchExt.trans {a b c : World} (h₁ : SearchExt a b) (h₂ : SearchExt b c) :
    SearchExt a c := by
  obtain ⟨es, hes, rfl⟩ := h₁
  obtain ⟨fs, hfs, rfl⟩ := h₂
  refine ⟨es ++ fs, ?_, by simp⟩
  intro e he
  rcases List.mem_append.mp he with h | h
  · exact hes e h
  · exact hfs e h

theorem SearchExt.record {w : World} {e : Event} (he : e.isSearch = true) :
    SearchExt w (w.record e) :=
  ⟨[e], by simpa using he, rfl⟩

theorem SearchExt.counters {w w' : World} (h : SearchExt w w') : w'.counters = w.counters := by
  obtain ⟨es, _, rfl⟩ := h; rfl

theorem SearchExt.params {w w' : World} (h : SearchExt w w') : w'.params = w.params := by
  obtain ⟨es, _, rfl⟩ := h; rfl

theorem requestOf_search (m : String) {e : Event} (he : e.isSearch = true) :
    Event.requestOf m e = none := by
  cases e <;> simp_all [Event.isSearch, Event.requestOf]

theorem filterMap_requestOf_search (m : String) (es : List Event)
    (hes : ∀ e ∈ es, e.isSearch = true) : es.filterMap (Event.requestOf m) = [] := by
  induction es with
  | nil => rfl
  | cons e es ih =>
    have h1 : Event.requestOf m e = none := requestOf_search m (hes e (List.mem_cons_self _ _))
    have h2 := ih (fun x hx => hes x (List.mem_cons_of_mem _ hx))
    simp [List.filterMap_cons, h1, h2]

theorem SearchExt.updateCalls {w w' : World} (h : SearchExt w w') :
    updateCalls w'.trace = updateCalls w.trace := by
  obtain ⟨es, hes, rfl⟩ := h
  simp [GoDBAssetImport.updateCalls, List.filterMap_append, filterMap_requestOf_search _ es hes]

theorem SearchExt.createCalls {w w' : World} (h : SearchExt w w') :
    createCalls w'.trace = createCalls w.trace := by
  obtain ⟨es, hes, rfl⟩ := h
  simp [GoDBAssetImport.createCalls, List.filterMap_append, filterMap_requestOf_search _ es hes]

theorem searchSite_ext (env : Env) (w : World) (n : String) :
    SearchExt w (searchSite env w n).2 :=
  SearchExt.record rfl

theorem searchGroup_ext (env : Env) (w : World) (n : String) (t : Int) :
    SearchExt w (searchGroup env w n t).2 :=
  SearchExt.record rfl

theorem searchCustomer_ext (env : Env) (w : World) (n : String) :
    SearchExt w (searchCustomer env w n).2 :=
  SearchExt.record rfl

theorem createAsset_site_ext (env : Env) (w : World) (u : GoMap) :
    SearchExt w (createAsset_site env w u).2 := by
  unfold createAsset_site
  simp only []
  split_ifs <;> first | exact SearchExt.refl w | exact searchSite_ext env w _

theorem updateAsset_site_ext (env : Env) (w : World) (u : GoMap) :
    SearchExt w (updateAsset_site env w u).2 := by
  unfold updateAsset_site
  simp only []
  split_ifs <;> first | exact SearchExt.refl w | exact searchSite_ext env w _

theorem resolveCompany_ext (env : Env) (w : World) (u : GoMap) :
    SearchExt w (resolveCompany env w u).2 := by
  unfold resolveCompany
  simp only []
  split_ifs <;> first | exact SearchExt.refl w | exact searchGroup_ext env w _ _

theorem resolveUser_ext (env : Env) (w : World) (u : GoMap) (field : String) :
    SearchExt w (resolveUser env w u field).2 := by
  unfold resolveUser
  simp only []
  split_ifs <;> first | exact SearchExt.refl w | exact searchCustomer_ext env w _

theorem createAsset_lastLoggedOn_ext (env : Env) (w : World) (u : GoMap) :
    SearchExt w (createAsset_lastLoggedOn env w u).2 := by
  unfold createAsset_lastLoggedOn
  simp only []
  split_ifs <;> first | exact SearchExt.refl w | exact searchCustomer_ext env w _

theorem updateAsset_lastLoggedOn_ext (env : Env) (w : World) (u : GoMap) :
    SearchExt w (updateAsset_lastLoggedOn env w u).2 := by
  unfold updateAsset_lastLoggedOn
  simp only []
  split_ifs <;> first | exact SearchExt.refl w | exact searchCustomer_ext env w _

theorem createAsset_resolve_ext (env : Env) (w : World) (u : GoMap) :
    SearchExt w (createAsset_resolve env w u).2 := by
  unfold createAsset_resolve
  exact (((createAsset_site_ext env w u).trans (resolveCompany_ext env _ u)).trans
    ((resolveUser_ext env _ u _).trans (resolveUser_ext env _ u _))).trans
    (createAsset_lastLoggedOn_ext env _ u)

theorem updateAsset_resolve_ext (env : Env) (w : World) (u : GoMap) :
    SearchExt w (updateAsset_resolve env w u).2 := by
  unfold updateAsset_resolve
  exact (((updateAsset_site_ext env w u).trans (resolveCompany_ext env _ u)).trans
    ((resolveUser_ext env _ u _).trans (resolveUser_ext env _ u _))).trans
    (updateAsset_lastLoggedOn_ext env _ u)

/-! ## Basic facts about `Invoke`, the prepared states and the counter statements -/

@[simp] theorem Invoke_counters (env : Env) (w : World) (s m : String) :
    (Invoke env w s m).2.counters = w.counters := rfl

@[simp] theorem Invoke_params (env : Env) (w : World) (s m : String) :
    (Invoke env w s m).2.params = [] := rfl

@[simp] theorem Invoke_trace (env : Env) (w : World) (s m : String) :
    (Invoke env w s m).2.trace = w.trace ++ [Event.Invoke s m w.params] := rfl

@[simp] theorem emit_counters (w : World) (ts : List XmlTok) :
    (w.emit ts).counters = w.counters := rfl

@[simp] theorem emit_trace (w : World) (ts : List XmlTok) : (w.emit ts).trace = w.trace := rfl

@[simp] theorem emit_params (w : World) (ts : List XmlTok) :
    (w.emit ts).params = w.params ++ ts := rfl

@[simp] theorem ClearParam_counters (w : World) : w.ClearParam.counters = w.counters := rfl

@[simp] theorem ClearParam_trace (w : World) : w.ClearParam.trace = w.trace := rfl

@[simp] theorem ClearParam_params (w : World) : w.ClearParam.params = [] := rfl

@[simp] theorem incCreated_trace (w : World) : w.incCreated.trace = w.trace := rfl

@[simp] theorem incCreateskipped_trace (w : World) : w.incCreateskipped.trace = w.trace := rfl

@[simp] theorem incUpdated_trace (w : World) : w.incUpdated.trace = w.trace := rfl

@[simp] theorem incUpdatedSkipped_trace (w : World) : w.incUpdatedSkipped.trace = w.trace := rfl

@[simp] theorem incCreated_params (w : World) : w.incCreated.params = w.params := rfl

@[simp] theorem incCreated_counters (w : World) :
    w.incCreated.counters = { w.counters with created := w.counters.created + 1 } := rfl

@[simp] theorem incCreateskipped_counters (w : World) :
    w.incCreateskipped.counters
      = { w.counters with createskipped := w.counters.createskipped + 1 } := rfl

@[simp] theorem incUpdated_counters (w : World) :
    w.incUpdated.counters = { w.counters with updated := w.counters.updated + 1 } := rfl

@[simp] theorem incUpdatedSkipped_counters (w : World) :
    w.incUpdatedSkipped.counters
      = { w.counters with updatedSkipped := w.counters.updatedSkipped + 1 } := rfl

theorem createAsset_followUp_eq (env : Env) (w : World) :
    createAsset_followUp env w = (Invoke env w "data" "entityUpdateRecord").2 := by
  unfold createAsset_followUp
  simp only []
  split
  · rfl
  · split
    · rfl
    · simp

@[simp] theorem createAsset_prepare_counters (env : Env) (w : World) (u : GoMap) :
    (createAsset_prepare env w u).counters = w.counters := by
  simp [createAsset_prepare, (createAsset_resolve_ext env w u).counters]

@[simp] theorem createAsset_prepare_createCalls (env : Env) (w : World) (u : GoMap) :
    createCalls (createAsset_prepare env w u).trace = createCalls w.trace := by
  simp [createAsset_prepare, (createAsset_resolve_ext env w u).createCalls]

@[simp] theorem createAsset_prepare_updateCalls (env : Env) (w : World) (u : GoMap) :
    updateCalls (createAsset_prepare env w u).trace = updateCalls w.trace := by
  simp [createAsset_prepare, (createAsset_resolve_ext env w u).updateCalls]

@[simp] theorem updateAsset_prepare_counters (env : Env) (w : World) (u : GoMap) (a : String) :
    (updateAsset_prepare env w u a).2.counters = w.counters := by
  simp [updateAsset_prepare, (updateAsset_resolve_ext env w u).counters]

@[simp] theorem updateAsset_prepare_createCalls (env : Env) (w : World) (u : GoMap)
    (a : String) : createCalls (updateAsset_prepare env w u a).2.trace = createCalls w.trace := by
  simp [updateAsset_prepare, (updateAsset_resolve_ext env w u).createCalls]

@[simp] theorem updateAsset_prepare_updateCalls (env : Env) (w : World) (u : GoMap)
    (a : String) : updateCalls (updateAsset_prepare env w u a).2.trace = updateCalls w.trace := by
  simp [updateAsset_prepare, (updateAsset_resolve_ext env w u).updateCalls]

theorem updateCalls_append (a b : List Event) :
    updateCalls (a ++ b) = updateCalls a ++ updateCalls b := by
  simp [updateCalls, List.filterMap_append]

theorem createCalls_append (a b : List Event) :
    createCalls (a ++ b) = createCalls a ++ createCalls b := by
  simp [createCalls, List.filterMap_append]

@[simp] theorem updateCalls_nil : updateCalls [] = [] := rfl

@[simp] theorem createCalls_nil : createCalls [] = [] := rfl

@[simp] theorem updateCalls_cons_update (s : String) (ps : List XmlTok) (es : List Event) :
    updateCalls (Event.Invoke s "entityUpdateRecord" ps :: es) = ps :: updateCalls es := by
  simp [updateCalls, Event.requestOf]

@[simp] theorem createCalls_cons_update (s : String) (ps : List XmlTok) (es : List Event) :
    createCalls (Event.Invoke s "entityUpdateRecord" ps :: es) = createCalls es := by
  simp [createCalls, Event.requestOf]

@[simp] theorem createCalls_cons_create (s : String) (ps : List XmlTok) (es : List Event) :
    createCalls (Event.Invoke s "entityAddRecord" ps :: es) = ps :: createCalls es := by
  simp [createCalls, Event.requestOf]

@[simp] theorem updateCalls_cons_create (s : String) (ps : List XmlTok) (es : List Event) :
    updateCalls (Event.Invoke s "entityAddRecord" ps :: es) = updateCalls es := by
  simp [updateCalls, Event.requestOf]

@[simp] theorem updateCalls_cons_browse (s : String) (ps : List XmlTok) (es : List Event) :
    updateCalls (Event.Invoke s "entityBrowseRecords2" ps :: es) = updateCalls es := by
  simp [updateCalls, Event.requestOf]

@[simp] theorem createCalls_cons_browse (s : String) (ps : List XmlTok) (es : List Event) :
    createCalls (Event.Invoke s "entityBrowseRecords2" ps :: es) = createCalls es := by
  simp [createCalls, Event.requestOf]

/-! ## The submission part of `updateAsset` and `createAsset`, by outcome -/

/-- The state after the stamp call of line 667, issued after the related call. -/
def updateAsset_stampCall (env : Env) (w : World) (u : GoMap) (strAssetID : String) :
    Except String String × World :=
  Invoke env ((updateAsset_extCall env w u strAssetID).2.emit
    (updateAsset_stampParams env strAssetID)) "data" "entityUpdateRecord"

/-- The function `updateAsset` read through `updateResponse`: the paths that share one
treatment in the source are grouped. -/
theorem updateAsset_eq (env : Env) (w : World) (u : GoMap) (a : String) :
    updateAsset env w u a =
      if env.configDryRun = false then
        match updateResponse env (updateAsset_call env w u a).1 with
        | none => (false, (updateAsset_call env w u a).2.incUpdatedSkipped)
        | some r1 =>
          match updateResponse env (updateAsset_extCall env w u a).1 with
          | none => (false, (updateAsset_extCall env w u a).2.incUpdatedSkipped)
          | some r2 =>
            if r1.ColList = [] ∧ r2.ColList = [] then
              (true, (updateAsset_extCall env w u a).2.incUpdatedSkipped)
            else (true, (updateAsset_stampCall env w u a).2.incUpdated)
      else (true, (updateAsset_prepare env w u a).2.incUpdatedSkipped.ClearParam) := by
  unfold updateAsset
  by_cases hdry : env.configDryRun = false
  · simp only [hdry, if_true]
    change (match (updateAsset_call env w u a).1 with
      | Except.error _ => _
      | Except.ok XMLUpdate => _) = _
    unfold updateResponse
    cases hc : (updateAsset_call env w u a).1 with
    | error e => rfl
    | ok body =>
      simp only []
      cases hu : env.unmarshalUpdateResponse body with
      | error e => rfl
      | ok r1 =>
        simp only []
        by_cases hr : r1.MethodResult ≠ "ok" ∧ r1.ErrorRet ≠ "There are no values to update"
        · rw [if_pos hr, if_pos hr]; rfl
        · rw [if_neg hr, if_neg hr]
          simp only []
          change (match (updateAsset_extCall env w u a).1 with
            | Except.error _ => _
            | Except.ok XMLUpdateExt => _) = _
          cases hce : (updateAsset_extCall env w u a).1 with
          | error e => rfl
          | ok bodyExt =>
            simp only []
            cases hue : env.unmarshalUpdateResponse bodyExt with
            | error e => rfl
            | ok r2 =>
              simp only []
              by_cases hr2 : r2.MethodResult ≠ "ok"
                  ∧ r2.ErrorRet ≠ "There are no values to update"
              · rw [if_pos hr2, if_pos hr2]; rfl
              · rw [if_neg hr2, if_neg hr2]
                simp only []
                cases h1 : r1.ColList <;> cases h2 : r2.ColList <;> simp <;> rfl
  · rw [if_neg hdry, if_neg hdry]

/-- The checks applied to the create answer (lines 325-346): `none` for a transport
error, `some false` for an unreadable body or a result other than `ok`, `some true` for
`ok`. -/
def createOutcome (env : Env) (res : Except String String) : Option Bool :=
  match res with
  | Except.error _ => none
  | Except.ok body =>
    match env.unmarshalUpdateResponse body with
    | Except.error _ => some false
    | Except.ok r => if r.MethodResult ≠ "ok" then some false else some true

/-- The counters after `createAsset`, by outcome of the create call. -/
theorem createAsset_counters_eq (env : Env) (w : World) (u : GoMap) :
    (createAsset env w u).counters =
      if env.configDryRun = false then
        match createOutcome env (createAsset_call env w u).1 with
        | none => w.counters
        | some false => { w.counters with createskipped := w.counters.createskipped + 1 }
        | some true => { w.counters with created := w.counters.created + 1 }
      else { w.counters with createskipped := w.counters.createskipped + 1 } := by
  unfold createAsset
  by_cases hdry : env.configDryRun = false
  · simp only [hdry, if_true]
    change World.counters (match (createAsset_call env w u).1 with
      | Except.error _ => _
      | Except.ok XMLCreate => _) = _
    unfold createOutcome
    cases hc : (createAsset_call env w u).1 with
    | error e => simp [createAsset_call] 
    | ok body =>
      simp only []
      cases hu : env.unmarshalUpdateResponse body with
      | error e => simp [createAsset_call]
      | ok r =>
        simp only []
        by_cases hr : r.MethodResult ≠ "ok"
        · rw [if_pos hr, if_pos hr]; simp [createAsset_call]
        · rw [if_neg hr, if_neg hr]; simp [createAsset_followUp_eq, createAsset_call]
  · rw [if_neg hdry, if_neg hdry]; simp

@[simp] theorem updateAsset_call_counters (env : Env) (w : World) (u : GoMap) (a : String) :
    (updateAsset_call env w u a).2.counters = w.counters := by
  simp [updateAsset_call]

@[simp] theorem updateAsset_extCall_counters (env : Env) (w : World) (u : GoMap) (a : String) :
    (updateAsset_extCall env w u a).2.counters = w.counters := by
  simp [updateAsset_extCall]

@[simp] theorem updateAsset_stampCall_counters (env : Env) (w : World) (u : GoMap)
    (a : String) : (updateAsset_stampCall env w u a).2.counters = w.counters := by
  simp [updateAsset_stampCall]

theorem updateAsset_call_updateCalls (env : Env) (w : World) (u : GoMap) (a : String) :
    updateCalls (updateAsset_call env w u a).2.trace
      = updateCalls w.trace ++ [(updateAsset_prepare env w u a).2.params] := by
  simp [updateAsset_call, updateCalls_append]

theorem updateAsset_extCall_updateCalls (env : Env) (w : World) (u : GoMap) (a : String) :
    updateCalls (updateAsset_extCall env w u a).2.trace
      = updateCalls w.trace ++ [(updateAsset_prepare env w u a).2.params,
          updateAsset_extParams env (updateAsset_prepare env w u a).1 u a] := by
  have h : (updateAsset_call env w u a).2.params = [] := rfl
  simp [updateAsset_extCall, updateCalls_append, updateAsset_call_updateCalls, h]

theorem updateAsset_stampCall_updateCalls (env : Env) (w : World) (u : GoMap) (a : String) :
    updateCalls (updateAsset_stampCall env w u a).2.trace
      = updateCalls w.trace ++ [(updateAsset_prepare env w u a).2.params,
          updateAsset_extParams env (updateAsset_prepare env w u a).1 u a,
          updateAsset_stampParams env a] := by
  have h : (updateAsset_extCall env w u a).2.params = [] := rfl
  simp [updateAsset_stampCall, updateCalls_append, updateAsset_extCall_updateCalls, h]

theorem incrementedOnce_created (c : counterTypeStruct) :
    IncrementedOnce c { c with created := c.created + 1 } :=
  ⟨CounterKind.created, rfl, fun j hj => by cases j <;> first | rfl | exact absurd rfl hj⟩

theorem incrementedOnce_createskipped (c : counterTypeStruct) :
    IncrementedOnce c { c with createskipped := c.createskipped + 1 } :=
  ⟨CounterKind.createskipped, rfl, fun j hj => by cases j <;> first | rfl | exact absurd rfl hj⟩

theorem incrementedOnce_updated (c : counterTypeStruct) :
    IncrementedOnce c { c with updated := c.updated + 1 } :=
  ⟨CounterKind.updated, rfl, fun j hj => by cases j <;> first | rfl | exact absurd rfl hj⟩

theorem incrementedOnce_updatedSkipped (c : counterTypeStruct) :
    IncrementedOnce c { c with updatedSkipped := c.updatedSkipped + 1 } :=
  ⟨CounterKind.updatedSkipped, rfl, fun j hj => by cases j <;> first | rfl | exact absurd rfl hj⟩

theorem not_incrementedOnce_self (c : counterTypeStruct) : ¬ IncrementedOnce c c := by
  rintro ⟨k, hk, _⟩
  omega

/-- The counters after `updateAsset`, by outcome of the two update calls. -/
theorem updateAsset_counters_eq (env : Env) (w : World) (u : GoMap) (a : String) :
    (updateAsset env w u a).2.counters =
      if env.configDryRun = false then
        match updateResponse env (updateAsset_call env w u a).1 with
        | none => { w.counters with updatedSkipped := w.counters.updatedSkipped + 1 }
        | some r1 =>
          match updateResponse env (updateAsset_extCall env w u a).1 with
          | none => { w.counters with updatedSkipped := w.counters.updatedSkipped + 1 }
          | some r2 =>
            if r1.ColList = [] ∧ r2.ColList = [] then
              { w.counters with updatedSkipped := w.counters.updatedSkipped + 1 }
            else { w.counters with updated := w.counters.updated + 1 }
      else { w.counters with updatedSkipped := w.counters.updatedSkipped + 1 } := by
  rw [updateAsset_eq]
  by_cases hdry : env.configDryRun = false
  · rw [if_pos hdry, if_pos hdry]
    cases updateResponse env (updateAsset_call env w u a).1 with
    | none => simp
    | some r1 =>
      cases updateResponse env (updateAsset_extCall env w u a).1 with
      | none => simp
      | some r2 =>
        by_cases hc : r1.ColList = [] ∧ r2.ColList = []
        · simp only [if_pos hc]; simp
        · simp only [if_neg hc]; simp
  · rw [if_neg hdry, if_neg hdry]; simp

theorem updateAsset_incrementedOnce (env : Env) (w : World) (u : GoMap) (a : String) :
    IncrementedOnce w.counters (updateAsset env w u a).2.counters := by
  rw [updateAsset_counters_eq]
  split_ifs
  · split
    · exact incrementedOnce_updatedSkipped _
    · split
      · exact incrementedOnce_updatedSkipped _
      · split_ifs
        · exact incrementedOnce_updatedSkipped _
        · exact incrementedOnce_updated _
  · exact incrementedOnce_updatedSkipped _

theorem rowSearch_counters (env : Env) (w : World) (i : assetIdentifierStruct) (r : GoMap) :
    (rowSearch env w i r).2.counters = w.counters := by
  unfold rowSearch getAssetID
  simp only []
  split
  · simp [getAssetIDCall]
  · split
    · simp [getAssetIDCall]
    · split_ifs <;> simp [getAssetIDCall]

theorem rowSearch_state (env : Env) (w : World) (i : assetIdentifierStruct) (r : GoMap) :
    (rowSearch env w i r).2
      = (getAssetIDCall env w.ClearParam (sprintfS (r.lookup i.DBColumn)) i).2 := by
  unfold rowSearch getAssetID
  simp only []
  split
  · rfl
  · split
    · rfl
    · split_ifs <;> rfl

/-! ## Sample runs -/

/-- Found, primary update changes a column, related update changes nothing, stamp call
fails in transport. -/
def envUpdateChanged : Env :=
  { sampleEnv with
    Invoke := scripted [Except.ok "changed", Except.ok "unchanged"] }

/-- Both update calls answer with the no-values notice. -/
def envUpdateUnchanged : Env :=
  { sampleEnv with
    Invoke := scripted [Except.ok "unchanged", Except.ok "unchanged"] }

/-- The primary update changes a column, the related update fails in transport. -/
def envRelatedFails : Env :=
  { sampleEnv with Invoke := scripted [Except.ok "changed"] }

/-- Dry run: the search finds nothing, nothing else is sent. -/
def envDryRun : Env :=
  { sampleEnv with configDryRun := true, Invoke := scripted [Except.ok "absent"] }

/-- The decoded answer `changed` of the samples. -/
def respChanged : xmlmcUpdateResponse :=
  { MethodResult := "ok", ErrorRet := "", ColList := ["h_name"], AssetPK := "77" }

/-- The decoded answer `unchanged` of the samples. -/
def respUnchanged : xmlmcUpdateResponse :=
  { MethodResult := "fail", ErrorRet := "There are no values to update", ColList := [],
    AssetPK := "" }

/-! ## C1: one counter increment per row -/

/-- C1 (counterexample): with a transport that fails, the existence search of the sample
row fails and the row finishes with every counter unchanged, so no counter was
incremented for it. -/
theorem processRow_search_failure_uncounted :
    (processRow sampleEnv sampleWorld sampleIdentifier sampleRow).counters
        = sampleWorld.counters
    ∧ ¬ IncrementedOnce sampleWorld.counters
        (processRow sampleEnv sampleWorld sampleIdentifier sampleRow).counters := by
  have h : (processRow sampleEnv sampleWorld sampleIdentifier sampleRow).counters
      = sampleWorld.counters := by decide
  exact ⟨h, by rw [h]; exact not_incrementedOnce_self _⟩

/-- C1 (amended): a row whose existence search fails leaves every counter unchanged; a
row whose existence search succeeds has exactly one counter incremented, by exactly one,
in dry-run and in normal mode and whatever the remote calls answer, provided that the
create call, when the row is routed to `createAsset` outside dry-run, does not end in a
transport error. -/
theorem processRow_counter_outcome (env : Env) (w : World) (i : assetIdentifierStruct)
    (r : GoMap) :
    ((rowSearch env w i r).1.2.1 = false → (processRow env w i r).counters = w.counters)
    ∧ ((rowSearch env w i r).1.2.1 = true →
        ((rowSearch env w i r).1.1 = false → env.configDryRun = false →
          createOutcome env (createAsset_call env (rowSearch env w i r).2 r).1 ≠ none) →
        IncrementedOnce w.counters (processRow env w i r).counters) := by
  constructor
  · intro hs
    unfold processRow
    simp only [hs]
    exact rowSearch_counters env w i r
  · intro hs hc
    unfold processRow
    simp only [hs, if_true]
    rw [← rowSearch_counters env w i r]
    by_cases hb : (rowSearch env w i r).1.1 = true
    · rw [if_pos hb]
      exact updateAsset_incrementedOnce env _ r _
    · rw [if_neg hb]
      have hb' : (rowSearch env w i r).1.1 = false := by simpa using hb
      rw [createAsset_counters_eq]
      by_cases hdry : env.configDryRun = false
      · rw [if_pos hdry]
        have hne := hc hb' hdry
        cases ho : createOutcome env (createAsset_call env (rowSearch env w i r).2 r).1 with
        | none => exact absurd ho hne
        | some b =>
          cases b
          · exact incrementedOnce_createskipped _
          · exact incrementedOnce_created _
      · rw [if_neg hdry]
        exact incrementedOnce_createskipped _

/-! ## C2: classification of an update -/

/-- C2: outside dry-run, when neither the primary nor the related update hard-fails
(`updateResponse` yields the decoded answers `r1` and `r2`), the counters after
`updateAsset` are the old ones with `updated` one higher if `r1` or `r2` lists a changed
column, and with `updatedSkipped` one higher otherwise; so `updated` grows exactly when a
column changed, `updatedSkipped` exactly when none did.  Nothing is assumed about the
answer to the stamp call. -/
theorem updateAsset_classification (env : Env) (w : World) (u : GoMap) (a : String)
    (r1 r2 : xmlmcUpdateResponse)
    (hdry : env.configDryRun = false)
    (h1 : updateResponse env (updateAsset_call env w u a).1 = some r1)
    (h2 : updateResponse env (updateAsset_extCall env w u a).1 = some r2) :
    (updateAsset env w u a).2.counters
        = (if r1.ColList ≠ [] ∨ r2.ColList ≠ [] then
            { w.counters with updated := w.counters.updated + 1 }
          else { w.counters with updatedSkipped := w.counters.updatedSkipped + 1 })
    ∧ ((updateAsset env w u a).2.counters.updated = w.counters.updated + 1
        ↔ (r1.ColList ≠ [] ∨ r2.ColList ≠ []))
    ∧ ((updateAsset env w u a).2.counters.updatedSkipped = w.counters.updatedSkipped + 1
        ↔ ¬ (r1.ColList ≠ [] ∨ r2.ColList ≠ []))
    ∧ IncrementedOnce w.counters (updateAsset env w u a).2.counters := by
  have hc := updateAsset_counters_eq env w u a
  rw [if_pos hdry, h1] at hc
  simp only [h2] at hc
  by_cases hch : r1.ColList ≠ [] ∨ r2.ColList ≠ []
  · have hn : ¬ (r1.ColList = [] ∧ r2.ColList = []) := by
      rintro ⟨ha, hb⟩
      rcases hch with h | h
      · exact h ha
      · exact h hb
    rw [if_neg hn] at hc
    rw [hc, if_pos hch]
    exact ⟨rfl, by simp [hch], by simp [hch], incrementedOnce_updated _⟩
  · have hn : r1.ColList = [] ∧ r2.ColList = [] := by
      constructor
      · by_contra h; exact hch (Or.inl h)
      · by_contra h; exact hch (Or.inr h)
    rw [if_pos hn] at hc
    rw [hc, if_neg hch]
    exact ⟨rfl, by simp [hch], by simp [hch], incrementedOnce_updatedSkipped _⟩

/-- C2 (witness): the sample run in which the primary update changes `h_name` and the
related update has nothing to change is counted as updated, although the stamp call that
follows fails in transport. -/
theorem updateAsset_classification_witness :
    envUpdateChanged.configDryRun = false
    ∧ updateResponse envUpdateChanged
        (updateAsset_call envUpdateChanged sampleWorld sampleRow "77").1 = some respChanged
    ∧ updateResponse envUpdateChanged
        (updateAsset_extCall envUpdateChanged sampleWorld sampleRow "77").1 = some respUnchanged
    ∧ (updateAsset envUpdateChanged sampleWorld sampleRow "77").2.counters.updated = 1
    ∧ (updateAsset_stampCall envUpdateChanged sampleWorld sampleRow "77").1
        = Except.error "connection refused" := by
  have h := updateAsset_classification envUpdateChanged sampleWorld sampleRow "77"
    respChanged respUnchanged (by decide) (by decide) (by decide)
  refine ⟨by decide, by decide, by decide, ?_, rfl⟩
  exact h.2.1.mpr (Or.inl (by decide))

/-! ## C3: the last-updated stamp call -/

/-- C3 (counterexample): in the sample run the primary update is accepted and lists the
changed column `h_name`, the related update then fails in transport; a column did change,
yet only two update calls were made and the stamp request is not among them. -/
theorem updateAsset_stamp_missing_after_change :
    envRelatedFails.configDryRun = false
    ∧ updateResponse envRelatedFails
        (updateAsset_call envRelatedFails sampleWorld sampleRow "77").1 = some respChanged
    ∧ respChanged.ColList ≠ []
    ∧ (updateCalls (updateAsset envRelatedFails sampleWorld sampleRow "77").2.trace).length = 2
    ∧ updateAsset_stampParams envRelatedFails "77"
        ∉ updateCalls (updateAsset envRelatedFails sampleWorld sampleRow "77").2.trace := by
  refine ⟨by decide, by decide, by decide, by decide, by decide⟩

/-- C3 (amended): outside dry-run, when neither the primary nor the related update
hard-fails, the update requests sent by `updateAsset` are the primary request, the related
request and then the stamp request (`h_last_updated`, `h_last_updated_by` =
`Import - Update`) exactly when `r1` or `r2` lists a changed column; when both lists are
empty they are the primary and the related request only. -/
theorem updateAsset_stamp_iff_changed (env : Env) (w : World) (u : GoMap) (a : String)
    (r1 r2 : xmlmcUpdateResponse)
    (hdry : env.configDryRun = false)
    (h1 : updateResponse env (updateAsset_call env w u a).1 = some r1)
    (h2 : updateResponse env (updateAsset_extCall env w u a).1 = some r2) :
    (updateCalls (updateAsset env w u a).2.trace
        = updateCalls w.trace ++ [(updateAsset_prepare env w u a).2.params,
            updateAsset_extParams env (updateAsset_prepare env w u a).1 u a,
            updateAsset_stampParams env a]
      ↔ (r1.ColList ≠ [] ∨ r2.ColList ≠ []))
    ∧ ((r1.ColList = [] ∧ r2.ColList = []) →
        updateCalls (updateAsset env w u a).2.trace
          = updateCalls w.trace ++ [(updateAsset_prepare env w u a).2.params,
              updateAsset_extParams env (updateAsset_prepare env w u a).1 u a])
    ∧ XmlTok.SetParam "h_last_updated_by" "Import - Update" ∈ updateAsset_stampParams env a
    ∧ XmlTok.SetParam "h_last_updated" env.APITimeNow ∈ updateAsset_stampParams env a := by
  have he := updateAsset_eq env w u a
  rw [if_pos hdry, h1] at he
  simp only [h2] at he
  have hskip : (r1.ColList = [] ∧ r2.ColList = []) →
      updateCalls (updateAsset env w u a).2.trace
        = updateCalls w.trace ++ [(updateAsset_prepare env w u a).2.params,
            updateAsset_extParams env (updateAsset_prepare env w u a).1 u a] := by
    intro hn
    rw [if_pos hn] at he
    rw [he]
    simpa using updateAsset_extCall_updateCalls env w u a
  refine ⟨⟨?_, ?_⟩, hskip, by simp [updateAsset_stampParams], by simp [updateAsset_stampParams]⟩
  · intro hcalls
    by_contra hch
    have hn : r1.ColList = [] ∧ r2.ColList = [] := by
      constructor
      · by_contra h; exact hch (Or.inl h)
      · by_contra h; exact hch (Or.inr h)
    have hlen := congrArg List.length ((hskip hn).symm.trans hcalls)
    simp at hlen
  · intro hch
    have hn : ¬ (r1.ColList = [] ∧ r2.ColList = []) := by
      rintro ⟨ha, hb⟩
      rcases hch with h | h
      · exact h ha
      · exact h hb
    rw [if_neg hn] at he
    rw [he]
    simpa using updateAsset_stampCall_updateCalls env w u a

/-- C3 (witness): in the sample run where both update calls answer with the no-values
notice, exactly the primary and the related request are sent. -/
theorem updateAsset_stamp_iff_changed_witness :
    envUpdateUnchanged.configDryRun = false
    ∧ updateResponse envUpdateUnchanged
        (updateAsset_call envUpdateUnchanged sampleWorld sampleRow "77").1 = some respUnchanged
    ∧ updateResponse envUpdateUnchanged
        (updateAsset_extCall envUpdateUnchanged sampleWorld sampleRow "77").1
          = some respUnchanged
    ∧ updateCalls (updateAsset envUpdateUnchanged sampleWorld sampleRow "77").2.trace
        = updateCalls sampleWorld.trace
            ++ [(updateAsset_prepare envUpdateUnchanged sampleWorld sampleRow "77").2.params,
                updateAsset_extParams envUpdateUnchanged
                  (updateAsset_prepare envUpdateUnchanged sampleWorld sampleRow "77").1
                  sampleRow "77"] :=
  ⟨by decide, by decide, by decide,
    (updateAsset_stamp_iff_changed envUpdateUnchanged sampleWorld sampleRow "77"
      respUnchanged respUnchanged (by decide) (by decide) (by decide)).2.1
      ⟨by decide, by decide⟩⟩

/-! ## C4: dry run -/

/-- C4: in dry-run `createAsset` and `updateAsset` send no `entityAddRecord` and no
`entityUpdateRecord` request; `createAsset` adds one to `createskipped`, `updateAsset` adds
one to `updatedSkipped`, and every other counter, `created` and `updated` included, keeps
its value. -/
theorem dryRun_no_submission (env : Env) (w : World) (u : GoMap) (a : String)
    (hdry : env.configDryRun = true) :
    (createCalls (createAsset env w u).trace = createCalls w.trace
      ∧ updateCalls (createAsset env w u).trace = updateCalls w.trace
      ∧ (createAsset env w u).counters
          = { w.counters with createskipped := w.counters.createskipped + 1 }
      ∧ (createAsset env w u).counters.created = w.counters.created
      ∧ (createAsset env w u).counters.updated = w.counters.updated)
    ∧ (createCalls (updateAsset env w u a).2.trace = createCalls w.trace
      ∧ updateCalls (updateAsset env w u a).2.trace = updateCalls w.trace
      ∧ (updateAsset env w u a).2.counters
          = { w.counters with updatedSkipped := w.counters.updatedSkipped + 1 }
      ∧ (updateAsset env w u a).2.counters.created = w.counters.created
      ∧ (updateAsset env w u a).2.counters.updated = w.counters.updated) := by
  have hc : createAsset env w u = (createAsset_prepare env w u).incCreateskipped.ClearParam := by
    unfold createAsset
    simp [hdry]
  have hu : updateAsset env w u a
      = (true, (updateAsset_prepare env w u a).2.incUpdatedSkipped.ClearParam) := by
    unfold updateAsset
    simp [hdry]
  rw [hc, hu]
  simp

/-- C4 (witness): the sample row under dry-run, through `createAsset` and through
`updateAsset`. -/
theorem dryRun_no_submission_witness :
    envDryRun.configDryRun = true
    ∧ createCalls (createAsset envDryRun sampleWorld sampleRow).trace = []
    ∧ (createAsset envDryRun sampleWorld sampleRow).counters.createskipped = 1
    ∧ updateCalls (updateAsset envDryRun sampleWorld sampleRow "77").2.trace = []
    ∧ (updateAsset envDryRun sampleWorld sampleRow "77").2.counters.updatedSkipped = 1 := by
  have h := dryRun_no_submission envDryRun sampleWorld sampleRow "77" (by decide)
  refine ⟨by decide, h.1.1, ?_, h.2.2.1, ?_⟩
  · rw [h.1.2.2.1]; rfl
  · rw [h.2.2.2.1]; rfl

/-! ## C5: getAssetID -/

/-- C5: `getAssetID` returns `(matched, callSucceeded, id)` where `callSucceeded` holds
exactly when the transport returned a body, the body was decoded and its result is `ok`;
`matched` holds exactly when `callSucceeded` holds and `id` is not empty; a failed call
gives `matched = false` and the empty `id`; a successful call returns the asset id of the
answer, so an answer without a row gives `(false, true, "")`. -/
theorem getAssetID_result (env : Env) (w : World) (assetID : String)
    (i : assetIdentifierStruct) :
    ((getAssetID env w assetID i).1.2.1 = true ↔
        ∃ body resp, (getAssetIDCall env w assetID i).1 = Except.ok body
          ∧ env.unmarshalAssetResponse body = Except.ok resp ∧ resp.MethodResult = "ok")
    ∧ ((getAssetID env w assetID i).1.1 = true ↔
        ((getAssetID env w assetID i).1.2.1 = true ∧ (getAssetID env w assetID i).1.2.2 ≠ ""))
    ∧ ((getAssetID env w assetID i).1.2.1 = false →
        (getAssetID env w assetID i).1.1 = false ∧ (getAssetID env w assetID i).1.2.2 = "")
    ∧ (∀ body resp, (getAssetIDCall env w assetID i).1 = Except.ok body →
        env.unmarshalAssetResponse body = Except.ok resp → resp.MethodResult = "ok" →
        (getAssetID env w assetID i).1.2.2 = resp.AssetID
        ∧ (resp.AssetID = "" → (getAssetID env w assetID i).1 = (false, true, ""))) := by
  unfold getAssetID
  simp only []
  cases hc : (getAssetIDCall env w assetID i).1 with
  | error e => simp
  | ok body =>
    simp only []
    cases hu : env.unmarshalAssetResponse body with
    | error e =>
      refine ⟨by simp [hu], by simp, by simp, ?_⟩
      intro b resp hb hr
      cases hb
      rw [hu] at hr
      cases hr
    | ok resp =>
      simp only []
      by_cases hm : resp.MethodResult = "ok"
      · by_cases hid : resp.AssetID = ""
        · refine ⟨by simp [hu, hm, hid], by simp [hm, hid], by simp [hm, hid], ?_⟩
          intro b resp' hb hr _
          cases hb
          rw [hu] at hr
          cases hr
          simp [hm, hid]
        · refine ⟨by simp [hu, hm, hid], by simp [hm, hid], by simp [hm, hid], ?_⟩
          intro b resp' hb hr _
          cases hb
          rw [hu] at hr
          cases hr
          simp [hm, hid]
      · refine ⟨by simp [hu, hm], by simp [hm], by simp [hm], ?_⟩
        intro b resp' hb hr hm'
        cases hb
        rw [hu] at hr
        cases hr
        exact absurd hm' hm

theorem getAssetID_pair (env : Env) (w : World) (assetID : String) (i : assetIdentifierStruct) :
    ((getAssetID env w assetID i).1.1 = true → (getAssetID env w assetID i).1.2.1 = true)
    ∧ ((getAssetID env w assetID i).1.2.1 = false → (getAssetID env w assetID i).1.2.2 = "") := by
  unfold getAssetID
  simp only []
  split
  · simp
  · split
    · simp
    · split_ifs <;> simp

/-! ## C6: routing after the existence search -/

/-- C6: a row whose existence search fails is abandoned: the state after the row is the
state after the search, the only remote call is the `entityBrowseRecords2` search, no
create or update request is sent and all counters keep their values.  A row whose search
succeeded and matched continues as `updateAsset` with the returned id, a row whose search
succeeded without a match continues as `createAsset`; a match is never reported by a
failed search, so these are the only ways into either function. -/
theorem processRow_routing (env : Env) (w : World) (i : assetIdentifierStruct) (r : GoMap) :
    ((rowSearch env w i r).1.2.1 = false →
        processRow env w i r = (rowSearch env w i r).2
        ∧ (processRow env w i r).trace
            = w.trace ++ [Event.Invoke "data" "entityBrowseRecords2"
                (getAssetIDParams env (sprintfS (r.lookup i.DBColumn)) i)]
        ∧ createCalls (processRow env w i r).trace = createCalls w.trace
        ∧ updateCalls (processRow env w i r).trace = updateCalls w.trace
        ∧ (processRow env w i r).counters = w.counters)
    ∧ ((rowSearch env w i r).1.2.1 = true → (rowSearch env w i r).1.1 = true →
        processRow env w i r
          = (updateAsset env (rowSearch env w i r).2 r (rowSearch env w i r).1.2.2).2)
    ∧ ((rowSearch env w i r).1.2.1 = true → (rowSearch env w i r).1.1 = false →
        processRow env w i r = createAsset env (rowSearch env w i r).2 r)
    ∧ ((rowSearch env w i r).1.1 = true → (rowSearch env w i r).1.2.1 = true) := by
  refine ⟨?_, ?_, ?_, ?_⟩
  · intro hs
    have hp : processRow env w i r = (rowSearch env w i r).2 := by
      unfold processRow
      simp only [hs]
      rfl
    have ht : (rowSearch env w i r).2.trace
        = w.trace ++ [Event.Invoke "data" "entityBrowseRecords2"
            (getAssetIDParams env (sprintfS (r.lookup i.DBColumn)) i)] := by
      rw [rowSearch_state]
      simp [getAssetIDCall]
    rw [hp]
    refine ⟨rfl, ht, ?_, ?_, rowSearch_counters env w i r⟩
    · rw [ht, createCalls_append]; simp
    · rw [ht, updateCalls_append]; simp
  · intro hs hb
    unfold processRow
    simp only [hs, hb, if_true]
  · intro hs hb
    unfold processRow
    simp only [hs, hb, if_true]
    rfl
  · intro hb
    have h := (getAssetID_pair env w.ClearParam (sprintfS (r.lookup i.DBColumn)) i).1
    exact h hb

/-! ## C7: submission failures of the create call -/

/-- An unreadable answer to the create call. -/
def envCreateUnreadable : Env :=
  { sampleEnv with Invoke := scripted [Except.ok "garbage"] }

/-- C7 (the code at the failing input): outside dry-run, when the `entityAddRecord` call
of the sample row ends in a transport error, the request was sent and every counter keeps
its value; the sibling failure, an unreadable answer, adds one to `createskipped`. -/
theorem createAsset_transport_error_uncounted :
    sampleEnv.configDryRun = false
    ∧ (createAsset_call sampleEnv sampleWorld sampleRow).1 = Except.error "connection refused"
    ∧ (createCalls (createAsset sampleEnv sampleWorld sampleRow).trace).length = 1
    ∧ (createAsset sampleEnv sampleWorld sampleRow).counters = sampleWorld.counters
    ∧ (createAsset envCreateUnreadable sampleWorld sampleRow).counters.createskipped = 1 :=
  ⟨by decide, rfl, by decide, by decide, by decide⟩

/-! ## C8: hard failures of the update calls -/

theorem updateResponse_eq_none_iff (env : Env) (res : Except String String) :
    updateResponse env res = none ↔
      ((∃ e, res = Except.error e)
        ∨ (∃ body e, res = Except.ok body ∧ env.unmarshalUpdateResponse body = Except.error e)
        ∨ (∃ body r, res = Except.ok body ∧ env.unmarshalUpdateResponse body = Except.ok r
            ∧ r.MethodResult ≠ "ok" ∧ r.ErrorRet ≠ "There are no values to update")) := by
  unfold updateResponse
  cases res with
  | error e => simp
  | ok body =>
    simp only []
    cases hu : env.unmarshalUpdateResponse body with
    | error e => simp [hu]
    | ok r =>
      simp only []
      by_cases hr : r.MethodResult ≠ "ok" ∧ r.ErrorRet ≠ "There are no values to update"
      · rw [if_pos hr]
        simp [hu, hr.1, hr.2]
      · rw [if_neg hr]
        simp only [false_iff, reduceCtorEq]
        rintro (⟨e, he⟩ | ⟨b, e, hb, he⟩ | ⟨b, r', hb, hr', h1, h2⟩)
        · cases he
        · cases hb; rw [hu] at he; cases he
        · cases hb; rw [hu] at hr'; cases hr'; exact hr ⟨h1, h2⟩

theorem updateResponse_eq_some_iff (env : Env) (res : Except String String)
    (r : xmlmcUpdateResponse) :
    updateResponse env res = some r ↔
      ∃ body, res = Except.ok body ∧ env.unmarshalUpdateResponse body = Except.ok r
        ∧ (r.MethodResult = "ok" ∨ r.ErrorRet = "There are no values to update") := by
  unfold updateResponse
  cases res with
  | error e => simp
  | ok body =>
    simp only []
    cases hu : env.unmarshalUpdateResponse body with
    | error e => simp [hu]
    | ok r' =>
      simp only []
      by_cases hr : r'.MethodResult ≠ "ok" ∧ r'.ErrorRet ≠ "There are no values to update"
      · rw [if_pos hr]
        simp only [false_iff, reduceCtorEq]
        rintro ⟨b, hb, hr', h⟩
        cases hb; rw [hu] at hr'; cases hr'
        rcases h with h | h
        · exact hr.1 h
        · exact hr.2 h
      · rw [if_neg hr]
        constructor
        · intro h
          cases h
          refine ⟨body, rfl, hu, ?_⟩
          by_contra hc
          exact hr ⟨fun h => hc (Or.inl h), fun h => hc (Or.inr h)⟩
        · rintro ⟨b, hb, hr', _⟩
          cases hb; rw [hu] at hr'; cases hr'; rfl

/-- C8: outside dry-run, a hard failure of the primary update (`updateResponse` is `none`:
transport error, unreadable answer, or a result that is neither `ok` nor the no-values
notice) makes `updateAsset` return false with `updatedSkipped` one higher and all other
counters unchanged, the primary request being the only update request sent.  A hard
failure of the related update, after a primary answer `r1` that was accepted whatever
columns it lists, makes it return false with `updatedSkipped` one higher, the primary and
the related request being the only update requests sent. -/
theorem updateAsset_hard_failure (env : Env) (w : World) (u : GoMap) (a : String)
    (hdry : env.configDryRun = false) :
    (updateResponse env (updateAsset_call env w u a).1 = none →
        (updateAsset env w u a).1 = false
        ∧ (updateAsset env w u a).2.counters
            = { w.counters with updatedSkipped := w.counters.updatedSkipped + 1 }
        ∧ updateCalls (updateAsset env w u a).2.trace
            = updateCalls w.trace ++ [(updateAsset_prepare env w u a).2.params])
    ∧ (∀ r1, updateResponse env (updateAsset_call env w u a).1 = some r1 →
        updateResponse env (updateAsset_extCall env w u a).1 = none →
        (updateAsset env w u a).1 = false
        ∧ (updateAsset env w u a).2.counters
            = { w.counters with updatedSkipped := w.counters.updatedSkipped + 1 }
        ∧ updateCalls (updateAsset env w u a).2.trace
            = updateCalls w.trace ++ [(updateAsset_prepare env w u a).2.params,
                updateAsset_extParams env (updateAsset_prepare env w u a).1 u a])
    ∧ (∀ res, updateResponse env res = none ↔
        ((∃ e, res = Except.error e)
          ∨ (∃ body e, res = Except.ok body
              ∧ env.unmarshalUpdateResponse body = Except.error e)
          ∨ (∃ body r, res = Except.ok body ∧ env.unmarshalUpdateResponse body = Except.ok r
              ∧ r.MethodResult ≠ "ok" ∧ r.ErrorRet ≠ "There are no values to update"))) := by
  have he := updateAsset_eq env w u a
  rw [if_pos hdry] at he
  refine ⟨?_, ?_, fun res => updateResponse_eq_none_iff env res⟩
  · intro h1
    rw [h1] at he
    rw [he]
    refine ⟨rfl, by simp, ?_⟩
    simpa using updateAsset_call_updateCalls env w u a
  · intro r1 h1 h2
    rw [h1] at he
    simp only [h2] at he
    rw [he]
    refine ⟨rfl, by simp, ?_⟩
    simpa using updateAsset_extCall_updateCalls env w u a

/-- C8 (witness): with the failing transport the primary update of the sample row
hard-fails; in the run where the primary update changed `h_name` and the related update
fails in transport the row is counted once as update-skipped and two update requests went
out. -/
theorem updateAsset_hard_failure_witness :
    sampleEnv.configDryRun = false
    ∧ envRelatedFails.configDryRun = false
    ∧ updateResponse sampleEnv (updateAsset_call sampleEnv sampleWorld sampleRow "77").1 = none
    ∧ (updateAsset sampleEnv sampleWorld sampleRow "77").1 = false
    ∧ (updateAsset sampleEnv sampleWorld sampleRow "77").2.counters.updatedSkipped = 1
    ∧ updateResponse envRelatedFails
        (updateAsset_call envRelatedFails sampleWorld sampleRow "77").1 = some respChanged
    ∧ updateResponse envRelatedFails
        (updateAsset_extCall envRelatedFails sampleWorld sampleRow "77").1 = none
    ∧ (updateAsset envRelatedFails sampleWorld sampleRow "77").1 = false
    ∧ (updateAsset envRelatedFails sampleWorld sampleRow "77").2.counters.updatedSkipped = 1 := by
  have hA := (updateAsset_hard_failure sampleEnv sampleWorld sampleRow "77" (by decide)).1
    (by decide)
  have hB := (updateAsset_hard_failure envRelatedFails sampleWorld sampleRow "77"
    (by decide)).2.1 respChanged (by decide) (by decide)
  refine ⟨by decide, by decide, by decide, hA.1, ?_, by decide, by decide, hB.1, ?_⟩
  · rw [hA.2.1]; rfl
  · rw [hB.2.1]; rfl

/-! ## C9: counters only grow, by at most one per row -/

theorem IncrementedOnce.total {c c' : counterTypeStruct} (h : IncrementedOnce c c') :
    c'.total = c.total + 1 := by
  obtain ⟨k, hk, hj⟩ := h
  have h1 := hj CounterKind.created
  have h2 := hj CounterKind.createskipped
  have h3 := hj CounterKind.createFailed
  have h4 := hj CounterKind.updated
  have h5 := hj CounterKind.updatedSkipped
  have h6 := hj CounterKind.updateFailed
  have h7 := hj CounterKind.updateRelatedSkipped
  have h8 := hj CounterKind.updateRelatedFailed
  cases k <;> simp [counterTypeStruct.get, counterTypeStruct.total] at * <;> omega

theorem IncrementedOnce.le {c c' : counterTypeStruct} (h : IncrementedOnce c c')
    (j : CounterKind) : c.get j ≤ c'.get j := by
  obtain ⟨k, hk, hj⟩ := h
  by_cases hjk : j = k
  · rw [hjk, hk]; exact Nat.le_succ _
  · rw [hj j hjk]

theorem createAsset_counters_cases (env : Env) (w : World) (u : GoMap) :
    (createAsset env w u).counters = w.counters
      ∨ IncrementedOnce w.counters (createAsset env w u).counters := by
  rw [createAsset_counters_eq]
  split_ifs
  · split
    · exact Or.inl rfl
    · exact Or.inr (incrementedOnce_createskipped _)
    · exact Or.inr (incrementedOnce_created _)
  · exact Or.inr (incrementedOnce_createskipped _)

theorem processRow_counters_cases (env : Env) (w : World) (i : assetIdentifierStruct)
    (r : GoMap) :
    (processRow env w i r).counters = w.counters
      ∨ IncrementedOnce w.counters (processRow env w i r).counters := by
  unfold processRow
  simp only []
  rw [← rowSearch_counters env w i r]
  split_ifs
  · exact Or.inr (updateAsset_incrementedOnce env _ r _)
  · exact createAsset_counters_cases env _ r
  · exact Or.inl rfl

theorem counters_step_bound {c c' : counterTypeStruct}
    (h : c' = c ∨ IncrementedOnce c c') :
    c'.total ≤ c.total + 1 ∧ ∀ k : CounterKind, c.get k ≤ c'.get k := by
  rcases h with h | h
  · rw [h]; exact ⟨Nat.le_succ _, fun _ => Nat.le_refl _⟩
  · exact ⟨Nat.le_of_eq h.total, h.le⟩

/-- C9: after `createAsset`, after `updateAsset` and after a whole row of `processAssets`,
in either mode and whatever the remote calls answer, the sum of the outcome counters is at
most one more than before and no counter is lower than before. -/
theorem counters_never_decrease (env : Env) (w : World) (i : assetIdentifierStruct)
    (u : GoMap) (a : String) :
    ((createAsset env w u).counters.total ≤ w.counters.total + 1
      ∧ ∀ k : CounterKind, w.counters.get k ≤ (createAsset env w u).counters.get k)
    ∧ ((updateAsset env w u a).2.counters.total ≤ w.counters.total + 1
      ∧ ∀ k : CounterKind, w.counters.get k ≤ (updateAsset env w u a).2.counters.get k)
    ∧ ((processRow env w i u).counters.total ≤ w.counters.total + 1
      ∧ ∀ k : CounterKind, w.counters.get k ≤ (processRow env w i u).counters.get k) :=
  ⟨counters_step_bound (createAsset_counters_cases env w u),
   counters_step_bound (Or.inr (updateAsset_incrementedOnce env w u a)),
   counters_step_bound (processRow_counters_cases env w i u)⟩

/-! ## C10: the URN of a user reference -/

/-- The URN rule for the user references held in `refs`: a non-empty owner (used-by) name
comes with the URN `urn:sys:0:<name>:<id>`, an `h_owned_by` (`h_used_by`) mapping entry
emits exactly that URN and the name, and no other value is written to that field by the
loop; a last-logged-on URN that is emitted has the same format and is the only value
written to `h_last_logged_on_user`. -/
def UrnRule (env : Env) (u : GoMap) (refs : Refs) : Prop :=
  (refs.ownedByName ≠ "" →
      refs.ownedByURN = "urn:sys:0:" ++ refs.ownedByName ++ ":" ++ refs.ownedByID
      ∧ (∀ v, genericEntry env refs u "h_owned_by" v
          = [XmlTok.SetParam "h_owned_by"
               ("urn:sys:0:" ++ refs.ownedByName ++ ":" ++ refs.ownedByID),
             XmlTok.SetParam "h_owned_by_name" refs.ownedByName])
      ∧ (∀ x, XmlTok.SetParam "h_owned_by" x ∈ genericLoop env refs u →
          x = "urn:sys:0:" ++ refs.ownedByName ++ ":" ++ refs.ownedByID))
  ∧ (refs.usedByName ≠ "" →
      refs.usedByURN = "urn:sys:0:" ++ refs.usedByName ++ ":" ++ refs.usedByID
      ∧ (∀ v, genericEntry env refs u "h_used_by" v
          = [XmlTok.SetParam "h_used_by"
               ("urn:sys:0:" ++ refs.usedByName ++ ":" ++ refs.usedByID),
             XmlTok.SetParam "h_used_by_name" refs.usedByName])
      ∧ (∀ x, XmlTok.SetParam "h_used_by" x ∈ genericLoop env refs u →
          x = "urn:sys:0:" ++ refs.usedByName ++ ":" ++ refs.usedByID))
  ∧ (refs.lastLoggedOnByURN ≠ "" →
      refs.lastLoggedOnByURN
        = "urn:sys:0:" ++ refs.lastLoggedOnByName ++ ":" ++ refs.lastLoggedOnByID
      ∧ (∀ v, typeEntry env refs u "h_last_logged_on_user" v
          = [XmlTok.SetParam "h_last_logged_on_user"
               ("urn:sys:0:" ++ refs.lastLoggedOnByName ++ ":" ++ refs.lastLoggedOnByID)])
      ∧ (∀ x, XmlTok.SetParam "h_last_logged_on_user" x ∈ typeLoop env refs u →
          x = "urn:sys:0:" ++ refs.lastLoggedOnByName ++ ":" ++ refs.lastLoggedOnByID))

theorem resolveUser_urn (env : Env) (w : World) (u : GoMap) (field : String) :
    (resolveUser env w u field).1.2.2
      = if (resolveUser env w u field).1.2.1 ≠ "" then
          "urn:sys:0:" ++ (resolveUser env w u field).1.2.1 ++ ":"
            ++ (resolveUser env w u field).1.1
        else "" := rfl

theorem createAsset_lastLoggedOn_urn (env : Env) (w : World) (u : GoMap) :
    ((createAsset_lastLoggedOn env w u).1.2.2 = ""
        ∧ (createAsset_lastLoggedOn env w u).1.2.1 = "")
    ∨ (createAsset_lastLoggedOn env w u).1.2.2
        = "urn:sys:0:" ++ (createAsset_lastLoggedOn env w u).1.2.1 ++ ":"
            ++ (createAsset_lastLoggedOn env w u).1.1 := by
  unfold createAsset_lastLoggedOn
  simp only []
  split_ifs <;> simp

theorem updateAsset_lastLoggedOn_urn (env : Env) (w : World) (u : GoMap) :
    (updateAsset_lastLoggedOn env w u).1.2.2 = ""
    ∨ (updateAsset_lastLoggedOn env w u).1.2.2
        = "urn:sys:0:" ++ (updateAsset_lastLoggedOn env w u).1.2.1 ++ ":"
            ++ (updateAsset_lastLoggedOn env w u).1.1 := by
  unfold updateAsset_lastLoggedOn
  simp only []
  split_ifs <;> simp

theorem updateAsset_lastLoggedOn_found (env : Env) (w : World) (u : GoMap) :
    (updateAsset_lastLoggedOn env w u).1.2.1 ≠ "" →
      (updateAsset_lastLoggedOn env w u).1.2.2
          = "urn:sys:0:" ++ (updateAsset_lastLoggedOn env w u).1.2.1 ++ ":"
              ++ (updateAsset_lastLoggedOn env w u).1.1
      ∨ (env.searchCustomer w.trace (updateAsset_lastLoggedOn env w u).1.1).1 = false := by
  unfold updateAsset_lastLoggedOn
  simp only []
  split_ifs with h1 h2 h3
  · intro _; exact Or.inl rfl
  · intro _; exact Or.inl rfl
  · intro _
    right
    simpa [searchCustomer] using h3
  · intro h; exact absurd rfl h

theorem genericLoop_mem {env : Env} {refs : Refs} {u : GoMap} {t : XmlTok}
    (h : t ∈ genericLoop env refs u) :
    ∃ k v, (k, v) ∈ env.AssetGenericFieldMapping ∧ t ∈ genericEntry env refs u k v := by
  unfold genericLoop at h
  rw [List.mem_flatten] at h
  obtain ⟨l, hl, ht⟩ := h
  rw [List.mem_map] at hl
  obtain ⟨kv, hkv, rfl⟩ := hl
  exact ⟨kv.1, kv.2, hkv, ht⟩

theorem typeLoop_mem {env : Env} {refs : Refs} {u : GoMap} {t : XmlTok}
    (h : t ∈ typeLoop env refs u) :
    ∃ k v, (k, v) ∈ env.AssetTypeFieldMapping ∧ t ∈ typeEntry env refs u k v := by
  unfold typeLoop at h
  rw [List.mem_flatten] at h
  obtain ⟨l, hl, ht⟩ := h
  rw [List.mem_map] at hl
  obtain ⟨kv, hkv, rfl⟩ := hl
  exact ⟨kv.1, kv.2, hkv, ht⟩

theorem genericEntry_owned_by {env : Env} {refs : Refs} {u : GoMap} {k : String} {v : Value}
    {x : String} (h : XmlTok.SetParam "h_owned_by" x ∈ genericEntry env refs u k v) :
    x = refs.ownedByURN := by
  unfold genericEntry at h
  simp only [List.mem_append] at h
  rcases h with (((h | h) | h) | h) | h
  · split_ifs at h <;> simp at h
  · split_ifs at h <;> simp at h
    exact h
  · split_ifs at h <;> simp at h
  · split_ifs at h <;> simp at h
  · split_ifs at h with hc
    · simp at h
      exact absurd h.1.symm hc.2.2.1
    · simp at h

theorem genericEntry_used_by {env : Env} {refs : Refs} {u : GoMap} {k : String} {v : Value}
    {x : String} (h : XmlTok.SetParam "h_used_by" x ∈ genericEntry env refs u k v) :
    x = refs.usedByURN := by
  unfold genericEntry at h
  simp only [List.mem_append] at h
  rcases h with (((h | h) | h) | h) | h
  · split_ifs at h <;> simp at h
    exact h
  · split_ifs at h <;> simp at h
  · split_ifs at h <;> simp at h
  · split_ifs at h <;> simp at h
  · split_ifs at h with hc
    · simp at h
      exact absurd h.1.symm hc.2.1
    · simp at h

theorem typeEntry_last_logged_on {env : Env} {refs : Refs} {u : GoMap} {k : String}
    {v : Value} {x : String}
    (h : XmlTok.SetParam "h_last_logged_on_user" x ∈ typeEntry env refs u k v) :
    x = refs.lastLoggedOnByURN := by
  unfold typeEntry at h
  simp only [List.mem_append] at h
  rcases h with h | h
  · split_ifs at h <;> simp at h
    exact h
  · split_ifs at h with hc
    · simp at h
      exact absurd h.1.symm hc.1
    · simp at h

theorem urn_ne_empty (n i : String) : "urn:sys:0:" ++ n ++ ":" ++ i ≠ "" := by
  intro h
  have hlen := congrArg String.length h
  have h10 : "urn:sys:0:".length = 10 := by decide
  simp only [String.length_append, h10] at hlen
  have h0 : "".length = 0 := by decide
  omega

theorem urnRule_of_format (env : Env) (u : GoMap) (refs : Refs)
    (ho : refs.ownedByURN
      = if refs.ownedByName ≠ "" then
          "urn:sys:0:" ++ refs.ownedByName ++ ":" ++ refs.ownedByID else "")
    (hb : refs.usedByURN
      = if refs.usedByName ≠ "" then
          "urn:sys:0:" ++ refs.usedByName ++ ":" ++ refs.usedByID else "")
    (hl : refs.lastLoggedOnByURN = ""
      ∨ refs.lastLoggedOnByURN
          = "urn:sys:0:" ++ refs.lastLoggedOnByName ++ ":" ++ refs.lastLoggedOnByID) :
    UrnRule env u refs := by
  refine ⟨?_, ?_, ?_⟩
  · intro hn
    rw [if_pos hn] at ho
    have hne : refs.ownedByURN ≠ "" := by
      rw [ho]
      exact urn_ne_empty _ _
    refine ⟨ho, ?_, ?_⟩
    · intro v
      simp [genericEntry, hn, ho, urn_ne_empty]
    · intro x hx
      obtain ⟨k, v, _, hm⟩ := genericLoop_mem hx
      rw [genericEntry_owned_by hm, ho]
  · intro hn
    rw [if_pos hn] at hb
    have hne : refs.usedByURN ≠ "" := by
      rw [hb]
      exact urn_ne_empty _ _
    refine ⟨hb, ?_, ?_⟩
    · intro v
      simp [genericEntry, hn, hb, urn_ne_empty]
    · intro x hx
      obtain ⟨k, v, _, hm⟩ := genericLoop_mem hx
      rw [genericEntry_used_by hm, hb]
  · intro hne
    rcases hl with hl | hl
    · exact absurd hl hne
    · refine ⟨hl, ?_, ?_⟩
      · intro v
        simp [typeEntry, hl, urn_ne_empty]
      · intro x hx
        obtain ⟨k, v, _, hm⟩ := typeLoop_mem hx
        rw [typeEntry_last_logged_on hm, hl]

theorem createAsset_resolve_urnRule (env : Env) (w : World) (u : GoMap) :
    UrnRule env u (createAsset_resolve env w u).1 := by
  apply urnRule_of_format
  · exact resolveUser_urn env _ u "h_owned_by"
  · exact resolveUser_urn env _ u "h_used_by"
  · rcases createAsset_lastLoggedOn_urn env
      (resolveUser env (resolveUser env (resolveCompany env (createAsset_site env w u).2 u).2 u
        "h_owned_by").2 u "h_used_by").2 u with h | h
    · exact Or.inl h.1
    · exact Or.inr h

theorem updateAsset_resolve_urnRule (env : Env) (w : World) (u : GoMap) :
    UrnRule env u (updateAsset_resolve env w u).1 := by
  apply urnRule_of_format
  · exact resolveUser_urn env _ u "h_owned_by"
  · exact resolveUser_urn env _ u "h_used_by"
  · exact updateAsset_lastLoggedOn_urn env
      (resolveUser env (resolveUser env (resolveCompany env (updateAsset_site env w u).2 u).2 u
        "h_owned_by").2 u "h_used_by").2 u

/-- C10: the references resolved by `createAsset` and by `updateAsset` obey `UrnRule`: a
non-empty owner or used-by name yields the URN `urn:sys:0:<name>:<id>`, which together
with the name is what an `h_owned_by` or `h_used_by` mapping entry emits, and an emitted
last-logged-on URN has the same format; in `createAsset` a non-empty last-logged-on name
always comes with that URN, in `updateAsset` it does unless the remote search reported the
customer as not found.  For the owner name `Jane Doe` with natural key `42` the entry
emits `h_owned_by = urn:sys:0:Jane Doe:42` and `h_owned_by_name = Jane Doe`, and both are
part of the create and of the update request of the sample row. -/
theorem urn_emitted (env : Env) (w : World) (u : GoMap) :
    UrnRule env u (createAsset_resolve env w u).1
    ∧ UrnRule env u (updateAsset_resolve env w u).1
    ∧ ((createAsset_resolve env w u).1.lastLoggedOnByName ≠ "" →
        (createAsset_resolve env w u).1.lastLoggedOnByURN
          = "urn:sys:0:" ++ (createAsset_resolve env w u).1.lastLoggedOnByName ++ ":"
              ++ (createAsset_resolve env w u).1.lastLoggedOnByID)
    ∧ (∀ b : World, (updateAsset_lastLoggedOn env b u).1.2.1 ≠ "" →
        (updateAsset_lastLoggedOn env b u).1.2.2
            = "urn:sys:0:" ++ (updateAsset_lastLoggedOn env b u).1.2.1 ++ ":"
                ++ (updateAsset_lastLoggedOn env b u).1.1
        ∨ (env.searchCustomer b.trace (updateAsset_lastLoggedOn env b u).1.1).1 = false)
    ∧ ((createAsset_resolve env w u).1.ownedByName = "Jane Doe" →
        (createAsset_resolve env w u).1.ownedByID = "42" →
        ∀ v, genericEntry env (createAsset_resolve env w u).1 u "h_owned_by" v
          = [XmlTok.SetParam "h_owned_by" "urn:sys:0:Jane Doe:42",
             XmlTok.SetParam "h_owned_by_name" "Jane Doe"])
    ∧ ((updateAsset_resolve env w u).1.ownedByName = "Jane Doe" →
        (updateAsset_resolve env w u).1.ownedByID = "42" →
        ∀ v, genericEntry env (updateAsset_resolve env w u).1 u "h_owned_by" v
          = [XmlTok.SetParam "h_owned_by" "urn:sys:0:Jane Doe:42",
             XmlTok.SetParam "h_owned_by_name" "Jane Doe"])
    ∧ (XmlTok.SetParam "h_owned_by" "urn:sys:0:Jane Doe:42"
          ∈ (createAsset_prepare sampleEnv sampleWorld sampleRow).params
        ∧ XmlTok.SetParam "h_owned_by_name" "Jane Doe"
          ∈ (createAsset_prepare sampleEnv sampleWorld sampleRow).params
        ∧ XmlTok.SetParam "h_owned_by" "urn:sys:0:Jane Doe:42"
          ∈ (updateAsset_prepare sampleEnv sampleWorld sampleRow "77").2.params
        ∧ XmlTok.SetParam "h_owned_by_name" "Jane Doe"
          ∈ (updateAsset_prepare sampleEnv sampleWorld sampleRow "77").2.params) := by
  have hc := createAsset_resolve_urnRule env w u
  have hu := updateAsset_resolve_urnRule env w u
  refine ⟨hc, hu, ?_, ?_, ?_, ?_, ⟨by decide, by decide, by decide, by decide⟩⟩
  · intro hn
    rcases createAsset_lastLoggedOn_urn env
      (resolveUser env (resolveUser env (resolveCompany env (createAsset_site env w u).2 u).2 u
        "h_owned_by").2 u "h_used_by").2 u with h | h
    · exact absurd h.2 hn
    · exact h
  · intro b
    exact updateAsset_lastLoggedOn_found env b u
  · intro hn hi v
    have h := (hc.1 (by rw [hn]; decide)).2.1 v
    rw [hn, hi] at h
    exact h
  · intro hn hi v
    have h := (hu.1 (by rw [hn]; decide)).2.1 v
    rw [hn, hi] at h
    exact h

/-! ## C11: a user reference with an empty display name -/

/-- A row that also names the user last logged on. -/
def rowLastUser : GoMap :=
  [("asset_tag", Value.str "A100"), ("name", Value.str "laptop-7"), ("owner", Value.str "42"),
   ("last_user", Value.str "jdoe")]

/-- Every customer is in the cache, with an empty display name; the last-logged-on user
is mapped to the column `last_user`. -/
def envEmptyName : Env :=
  { sampleEnv with
    AssetTypeFieldMapping := [("h_last_logged_on_user", Value.str "last_user")]
    customerInCache := fun _ _ => (true, "")
    Invoke := scripted [Except.ok "changed", Except.ok "unchanged"] }

/-- C11 (the code at the failing input): every customer is cached with an empty display
name.  For the owner both functions resolve the empty name and the `h_owned_by` entry
emits nothing; for the last-logged-on user they also resolve the empty name, yet the
create request and the related update request both carry
`h_last_logged_on_user = urn:sys:0::jdoe`, and both requests are sent. -/
theorem lastLoggedOn_empty_name_emitted :
    (createAsset_resolve envEmptyName sampleWorld rowLastUser).1.ownedByName = ""
    ∧ genericEntry envEmptyName (createAsset_resolve envEmptyName sampleWorld rowLastUser).1
        rowLastUser "h_owned_by" (Value.str "owner") = []
    ∧ genericEntry envEmptyName (updateAsset_resolve envEmptyName sampleWorld rowLastUser).1
        rowLastUser "h_owned_by" (Value.str "owner") = []
    ∧ (createAsset_resolve envEmptyName sampleWorld rowLastUser).1.lastLoggedOnByName = ""
    ∧ (updateAsset_resolve envEmptyName sampleWorld rowLastUser).1.lastLoggedOnByName = ""
    ∧ XmlTok.SetParam "h_last_logged_on_user" "urn:sys:0::jdoe"
        ∈ (createAsset_prepare envEmptyName sampleWorld rowLastUser).params
    ∧ createCalls (createAsset envEmptyName sampleWorld rowLastUser).trace
        = [(createAsset_prepare envEmptyName sampleWorld rowLastUser).params]
    ∧ XmlTok.SetParam "h_last_logged_on_user" "urn:sys:0::jdoe"
        ∈ updateAsset_extParams envEmptyName
            (updateAsset_prepare envEmptyName sampleWorld rowLastUser "77").1 rowLastUser "77"
    ∧ updateAsset_extParams envEmptyName
          (updateAsset_prepare envEmptyName sampleWorld rowLastUser "77").1 rowLastUser "77"
        ∈ updateCalls (updateAsset envEmptyName sampleWorld rowLastUser "77").2.trace := by
  refine ⟨by decide, by decide, by decide, by decide, by decide, by decide, by decide,
    by decide, by decide⟩

/-! ## Pass-through of ordinary mapping entries -/

theorem genericEntry_passthrough (env : Env) (refs : Refs) (u : GoMap) (k : String) (v : Value)
    (h1 : k ≠ "h_site") (h2 : k ≠ "h_used_by") (h3 : k ≠ "h_owned_by")
    (h4 : k ≠ "h_company_name") :
    genericEntry env refs u k v
      = if sprintfV (some v) ≠ "" ∧ env.getFieldValue k (sprintfV (some v)) u ≠ "" then
          [XmlTok.SetParam k (env.getFieldValue k (sprintfV (some v)) u)]
        else [] := by
  simp [genericEntry, h1, h2, h3, h4]

theorem typeEntry_passthrough (env : Env) (refs : Refs) (u : GoMap) (k : String) (v : Value)
    (h1 : k ≠ "h_last_logged_on_user") :
    typeEntry env refs u k v
      = if sprintfV (some v) ≠ "" ∧ env.getFieldValue k (sprintfV (some v)) u ≠ "" then
          [XmlTok.SetParam k (env.getFieldValue k (sprintfV (some v)) u)]
        else [] := by
  simp [typeEntry, h1]

theorem genericLoop_of_entry {env : Env} {refs : Refs} {u : GoMap} {k : String} {v : Value}
    {t : XmlTok} (hkv : (k, v) ∈ env.AssetGenericFieldMapping)
    (ht : t ∈ genericEntry env refs u k v) : t ∈ genericLoop env refs u := by
  unfold genericLoop
  rw [List.mem_flatten]
  exact ⟨genericEntry env refs u k v, List.mem_map.mpr ⟨(k, v), hkv, rfl⟩, ht⟩

theorem typeLoop_of_entry {env : Env} {refs : Refs} {u : GoMap} {k : String} {v : Value}
    {t : XmlTok} (hkv : (k, v) ∈ env.AssetTypeFieldMapping)
    (ht : t ∈ typeEntry env refs u k v) : t ∈ typeLoop env refs u := by
  unfold typeLoop
  rw [List.mem_flatten]
  exact ⟨typeEntry env refs u k v, List.mem_map.mpr ⟨(k, v), hkv, rfl⟩, ht⟩

theorem genericLoop_sub_createAsset_params {env : Env} {refs : Refs} {u : GoMap} {t : XmlTok}
    (ht : t ∈ genericLoop env refs u) : t ∈ createAsset_params env refs u := by
  unfold createAsset_params
  simp only [List.mem_append]
  exact Or.inl (Or.inl (Or.inl (Or.inr ht)))

theorem typeLoop_sub_createAsset_params {env : Env} {refs : Refs} {u : GoMap} {t : XmlTok}
    (ht : t ∈ typeLoop env refs u) : t ∈ createAsset_params env refs u := by
  unfold createAsset_params
  simp only [List.mem_append]
  exact Or.inl (Or.inr ht)

theorem genericLoop_sub_updateAsset_params {env : Env} {refs : Refs} {u : GoMap} {t : XmlTok}
    (a : String) (ht : t ∈ genericLoop env refs u) : t ∈ updateAsset_params env refs u a := by
  unfold updateAsset_params
  simp only [List.mem_append]
  exact Or.inl (Or.inr ht)

theorem typeLoop_sub_updateAsset_extParams {env : Env} {refs : Refs} {u : GoMap} {t : XmlTok}
    (a : String) (ht : t ∈ typeLoop env refs u) : t ∈ updateAsset_extParams env refs u a := by
  unfold updateAsset_extParams
  simp only [List.mem_append]
  exact Or.inl (Or.inr ht)

/-- A configuration with one ordinary generic entry and one ordinary type entry. -/
def envSerial : Env :=
  { sampleEnv with AssetTypeFieldMapping := [("h_serial", Value.str "serial")] }

/-- A row whose serial number is empty. -/
def rowNoSerial : GoMap :=
  [("asset_tag", Value.str "A100"), ("name", Value.str "laptop-7"), ("serial", Value.str "")]

/-! ## The site and company pairs -/

theorem genericEntry_site (env : Env) (refs : Refs) (u : GoMap) (v : Value) :
    genericEntry env refs u "h_site" v
      = if refs.siteID ≠ "" ∧ refs.siteName ≠ "" then
          [XmlTok.SetParam "h_site" refs.siteName, XmlTok.SetParam "h_site_id" refs.siteID]
        else [] := by
  simp [genericEntry]

theorem genericEntry_company (env : Env) (refs : Refs) (u : GoMap) (v : Value) :
    genericEntry env refs u "h_company_name" v
      = if refs.companyID ≠ "" ∧ refs.companyName ≠ "" then
          [XmlTok.SetParam "h_company_name" refs.companyName,
           XmlTok.SetParam "h_company_id" refs.companyID]
        else [] := by
  simp [genericEntry]

theorem genericEntry_site_mem {env : Env} {refs : Refs} {u : GoMap} {k : String} {v : Value}
    {x : String} (h : XmlTok.SetParam "h_site" x ∈ genericEntry env refs u k v) :
    x = refs.siteName ∧ refs.siteID ≠ "" ∧ refs.siteName ≠ "" := by
  unfold genericEntry at h
  simp only [List.mem_append] at h
  rcases h with (((h | h) | h) | h) | h
  · split_ifs at h <;> simp at h
  · split_ifs at h <;> simp at h
  · split_ifs at h with hc
    · simp at h
      exact ⟨h, hc.2.1, hc.2.2⟩
    · simp at h
  · split_ifs at h <;> simp at h
  · split_ifs at h with hc
    · simp at h
      exact absurd h.1.symm hc.1
    · simp at h

theorem genericEntry_company_mem {env : Env} {refs : Refs} {u : GoMap} {k : String}
    {v : Value} {x : String}
    (h : XmlTok.SetParam "h_company_name" x ∈ genericEntry env refs u k v) :
    x = refs.companyName ∧ refs.companyID ≠ "" ∧ refs.companyName ≠ "" := by
  unfold genericEntry at h
  simp only [List.mem_append] at h
  rcases h with (((h | h) | h) | h) | h
  · split_ifs at h <;> simp at h
  · split_ifs at h <;> simp at h
  · split_ifs at h <;> simp at h
  · split_ifs at h with hc
    · simp at h
      exact ⟨h, hc.2.1, hc.2.2⟩
    · simp at h
  · split_ifs at h with hc
    · simp at h
      exact absurd h.1.symm hc.2.2.2.1
    · simp at h

theorem createAsset_site_resolved (env : Env) (b : World) (u : GoMap) :
    ((createAsset_site env b u).1.2 ≠ "" →
        ((env.siteInCache b.trace (createAsset_site env b u).1.1).1 = true
          ∧ (createAsset_site env b u).1.2
              = toString (env.siteInCache b.trace (createAsset_site env b u).1.1).2)
        ∨ ((env.siteInCache b.trace (createAsset_site env b u).1.1).1 = false
          ∧ (env.searchSite b.trace (createAsset_site env b u).1.1).1 = true
          ∧ (createAsset_site env b u).1.2
              = toString (env.searchSite b.trace (createAsset_site env b u).1.1).2))
    ∧ ((env.siteInCache b.trace (createAsset_site env b u).1.1).1 = false →
        (env.searchSite b.trace (createAsset_site env b u).1.1).1 = false →
        (createAsset_site env b u).1.2 = "") := by
  unfold createAsset_site
  simp only []
  split_ifs with h1 h2 h3 <;> simp_all [searchSite]

theorem updateAsset_site_resolved (env : Env) (b : World) (u : GoMap) :
    ((updateAsset_site env b u).1.2 ≠ "" →
        ((env.siteInCache b.trace (updateAsset_site env b u).1.1).1 = true
          ∧ (updateAsset_site env b u).1.2
              = toString (env.siteInCache b.trace (updateAsset_site env b u).1.1).2)
        ∨ ((env.siteInCache b.trace (updateAsset_site env b u).1.1).1 = false
          ∧ (env.searchSite b.trace (updateAsset_site env b u).1.1).1 = true
          ∧ (updateAsset_site env b u).1.2
              = toString (env.searchSite b.trace (updateAsset_site env b u).1.1).2))
    ∧ ((env.siteInCache b.trace (updateAsset_site env b u).1.1).1 = false →
        (env.searchSite b.trace (updateAsset_site env b u).1.1).1 = false →
        (updateAsset_site env b u).1.2 = "") := by
  unfold updateAsset_site
  simp only []
  split_ifs with h1 h2 h3 <;> simp_all [searchSite]

theorem resolveCompany_resolved (env : Env) (b : World) (u : GoMap) :
    ((resolveCompany env b u).1.2 ≠ "" →
        ((env.groupInCache b.trace (resolveCompany env b u).1.1 5).1 = true
          ∧ (resolveCompany env b u).1.2
              = (env.groupInCache b.trace (resolveCompany env b u).1.1 5).2)
        ∨ ((env.groupInCache b.trace (resolveCompany env b u).1.1 5).1 = false
          ∧ (env.searchGroup b.trace (resolveCompany env b u).1.1 5).1 = true
          ∧ (resolveCompany env b u).1.2
              = (env.searchGroup b.trace (resolveCompany env b u).1.1 5).2))
    ∧ ((env.groupInCache b.trace (resolveCompany env b u).1.1 5).1 = false →
        (env.searchGroup b.trace (resolveCompany env b u).1.1 5).1 = false →
        (resolveCompany env b u).1.2 = "") := by
  unfold resolveCompany
  simp only []
  split_ifs with h1 h2 h3 <;> simp_all [searchGroup]

/-- The site is mapped to the column `site`; no site is cached and the remote search
finds every site with id 7. -/
def envLondon : Env :=
  { sampleEnv with
    AssetGenericFieldMapping := [("h_name", Value.str "name"), ("h_site", Value.str "site")]
    searchSite := fun _ _ => (true, 7) }

/-- A row located in London. -/
def rowLondon : GoMap :=
  [("asset_tag", Value.str "A100"), ("name", Value.str "laptop-7"),
   ("site", Value.str "London")]

/-! ## C14: a cache hit replaces the remote search -/

/-- The site name of a row, as read by lines 144-145 and 398-399. -/
def siteValue (env : Env) (u : GoMap) : String :=
  env.getFieldValue "h_site" (sprintfV (env.AssetGenericFieldMapping.lookup "h_site")) u

/-- The company name of a row, as read by lines 163-164 and 417-418. -/
def companyValue (env : Env) (u : GoMap) : String :=
  env.getFieldValue "h_company_name"
    (sprintfV (env.AssetGenericFieldMapping.lookup "h_company_name")) u

/-- The owner or used-by identifier of a row, as read by lines 181-182, 204-205, 435-436
and 458-459. -/
def userValue (env : Env) (u : GoMap) (field : String) : String :=
  env.getFieldValue field (sprintfV (env.AssetGenericFieldMapping.lookup field)) u

/-- The last-logged-on identifier of a row, as read by lines 227-228 and 481-482. -/
def lastLoggedOnValue (env : Env) (u : GoMap) : String :=
  env.getFieldValue "h_last_logged_on_user"
    (sprintfV (env.AssetTypeFieldMapping.lookup "h_last_logged_on_user")) u

theorem createAsset_site_cache (env : Env) (b : World) (u : GoMap) :
    ((env.siteInCache b.trace (siteValue env u)).1 = true →
        (createAsset_site env b u).2 = b
        ∧ (siteValue env u ≠ "" →
            (createAsset_site env b u).1
              = (siteValue env u, toString (env.siteInCache b.trace (siteValue env u)).2)))
    ∧ ((createAsset_site env b u).2 = b
        ∨ ((env.siteInCache b.trace (siteValue env u)).1 = false
            ∧ (createAsset_site env b u).2 = b.record (Event.searchSite (siteValue env u)))) := by
  unfold createAsset_site siteValue
  simp only []
  split_ifs with h1 h2 h3 <;> simp_all [searchSite]

theorem updateAsset_site_cache (env : Env) (b : World) (u : GoMap) :
    ((env.siteInCache b.trace (siteValue env u)).1 = true →
        (updateAsset_site env b u).2 = b
        ∧ (siteValue env u ≠ "" → siteValue env u ≠ "<nil>" →
            (updateAsset_site env b u).1
              = (siteValue env u, toString (env.siteInCache b.trace (siteValue env u)).2)))
    ∧ ((updateAsset_site env b u).2 = b
        ∨ ((env.siteInCache b.trace (siteValue env u)).1 = false
            ∧ (updateAsset_site env b u).2 = b.record (Event.searchSite (siteValue env u)))) := by
  unfold updateAsset_site siteValue
  simp only []
  split_ifs with h1 h2 h3 <;> simp_all [searchSite]

theorem resolveCompany_cache (env : Env) (b : World) (u : GoMap) :
    ((env.groupInCache b.trace (companyValue env u) 5).1 = true →
        (resolveCompany env b u).2 = b
        ∧ (companyValue env u ≠ "" → companyValue env u ≠ "<nil>" →
            (resolveCompany env b u).1
              = (companyValue env u, (env.groupInCache b.trace (companyValue env u) 5).2)))
    ∧ ((resolveCompany env b u).2 = b
        ∨ ((env.groupInCache b.trace (companyValue env u) 5).1 = false
            ∧ (resolveCompany env b u).2
                = b.record (Event.searchGroup (companyValue env u) 5))) := by
  unfold resolveCompany companyValue
  simp only []
  split_ifs with h1 h2 h3 <;> simp_all [searchGroup]

theorem resolveUser_cache (env : Env) (b : World) (u : GoMap) (field : String) :
    ((env.customerInCache b.trace (userValue env u field)).1 = true →
        (resolveUser env b u field).2 = b
        ∧ (userValue env u field ≠ "" → userValue env u field ≠ "<nil>" →
            (resolveUser env b u field).1.2.1
              = (env.customerInCache b.trace (userValue env u field)).2))
    ∧ ((resolveUser env b u field).2 = b
        ∨ ((env.customerInCache b.trace (userValue env u field)).1 = false
            ∧ (resolveUser env b u field).2
                = b.record (Event.searchCustomer (userValue env u field)))) := by
  unfold resolveUser userValue
  simp only []
  split_ifs with h1 h2 h3 <;> simp_all [searchCustomer]

theorem createAsset_lastLoggedOn_cache (env : Env) (b : World) (u : GoMap) :
    ((env.customerInCache b.trace (lastLoggedOnValue env u)).1 = true →
        (createAsset_lastLoggedOn env b u).2 = b
        ∧ (sprintfV (env.AssetTypeFieldMapping.lookup "h_last_logged_on_user") ≠ "" →
            lastLoggedOnValue env u ≠ "" → lastLoggedOnValue env u ≠ "<nil>" →
            (createAsset_lastLoggedOn env b u).1.2.1
              = (env.customerInCache b.trace (lastLoggedOnValue env u)).2))
    ∧ ((createAsset_lastLoggedOn env b u).2 = b
        ∨ ((env.customerInCache b.trace (lastLoggedOnValue env u)).1 = false
            ∧ (createAsset_lastLoggedOn env b u).2
                = b.record (Event.searchCustomer (lastLoggedOnValue env u)))) := by
  unfold createAsset_lastLoggedOn lastLoggedOnValue
  simp only []
  split_ifs with h1 h2 h3 <;> simp_all [searchCustomer]

theorem updateAsset_lastLoggedOn_cache (env : Env) (b : World) (u : GoMap) :
    ((env.customerInCache b.trace (lastLoggedOnValue env u)).1 = true →
        (updateAsset_lastLoggedOn env b u).2 = b
        ∧ (sprintfV (env.AssetTypeFieldMapping.lookup "h_last_logged_on_user") ≠ "" →
            lastLoggedOnValue env u ≠ "" → lastLoggedOnValue env u ≠ "<nil>" →
            (updateAsset_lastLoggedOn env b u).1.2.1
              = (env.customerInCache b.trace (lastLoggedOnValue env u)).2))
    ∧ ((updateAsset_lastLoggedOn env b u).2 = b
        ∨ ((env.customerInCache b.trace (lastLoggedOnValue env u)).1 = false
            ∧ (updateAsset_lastLoggedOn env b u).2
                = b.record (Event.searchCustomer (lastLoggedOnValue env u)))) := by
  unfold updateAsset_lastLoggedOn lastLoggedOnValue
  simp only []
  split_ifs with h1 h2 h3 <;> simp_all [searchCustomer]

theorem createAsset_resolve_all_hits (env : Env) (w : World) (u : GoMap)
    (hs : ∀ tr k, (env.siteInCache tr k).1 = true)
    (hg : ∀ tr k n, (env.groupInCache tr k n).1 = true)
    (hc : ∀ tr k, (env.customerInCache tr k).1 = true) :
    (createAsset_resolve env w u).2 = w := by
  unfold createAsset_resolve
  simp only []
  have h1 := ((createAsset_site_cache env w u).1 (hs _ _)).1
  rw [h1]
  have h2 := ((resolveCompany_cache env w u).1 (hg _ _ _)).1
  rw [h2]
  have h3 := ((resolveUser_cache env w u "h_owned_by").1 (hc _ _)).1
  rw [h3]
  have h4 := ((resolveUser_cache env w u "h_used_by").1 (hc _ _)).1
  rw [h4]
  exact ((createAsset_lastLoggedOn_cache env w u).1 (hc _ _)).1

theorem updateAsset_resolve_all_hits (env : Env) (w : World) (u : GoMap)
    (hs : ∀ tr k, (env.siteInCache tr k).1 = true)
    (hg : ∀ tr k n, (env.groupInCache tr k n).1 = true)
    (hc : ∀ tr k, (env.customerInCache tr k).1 = true) :
    (updateAsset_resolve env w u).2 = w := by
  unfold updateAsset_resolve
  simp only []
  have h1 := ((updateAsset_site_cache env w u).1 (hs _ _)).1
  rw [h1]
  have h2 := ((resolveCompany_cache env w u).1 (hg _ _ _)).1
  rw [h2]
  have h3 := ((resolveUser_cache env w u "h_owned_by").1 (hc _ _)).1
  rw [h3]
  have h4 := ((resolveUser_cache env w u "h_used_by").1 (hc _ _)).1
  rw [h4]
  exact ((updateAsset_lastLoggedOn_cache env w u).1 (hc _ _)).1

/-- C14: for each resolution block of `createAsset` and `updateAsset` (site, company,
owner and used-by through `field`, last logged on), started in any state `b`: when the
cache reports a hit for the row's key the block leaves the state as it is, so it makes no
remote search, and where the block's guard lets the key through the value it returns is
the cached one; in every case the block either leaves the state as it is or records
exactly one remote search for that key, and the latter only after a cache miss.  When all
three caches report a hit for every key, the whole resolution part of either function
makes no remote call. -/
theorem cache_hit_no_search (env : Env) (b : World) (u : GoMap) (field : String) :
    (((env.siteInCache b.trace (siteValue env u)).1 = true →
        (createAsset_site env b u).2 = b
        ∧ (siteValue env u ≠ "" →
          (createAsset_site env b u).1
            = (siteValue env u, toString (env.siteInCache b.trace (siteValue env u)).2)))
      ∧ ((createAsset_site env b u).2 = b
        ∨ ((env.siteInCache b.trace (siteValue env u)).1 = false
            ∧ (createAsset_site env b u).2 = b.record (Event.searchSite (siteValue env u)))))
    ∧ (((env.siteInCache b.trace (siteValue env u)).1 = true →
        (updateAsset_site env b u).2 = b
        ∧ (siteValue env u ≠ "" → siteValue env u ≠ "<nil>" →
          (updateAsset_site env b u).1
            = (siteValue env u, toString (env.siteInCache b.trace (siteValue env u)).2)))
      ∧ ((updateAsset_site env b u).2 = b
        ∨ ((env.siteInCache b.trace (siteValue env u)).1 = false
            ∧ (updateAsset_site env b u).2 = b.record (Event.searchSite (siteValue env u)))))
    ∧ (((env.groupInCache b.trace (companyValue env u) 5).1 = true →
        (resolveCompany env b u).2 = b
        ∧ (companyValue env u ≠ "" → companyValue env u ≠ "<nil>" →
          (resolveCompany env b u).1
            = (companyValue env u, (env.groupInCache b.trace (companyValue env u) 5).2)))
      ∧ ((resolveCompany env b u).2 = b
        ∨ ((env.groupInCache b.trace (companyValue env u) 5).1 = false
            ∧ (resolveCompany env b u).2 = b.record (Event.searchGroup (companyValue env u) 5))))
    ∧ (((env.customerInCache b.trace (userValue env u field)).1 = true →
        (resolveUser env b u field).2 = b
        ∧ (userValue env u field ≠ "" → userValue env u field ≠ "<nil>" →
          (resolveUser env b u field).1.2.1
            = (env.customerInCache b.trace (userValue env u field)).2))
      ∧ ((resolveUser env b u field).2 = b
        ∨ ((env.customerInCache b.trace (userValue env u field)).1 = false
            ∧ (resolveUser env b u field).2 = b.record (Event.searchCustomer (userValue env u field)))))
    ∧ (((env.customerInCache b.trace (lastLoggedOnValue env u)).1 = true →
        (createAsset_lastLoggedOn env b u).2 = b
        ∧ (sprintfV (env.AssetTypeFieldMapping.lookup "h_last_logged_on_user") ≠ "" →
          lastLoggedOnValue env u ≠ "" → lastLoggedOnValue env u ≠ "<nil>" →
          (createAsset_lastLoggedOn env b u).1.2.1
            = (env.customerInCache b.trace (lastLoggedOnValue env u)).2))
      ∧ ((createAsset_lastLoggedOn env b u).2 = b
        ∨ ((env.customerInCache b.trace (lastLoggedOnValue env u)).1 = false
            ∧ (createAsset_lastLoggedOn env b u).2 = b.record (Event.searchCustomer (lastLoggedOnValue env u)))))
    ∧ (((env.customerInCache b.trace (lastLoggedOnValue env u)).1 = true →
        (updateAsset_lastLoggedOn env b u).2 = b
        ∧ (sprintfV (env.AssetTypeFieldMapping.lookup "h_last_logged_on_user") ≠ "" →
          lastLoggedOnValue env u ≠ "" → lastLoggedOnValue env u ≠ "<nil>" →
          (updateAsset_lastLoggedOn env b u).1.2.1
            = (env.customerInCache b.trace (lastLoggedOnValue env u)).2))
      ∧ ((updateAsset_lastLoggedOn env b u).2 = b
        ∨ ((env.customerInCache b.trace (lastLoggedOnValue env u)).1 = false
            ∧ (updateAsset_lastLoggedOn env b u).2 = b.record (Event.searchCustomer (lastLoggedOnValue env u)))))
    ∧ ((∀ tr k, (env.siteInCache tr k).1 = true) →
        (∀ tr k n, (env.groupInCache tr k n).1 = true) →
        (∀ tr k, (env.customerInCache tr k).1 = true) →
        (createAsset_resolve env b u).2 = b ∧ (updateAsset_resolve env b u).2 = b) :=
  ⟨createAsset_site_cache env b u, updateAsset_site_cache env b u,
   resolveCompany_cache env b u, resolveUser_cache env b u field,
   createAsset_lastLoggedOn_cache env b u, updateAsset_lastLoggedOn_cache env b u,
   fun hs hg hc => ⟨createAsset_resolve_all_hits env b u hs hg hc,
     updateAsset_resolve_all_hits env b u hs hg hc⟩⟩

/-! ## C16: a row without a natural key -/

/-- A row that has no `asset_tag` column. -/
def rowNoKey : GoMap := [("name", Value.str "laptop-7")]

/-- The search finds nothing, the create call succeeds. -/
def envCreateOk : Env :=
  { sampleEnv with Invoke := scripted [Except.ok "absent", Except.ok "changed"] }

/-- C16 (counterexample): the sample row without its identifier column is searched with
the text `%!s(<nil>)` as the exact-match value, and since the search finds nothing an
asset is created for it. -/
theorem processRow_null_key_searched :
    rowNoKey.lookup sampleIdentifier.DBColumn = none
    ∧ (processRow envCreateOk sampleWorld sampleIdentifier rowNoKey).trace.head?
        = some (Event.Invoke "data" "entityBrowseRecords2"
            (getAssetIDParams envCreateOk "%!s(<nil>)" sampleIdentifier))
    ∧ XmlTok.SetParam "value" "%!s(<nil>)"
        ∈ getAssetIDParams envCreateOk "%!s(<nil>)" sampleIdentifier
    ∧ (createCalls (processRow envCreateOk sampleWorld sampleIdentifier rowNoKey).trace).length
        = 1
    ∧ (processRow envCreateOk sampleWorld sampleIdentifier rowNoKey).counters.created = 1 := by
  refine ⟨by decide, by decide, by decide, by decide, by decide⟩

/-- C16 (amended): for a row whose identifier column is missing or null, `processAssets`
makes no absent-key test: the existence search is issued with the text `%!s(<nil>)` as the
literal match value, and the row is then routed by the answer like any other row, to
`updateAsset` on a match and to `createAsset` on a successful search without a match. -/
theorem processRow_null_key (env : Env) (w : World) (i : assetIdentifierStruct) (r : GoMap)
    (h : r.lookup i.DBColumn = none ∨ r.lookup i.DBColumn = some Value.null) :
    rowSearch env w i r = getAssetID env w.ClearParam "%!s(<nil>)" i
    ∧ (rowSearch env w i r).2.trace
        = w.trace ++ [Event.Invoke "data" "entityBrowseRecords2"
            (getAssetIDParams env "%!s(<nil>)" i)]
    ∧ XmlTok.SetParam "value" "%!s(<nil>)" ∈ getAssetIDParams env "%!s(<nil>)" i
    ∧ ((rowSearch env w i r).1.2.1 = true → (rowSearch env w i r).1.1 = true →
        processRow env w i r
          = (updateAsset env (rowSearch env w i r).2 r (rowSearch env w i r).1.2.2).2)
    ∧ ((rowSearch env w i r).1.2.1 = true → (rowSearch env w i r).1.1 = false →
        processRow env w i r = createAsset env (rowSearch env w i r).2 r) := by
  have hs : sprintfS (r.lookup i.DBColumn) = "%!s(<nil>)" := by
    rcases h with h | h <;> rw [h] <;> rfl
  have ht : (rowSearch env w i r).2.trace
      = w.trace ++ [Event.Invoke "data" "entityBrowseRecords2"
          (getAssetIDParams env "%!s(<nil>)" i)] := by
    rw [rowSearch_state, hs]
    simp [getAssetIDCall]
  refine ⟨?_, ht, by simp [getAssetIDParams], ?_, ?_⟩
  · unfold rowSearch
    simp only [hs]
  · intro h1 h2
    unfold processRow
    simp only [h1, h2, if_true]
  · intro h1 h2
    unfold processRow
    simp only [h1, h2, if_true]
    rfl

/-- C16 (witness): the sample row without its identifier column. -/
theorem processRow_null_key_witness :
    (rowNoKey.lookup sampleIdentifier.DBColumn = none
      ∨ rowNoKey.lookup sampleIdentifier.DBColumn = some Value.null)
    ∧ (rowSearch envCreateOk sampleWorld sampleIdentifier rowNoKey).2.trace
        = sampleWorld.trace ++ [Event.Invoke "data" "entityBrowseRecords2"
            (getAssetIDParams envCreateOk "%!s(<nil>)" sampleIdentifier)] :=
  ⟨Or.inl (by decide),
   (processRow_null_key envCreateOk sampleWorld sampleIdentifier rowNoKey
      (Or.inl (by decide))).2.1⟩

/-! ## C17: reference resolution in the two functions -/

/-- The site is mapped to the column `site`; a column that is null or missing reads as
`<nil>`; no site is cached or found. -/
def envNilSite : Env :=
  { sampleEnv with
    AssetGenericFieldMapping := [("h_name", Value.str "name"), ("h_site", Value.str "site")]
    getFieldValue := fun _ m u => sprintfV (u.lookup m) }

/-- As `envNilSite`, with a remote search that finds every site with id 7. -/
def envNilSiteFound : Env :=
  { envNilSite with searchSite := fun _ _ => (true, 7) }

/-- A row whose site column is null. -/
def rowNilSite : GoMap :=
  [("asset_tag", Value.str "A100"), ("name", Value.str "laptop-7"), ("site", Value.null)]

/-- C17 (the code at the failing input): for the row with a null site the site value is
`<nil>`; `createAsset` looks it up and issues the remote search `searchSite("<nil>")`,
`updateAsset` issues no lookup at all.  When that search finds a site, `createAsset`
resolves the site id `7` and writes `h_site = <nil>`, `h_site_id = 7`, while `updateAsset`
resolves no site id and writes neither. -/
theorem resolve_differs_on_nil_site :
    siteValue envNilSite rowNilSite = "<nil>"
    ∧ (createAsset_resolve envNilSite sampleWorld rowNilSite).2.trace
        = [Event.searchSite "<nil>"]
    ∧ (updateAsset_resolve envNilSite sampleWorld rowNilSite).2.trace = []
    ∧ (createAsset_resolve envNilSiteFound sampleWorld rowNilSite).1.siteID = "7"
    ∧ (updateAsset_resolve envNilSiteFound sampleWorld rowNilSite).1.siteID = ""
    ∧ genericLoop envNilSiteFound
        (createAsset_resolve envNilSiteFound sampleWorld rowNilSite).1 rowNilSite
        = [XmlTok.SetParam "h_name" "laptop-7", XmlTok.SetParam "h_site" "<nil>",
           XmlTok.SetParam "h_site_id" "7"]
    ∧ genericLoop envNilSiteFound
        (updateAsset_resolve envNilSiteFound sampleWorld rowNilSite).1 rowNilSite
        = [XmlTok.SetParam "h_name" "laptop-7"] := by
  refine ⟨by decide, by decide, by decide, by decide, by decide, by decide, by decide⟩

/-! ## C18: the follow-up call after a successful create -/

theorem createAsset_of_success (env : Env) (w : World) (u : GoMap) (body : String)
    (r : xmlmcUpdateResponse)
    (hdry : env.configDryRun = false)
    (hc : (createAsset_call env w u).1 = Except.ok body)
    (hu : env.unmarshalUpdateResponse body = Except.ok r)
    (hm : r.MethodResult = "ok") :
    createAsset env w u
      = (Invoke env ((createAsset_call env w u).2.incCreated.emit
          (createAsset_urnParams r.AssetPK)) "data" "entityUpdateRecord").2 := by
  unfold createAsset
  simp only [hdry, if_true]
  change (match (createAsset_call env w u).1 with
    | Except.error _ => _
    | Except.ok XMLCreate => _) = _
  rw [hc]
  simp only [hu]
  rw [if_neg (by simpa using hm)]
  exact createAsset_followUp_eq env _

theorem createAsset_call_updateCalls (env : Env) (w : World) (u : GoMap) :
    updateCalls (createAsset_call env w u).2.trace = updateCalls w.trace := by
  simp [createAsset_call, updateCalls_append]

theorem createAsset_call_createCalls (env : Env) (w : World) (u : GoMap) :
    createCalls (createAsset_call env w u).2.trace
      = createCalls w.trace ++ [(createAsset_prepare env w u).params] := by
  simp [createAsset_call, createCalls_append]

/-- C18: outside dry-run, when the create call is answered with a decoded result `ok`
carrying the primary key `r.AssetPK`, `createAsset` sends the create request and then
exactly one update request, the follow-up record with `h_pk_asset_id = r.AssetPK` and
`h_asset_urn = urn:sys:entity:com.hornbill.servicemanager:Asset:` followed by that key;
the same `h_asset_urn` parameter is part of the primary request `updateAsset` builds for
an existing asset with that identifier.  `created` is one higher and all other counters
are unchanged; nothing is assumed about the answer to the follow-up call. -/
theorem createAsset_followUp_urn (env : Env) (w : World) (u : GoMap) (body : String)
    (r : xmlmcUpdateResponse)
    (hdry : env.configDryRun = false)
    (hc : (createAsset_call env w u).1 = Except.ok body)
    (hu : env.unmarshalUpdateResponse body = Except.ok r)
    (hm : r.MethodResult = "ok") :
    updateCalls (createAsset env w u).trace
        = updateCalls w.trace ++ [createAsset_urnParams r.AssetPK]
    ∧ createCalls (createAsset env w u).trace
        = createCalls w.trace ++ [(createAsset_prepare env w u).params]
    ∧ XmlTok.SetParam "h_pk_asset_id" r.AssetPK ∈ createAsset_urnParams r.AssetPK
    ∧ XmlTok.SetParam "h_asset_urn"
          ("urn:sys:entity:com.hornbill.servicemanager:Asset:" ++ r.AssetPK)
        ∈ createAsset_urnParams r.AssetPK
    ∧ (∀ refs : Refs, XmlTok.SetParam "h_asset_urn"
          ("urn:sys:entity:com.hornbill.servicemanager:Asset:" ++ r.AssetPK)
        ∈ updateAsset_params env refs u r.AssetPK)
    ∧ (createAsset env w u).counters
        = { w.counters with created := w.counters.created + 1 } := by
  have he := createAsset_of_success env w u body r hdry hc hu hm
  have hp : (createAsset_call env w u).2.params = [] := rfl
  refine ⟨?_, ?_, by simp [createAsset_urnParams], by simp [createAsset_urnParams], ?_, ?_⟩
  · rw [he]
    simp [updateCalls_append, createAsset_call_updateCalls, hp]
  · rw [he]
    simp [createCalls_append, createAsset_call_createCalls, hp]
  · intro refs
    simp [updateAsset_params]
  · rw [he]
    simp [createAsset_call]

/-- C18 (witness): the sample row is created with the primary key `77`; the follow-up
request is the only update request, and the answer to the follow-up call is unreadable. -/
theorem createAsset_followUp_urn_witness :
    envUpdateChanged.configDryRun = false
    ∧ (createAsset_call envUpdateChanged sampleWorld sampleRow).1 = Except.ok "changed"
    ∧ envUpdateChanged.unmarshalUpdateResponse "changed" = Except.ok respChanged
    ∧ updateCalls (createAsset envUpdateChanged sampleWorld sampleRow).trace
        = updateCalls sampleWorld.trace ++ [createAsset_urnParams "77"]
    ∧ (createAsset envUpdateChanged sampleWorld sampleRow).counters.created = 1 := by
  have h := createAsset_followUp_urn envUpdateChanged sampleWorld sampleRow "changed"
    respChanged (by decide) rfl rfl (by decide)
  refine ⟨by decide, rfl, rfl, h.1, ?_⟩
  rw [h.2.2.2.2.2]; rfl

/-! ## C15: the admission gate of processAssets (lines 55-93)

The loop of `processAssets` sends one value into the buffered channel
`maxGoroutinesGuard` before it starts the worker of a row, and the worker takes one value
out as its last statement.  A run is an interleaving of three kinds of steps: the loop
lets the next row in (possible while the channel holds fewer values than its capacity),
a started worker does its work (lines 69-89, taken as one step on the shared state), a
worker that has done its work gives its slot back (line 90). -/

/-- Where a worker stands: started, past line 89, or past line 90. -/
inductive Phase where
  | working
  | finished
  | released
deriving DecidableEq, Repr

/-- A worker started by line 68 for the row `assetMap`. -/
structure Worker where
  assetMap : GoMap
  phase : Phase
deriving DecidableEq, Repr

/-- A moment of a run of `processAssets`: the rows the loop has not reached, the number of
values held by the channel `maxGoroutinesGuard`, the workers started so far, the shared
state. -/
structure Pool where
  pending : List GoMap
  maxGoroutinesGuard : Nat
  workers : List Worker
  world : World

/-- One scheduling choice. -/
inductive Action where
  | enter
  | work (k : Nat)
  | release (k : Nat)
deriving DecidableEq, Repr

/-- One step of a run, `none` when the chosen step cannot be taken: `enter` is the send
of line 58 followed by the start of the worker, blocked while the channel is full; `work`
is the body of worker `k` up to line 89; `release` is the receive of line 90 by a worker
that has finished its body. -/
def Pool.step (env : Env) (assetIdentifier : assetIdentifierStruct) (maxGoroutines : Nat)
    (p : Pool) : Action → Option Pool
  | Action.enter =>
    match p.pending with
    | [] => none
    | assetRecord :: rest =>
      if p.maxGoroutinesGuard < maxGoroutines then
        some { pending := rest
               maxGoroutinesGuard := p.maxGoroutinesGuard + 1
               workers := p.workers ++ [{ assetMap := assetRecord, phase := Phase.working }]
               world := p.world }
      else none
  | Action.work k =>
    match p.workers[k]? with
    | some { assetMap := assetMap, phase := Phase.working } =>
      some { pending := p.pending
             maxGoroutinesGuard := p.maxGoroutinesGuard
             workers := p.workers.set k { assetMap := assetMap, phase := Phase.finished }
             world := processRow env p.world assetIdentifier assetMap }
    | _ => none
  | Action.release k =>
    match p.workers[k]? with
    | some { assetMap := assetMap, phase := Phase.finished } =>
      if 0 < p.maxGoroutinesGuard then
        some { pending := p.pending
               maxGoroutinesGuard := p.maxGoroutinesGuard - 1
               workers := p.workers.set k { assetMap := assetMap, phase := Phase.released }
               world := p.world }
      else none
    | _ => none

/-- A run under a schedule, `none` when the schedule asks for a step that cannot be
taken. -/
def Pool.run (env : Env) (assetIdentifier : assetIdentifierStruct) (maxGoroutines : Nat) :
    Pool → List Action → Option Pool
  | p, [] => some p
  | p, a :: rest =>
    match p.step env assetIdentifier maxGoroutines a with
    | none => none
    | some q => Pool.run env assetIdentifier maxGoroutines q rest

/-- The state on entering the loop of line 57: empty channel, no worker. -/
def Pool.init (w : World) (arrAssets : List GoMap) : Pool :=
  { pending := arrAssets, maxGoroutinesGuard := 0, workers := [], world := w }

/-- Number of workers of a list that have not given their slot back. -/
def inFlightOf : List Worker → Nat
  | [] => 0
  | x :: xs => (if x.phase = Phase.released then 0 else 1) + inFlightOf xs

/-- Number of rows past the admission gate and not yet finalized. -/
def Pool.inFlight (p : Pool) : Nat := inFlightOf p.workers

theorem inFlightOf_append (a b : List Worker) :
    inFlightOf (a ++ b) = inFlightOf a + inFlightOf b := by
  induction a with
  | nil => simp [inFlightOf]
  | cons x xs ih => simp [inFlightOf, ih, Nat.add_assoc]

theorem inFlightOf_set (l : List Worker) (k : Nat) (a b : Worker) (h : l[k]? = some a) :
    inFlightOf (l.set k b) + (if a.phase = Phase.released then 0 else 1)
      = inFlightOf l + (if b.phase = Phase.released then 0 else 1) := by
  induction l generalizing k with
  | nil => simp at h
  | cons x xs ih =>
    cases k with
    | zero =>
      simp at h
      subst h
      simp [inFlightOf]
      omega
    | succ n =>
      simp at h
      have := ih n h
      simp [inFlightOf]
      omega

theorem Pool.step_work {env : Env} {i : assetIdentifierStruct} {c : Nat} {p q : Pool} {k : Nat}
    (h : p.step env i c (Action.work k) = some q) :
    ∃ r, p.workers[k]? = some { assetMap := r, phase := Phase.working }
      ∧ q.workers = p.workers.set k { assetMap := r, phase := Phase.finished }
      ∧ q.world = processRow env p.world i r
      ∧ q.maxGoroutinesGuard = p.maxGoroutinesGuard
      ∧ q.pending = p.pending := by
  unfold Pool.step at h
  cases hw : p.workers[k]? with
  | none => simp [hw] at h
  | some x =>
    obtain ⟨r, ph⟩ := x
    cases ph
    · simp only [hw, Option.some.injEq] at h
      subst h
      exact ⟨r, rfl, rfl, rfl, rfl, rfl⟩
    · simp [hw] at h
    · simp [hw] at h

theorem Pool.step_release {env : Env} {i : assetIdentifierStruct} {c : Nat} {p q : Pool}
    {k : Nat} (h : p.step env i c (Action.release k) = some q) :
    ∃ r, p.workers[k]? = some { assetMap := r, phase := Phase.finished }
      ∧ q.workers = p.workers.set k { assetMap := r, phase := Phase.released }
      ∧ q.world = p.world
      ∧ q.maxGoroutinesGuard + 1 = p.maxGoroutinesGuard
      ∧ q.pending = p.pending := by
  unfold Pool.step at h
  cases hw : p.workers[k]? with
  | none => simp [hw] at h
  | some x =>
    obtain ⟨r, ph⟩ := x
    cases ph
    · simp [hw] at h
    · simp only [hw] at h
      by_cases hg : 0 < p.maxGoroutinesGuard
      · rw [if_pos hg] at h
        simp only [Option.some.injEq] at h
        subst h
        exact ⟨r, rfl, rfl, rfl, Nat.sub_add_cancel hg, rfl⟩
      · rw [if_neg hg] at h
        cases h
    · simp [hw] at h

theorem Pool.step_enter {env : Env} {i : assetIdentifierStruct} {c : Nat} {p q : Pool}
    (h : p.step env i c Action.enter = some q) :
    ∃ r, p.pending = r :: q.pending
      ∧ q.workers = p.workers ++ [{ assetMap := r, phase := Phase.working }]
      ∧ q.world = p.world
      ∧ q.maxGoroutinesGuard = p.maxGoroutinesGuard + 1
      ∧ p.maxGoroutinesGuard < c := by
  unfold Pool.step at h
  cases hp : p.pending with
  | nil => simp [hp] at h
  | cons r rest =>
    simp only [hp] at h
    by_cases hg : p.maxGoroutinesGuard < c
    · rw [if_pos hg] at h
      simp only [Option.some.injEq] at h
      subst h
      exact ⟨r, rfl, rfl, rfl, rfl, hg⟩
    · rw [if_neg hg] at h
      cases h

/-- The gate invariant: the channel holds one value per row in flight, and no more values
than its capacity. -/
def Pool.GateInv (c : Nat) (p : Pool) : Prop :=
  p.inFlight = p.maxGoroutinesGuard ∧ p.maxGoroutinesGuard ≤ c

theorem Pool.step_gateInv {env : Env} {i : assetIdentifierStruct} {c : Nat} {p q : Pool}
    {a : Action} (h : p.step env i c a = some q) (hinv : p.GateInv c) : q.GateInv c := by
  obtain ⟨h1, h2⟩ := hinv
  unfold Pool.inFlight at h1
  cases a with
  | enter =>
    obtain ⟨r, _, hw, _, hg, hlt⟩ := Pool.step_enter h
    refine ⟨?_, by omega⟩
    unfold Pool.inFlight
    rw [hw, inFlightOf_append, hg, h1]
    simp [inFlightOf]
  | work k =>
    obtain ⟨r, hk, hw, _, hg, _⟩ := Pool.step_work h
    refine ⟨?_, by omega⟩
    unfold Pool.inFlight
    have := inFlightOf_set p.workers k _ { assetMap := r, phase := Phase.finished } hk
    simp at this
    rw [hw, hg, this, h1]
  | release k =>
    obtain ⟨r, hk, hw, _, hg, _⟩ := Pool.step_release h
    refine ⟨?_, by omega⟩
    unfold Pool.inFlight
    have := inFlightOf_set p.workers k _ { assetMap := r, phase := Phase.released } hk
    simp at this
    rw [hw]
    omega

theorem Pool.run_gateInv {env : Env} {i : assetIdentifierStruct} {c : Nat}
    (sched : List Action) :
    ∀ {p q : Pool}, Pool.run env i c p sched = some q → p.GateInv c → q.GateInv c := by
  induction sched with
  | nil =>
    intro p q h hinv
    simp only [Pool.run, Option.some.injEq] at h
    subst h
    exact hinv
  | cons a rest ih =>
    intro p q h hinv
    simp only [Pool.run] at h
    cases hs : p.step env i c a with
    | none => simp [hs] at h
    | some p' =>
      simp only [hs] at h
      exact ih h (Pool.step_gateInv hs hinv)

theorem Pool.init_gateInv (c : Nat) (w : World) (rows : List GoMap) :
    (Pool.init w rows).GateInv c :=
  ⟨rfl, Nat.zero_le _⟩

/-- The schedule that takes `n` rows one after the other, the first of them becoming
worker number `first`: enter, work, release, and so on. -/
def sequentialSchedule (first : Nat) : Nat → List Action
  | 0 => []
  | n + 1 =>
    Action.enter :: Action.work first :: Action.release first
      :: sequentialSchedule (first + 1) n

theorem Pool.run_sequential (env : Env) (i : assetIdentifierStruct) (c : Nat) (hc : 1 ≤ c)
    (rows : List GoMap) :
    ∀ p : Pool, p.pending = rows → p.maxGoroutinesGuard = 0 →
      ∃ q, Pool.run env i c p (sequentialSchedule p.workers.length rows.length) = some q
        ∧ q.world = processAssets env p.world rows i
        ∧ q.pending = [] ∧ q.maxGoroutinesGuard = 0 := by
  induction rows with
  | nil =>
    intro p hp hg
    exact ⟨p, rfl, rfl, hp, hg⟩
  | cons r rest ih =>
    intro p hp hg
    have hlt : p.maxGoroutinesGuard < c := by omega
    let p3 : Pool :=
      { pending := rest
        maxGoroutinesGuard := 0
        workers := p.workers ++ [{ assetMap := r, phase := Phase.released }]
        world := processRow env p.world i r }
    obtain ⟨q, hq, hw, hpend, hguard⟩ := ih p3 rfl rfl
    refine ⟨q, ?_, ?_, hpend, hguard⟩
    · have hlen : p3.workers.length = p.workers.length + 1 := by simp [p3]
      rw [hlen] at hq
      simp only [List.length_cons, sequentialSchedule, Pool.run]
      have h1 : p.step env i c Action.enter
          = some { pending := rest
                   maxGoroutinesGuard := 1
                   workers := p.workers ++ [{ assetMap := r, phase := Phase.working }]
                   world := p.world } := by
        have hc0 : 0 < c := by omega
        simp [Pool.step, hp, hg, hc0]
      rw [h1]
      simp only []
      have h2 : Pool.step env i c
          { pending := rest
            maxGoroutinesGuard := 1
            workers := p.workers ++ [{ assetMap := r, phase := Phase.working }]
            world := p.world } (Action.work p.workers.length)
          = some { pending := rest
                   maxGoroutinesGuard := 1
                   workers := p.workers ++ [{ assetMap := r, phase := Phase.finished }]
                   world := processRow env p.world i r } := by
        simp [Pool.step]
      rw [h2]
      simp only []
      have h3 : Pool.step env i c
          { pending := rest
            maxGoroutinesGuard := 1
            workers := p.workers ++ [{ assetMap := r, phase := Phase.finished }]
            world := processRow env p.world i r } (Action.release p.workers.length)
          = some p3 := by
        simp [Pool.step, p3]
      rw [h3]
      exact hq
    · rw [hw]
      rfl

/-- A schedule for three rows under a capacity of two: two rows are let in, the second
one is worked off and gives its slot back, the third row is let in. -/
def sampleSchedule : List Action :=
  [Action.enter, Action.enter, Action.work 1, Action.release 1, Action.enter]

/-- The three rows of the sample run. -/
def sampleRows : List GoMap := [sampleRow, rowNoKey, rowLondon]

/-- The state reached by the sample schedule. -/
def samplePool : Pool :=
  (Pool.run sampleEnv sampleIdentifier 2 (Pool.init sampleWorld sampleRows) sampleSchedule).getD
    (Pool.init sampleWorld sampleRows)

/-- C15: in every state `q` that a run of `processAssets` over any rows can reach under
any schedule, with a channel of any capacity `c` (so for every capacity from 1 to 10), the
number of rows past the admission gate and not yet finalized equals the number of values
in the channel and is at most `c`; a further row is let in only while that number is
below `c`.  A worker gives its slot back only from the phase it enters by finishing its
body, and that body is the whole of `processRow` on its row: search, create or update,
counter update. -/
theorem gate_bound (env : Env) (i : assetIdentifierStruct) (c : Nat) (w : World)
    (rows : List GoMap) (sched : List Action) (q : Pool)
    (hrun : Pool.run env i c (Pool.init w rows) sched = some q) :
    q.inFlight ≤ c
    ∧ q.inFlight = q.maxGoroutinesGuard
    ∧ (∀ q', q.step env i c Action.enter = some q' →
        q.inFlight < c ∧ q'.inFlight = q.inFlight + 1)
    ∧ (∀ k q', q.step env i c (Action.work k) = some q' →
        ∃ r, q.workers[k]? = some { assetMap := r, phase := Phase.working }
          ∧ q'.workers[k]? = some { assetMap := r, phase := Phase.finished }
          ∧ q'.world = processRow env q.world i r
          ∧ q'.inFlight = q.inFlight)
    ∧ (∀ k q', q.step env i c (Action.release k) = some q' →
        ∃ r, q.workers[k]? = some { assetMap := r, phase := Phase.finished }
          ∧ q'.workers[k]? = some { assetMap := r, phase := Phase.released }
          ∧ q'.world = q.world
          ∧ q'.inFlight + 1 = q.inFlight) := by
  have hinv := Pool.run_gateInv sched hrun (Pool.init_gateInv c w rows)
  refine ⟨by rw [hinv.1]; exact hinv.2, hinv.1, ?_, ?_, ?_⟩
  · intro q' hs
    have hinv' := Pool.step_gateInv hs hinv
    obtain ⟨r, _, _, _, hg, hlt⟩ := Pool.step_enter hs
    rw [hinv'.1, hinv.1, hg]
    exact ⟨hlt, rfl⟩
  · intro k q' hs
    have hinv' := Pool.step_gateInv hs hinv
    obtain ⟨r, hk, hw, hwd, hg, _⟩ := Pool.step_work hs
    refine ⟨r, hk, ?_, hwd, by rw [hinv'.1, hinv.1, hg]⟩
    rw [hw]
    have hlt : k < q.workers.length := by
      rcases Nat.lt_or_ge k q.workers.length with h | h
      · exact h
      · rw [List.getElem?_eq_none h] at hk
        cases hk
    simp [hlt]
  · intro k q' hs
    have hinv' := Pool.step_gateInv hs hinv
    obtain ⟨r, hk, hw, hwd, hg, _⟩ := Pool.step_release hs
    refine ⟨r, hk, ?_, hwd, by rw [hinv'.1, hinv.1, hg]⟩
    rw [hw]
    have hlt : k < q.workers.length := by
      rcases Nat.lt_or_ge k q.workers.length with h | h
      · exact h
      · rw [List.getElem?_eq_none h] at hk
        cases hk
    simp [hlt]

/-- C15 (witness): under a capacity of two the sample schedule is a run; it ends with
two rows in flight, and a further admission is refused. -/
theorem gate_bound_witness :
    Pool.run sampleEnv sampleIdentifier 2 (Pool.init sampleWorld sampleRows) sampleSchedule
        = some samplePool
    ∧ samplePool.inFlight = 2
    ∧ samplePool.inFlight ≤ 2
    ∧ samplePool.pending = []
    ∧ (Pool.run sampleEnv sampleIdentifier 1 (Pool.init sampleWorld sampleRows)
        [Action.enter, Action.enter]).isNone = true :=
  ⟨rfl, by decide, (gate_bound sampleEnv sampleIdentifier 2 sampleWorld sampleRows
      sampleSchedule samplePool rfl).1, by decide, by decide⟩

/-! ## Requests and ordinary mapping entries -/

/-- The parameter names written by the special cases of the generic loop (lines 266-281). -/
def pairNames : List String :=
  ["h_used_by", "h_used_by_name", "h_owned_by", "h_owned_by_name",
   "h_site", "h_site_id", "h_company_name", "h_company_id"]

/-- The parameter names the two functions write on their own account: the fixed parameters
of the four requests and the names written by the special cases of the two loops. -/
def reservedNames : List String :=
  ["application", "entity", "returnModifiedData", "h_class", "h_type", "h_last_updated",
   "h_last_updated_by", "relationshipName", "entityAction", "h_pk_asset_id", "h_asset_urn",
   "h_last_logged_on_user"] ++ pairNames

/-- The keys of a mapping. -/
def keysOf (m : GoMap) : List String := m.map Prod.fst

theorem value_unique_of_nodup_keys {l : GoMap} (h : (keysOf l).Nodup) {k : String}
    {v v' : Value} (h1 : (k, v) ∈ l) (h2 : (k, v') ∈ l) : v = v' := by
  induction l with
  | nil => simp at h1
  | cons x xs ih =>
    simp only [keysOf, List.map_cons, List.nodup_cons, List.mem_map, not_exists, not_and] at h
    rcases List.mem_cons.mp h1 with h1 | h1 <;> rcases List.mem_cons.mp h2 with h2 | h2
    · rw [← h1] at h2
      exact (Prod.mk.inj h2).2.symm
    · exact absurd (by rw [← h1]) (h.1 (k, v') h2)
    · exact absurd (by rw [← h2]) (h.1 (k, v) h1)
    · exact ih h.2 h1 h2

theorem mem_keysOf {l : GoMap} {k : String} {v : Value} (h : (k, v) ∈ l) : k ∈ keysOf l :=
  List.mem_map.mpr ⟨(k, v), h, rfl⟩

theorem genericEntry_mem_cases {env : Env} {refs : Refs} {u : GoMap} {k : String} {v : Value}
    {n x : String} (h : XmlTok.SetParam n x ∈ genericEntry env refs u k v) :
    n ∈ pairNames
      ∨ (n = k ∧ x = env.getFieldValue k (sprintfV (some v)) u
          ∧ sprintfV (some v) ≠ "" ∧ x ≠ "") := by
  unfold genericEntry at h
  simp only [List.mem_append] at h
  rcases h with (((h | h) | h) | h) | h
  · split_ifs at h
    · simp at h
      rcases h with h | h <;> exact Or.inl (by rw [h.1]; decide)
    · simp at h
  · split_ifs at h
    · simp at h
      rcases h with h | h <;> exact Or.inl (by rw [h.1]; decide)
    · simp at h
  · split_ifs at h
    · simp at h
      rcases h with h | h <;> exact Or.inl (by rw [h.1]; decide)
    · simp at h
  · split_ifs at h
    · simp at h
      rcases h with h | h <;> exact Or.inl (by rw [h.1]; decide)
    · simp at h
  · split_ifs at h with hc
    · simp at h
      exact Or.inr ⟨h.1, h.2, hc.2.2.2.2.1, by rw [h.2]; exact hc.2.2.2.2.2⟩
    · simp at h

theorem typeEntry_mem_cases {env : Env} {refs : Refs} {u : GoMap} {k : String} {v : Value}
    {n x : String} (h : XmlTok.SetParam n x ∈ typeEntry env refs u k v) :
    n = "h_last_logged_on_user"
      ∨ (n = k ∧ x = env.getFieldValue k (sprintfV (some v)) u
          ∧ sprintfV (some v) ≠ "" ∧ x ≠ "") := by
  unfold typeEntry at h
  simp only [List.mem_append] at h
  rcases h with h | h
  · split_ifs at h
    · simp at h
      exact Or.inl h.1
    · simp at h
  · split_ifs at h with hc
    · simp at h
      exact Or.inr ⟨h.1, h.2, hc.2.1, by rw [h.2]; exact hc.2.2⟩
    · simp at h

theorem genericLoop_only_SetParam {env : Env} {refs : Refs} {u : GoMap} {t : XmlTok}
    (h : t ∈ genericLoop env refs u) : ∃ n x, t = XmlTok.SetParam n x := by
  obtain ⟨k, v, _, hm⟩ := genericLoop_mem h
  unfold genericEntry at hm
  simp only [List.mem_append] at hm
  rcases hm with (((hm | hm) | hm) | hm) | hm <;> split_ifs at hm <;> simp at hm
  all_goals first
    | (rcases hm with hm | hm <;> exact ⟨_, _, hm⟩)
    | exact ⟨_, _, hm⟩

theorem genericLoop_passthrough_iff {env : Env} (refs : Refs) (u : GoMap) {k : String}
    {v : Value} (hk : (k, v) ∈ env.AssetGenericFieldMapping)
    (hn : (keysOf env.AssetGenericFieldMapping).Nodup) (hp : k ∉ pairNames) (x : String) :
    XmlTok.SetParam k x ∈ genericLoop env refs u ↔
      (x = env.getFieldValue k (sprintfV (some v)) u ∧ sprintfV (some v) ≠ "" ∧ x ≠ "") := by
  have h1 : k ≠ "h_site" := fun h => hp (by rw [h]; decide)
  have h2 : k ≠ "h_used_by" := fun h => hp (by rw [h]; decide)
  have h3 : k ≠ "h_owned_by" := fun h => hp (by rw [h]; decide)
  have h4 : k ≠ "h_company_name" := fun h => hp (by rw [h]; decide)
  constructor
  · intro h
    obtain ⟨k', v', hkv', hm⟩ := genericLoop_mem h
    rcases genericEntry_mem_cases hm with hc | ⟨hkk, hx, hmm, hne⟩
    · exact absurd hc hp
    · subst hkk
      have hv := value_unique_of_nodup_keys hn hk hkv'
      subst hv
      exact ⟨hx, hmm, hne⟩
  · rintro ⟨hx, hmm, hne⟩
    apply genericLoop_of_entry hk
    rw [genericEntry_passthrough env refs u k v h1 h2 h3 h4,
      if_pos ⟨hmm, by rw [← hx]; exact hne⟩, hx]
    exact List.mem_singleton.mpr rfl

theorem typeLoop_passthrough_iff {env : Env} (refs : Refs) (u : GoMap) {k : String}
    {v : Value} (hk : (k, v) ∈ env.AssetTypeFieldMapping)
    (hn : (keysOf env.AssetTypeFieldMapping).Nodup) (hp : k ≠ "h_last_logged_on_user")
    (x : String) :
    XmlTok.SetParam k x ∈ typeLoop env refs u ↔
      (x = env.getFieldValue k (sprintfV (some v)) u ∧ sprintfV (some v) ≠ "" ∧ x ≠ "") := by
  constructor
  · intro h
    obtain ⟨k', v', hkv', hm⟩ := typeLoop_mem h
    rcases typeEntry_mem_cases hm with hc | ⟨hkk, hx, hmm, hne⟩
    · exact absurd hc hp
    · subst hkk
      have hv := value_unique_of_nodup_keys hn hk hkv'
      subst hv
      exact ⟨hx, hmm, hne⟩
  · rintro ⟨hx, hmm, hne⟩
    apply typeLoop_of_entry hk
    rw [typeEntry_passthrough env refs u k v hp, if_pos ⟨hmm, by rw [← hx]; exact hne⟩, hx]
    exact List.mem_singleton.mpr rfl

theorem genericLoop_not_mem {env : Env} (refs : Refs) (u : GoMap) {n : String}
    (hp : n ∉ pairNames) (hk : n ∉ keysOf env.AssetGenericFieldMapping) (x : String) :
    XmlTok.SetParam n x ∉ genericLoop env refs u := by
  intro h
  obtain ⟨k', v', hkv', hm⟩ := genericLoop_mem h
  rcases genericEntry_mem_cases hm with hc | ⟨hkk, _, _, _⟩
  · exact hp hc
  · exact hk (by rw [hkk]; exact mem_keysOf hkv')

theorem typeLoop_not_mem {env : Env} (refs : Refs) (u : GoMap) {n : String}
    (hp : n ≠ "h_last_logged_on_user") (hk : n ∉ keysOf env.AssetTypeFieldMapping)
    (x : String) : XmlTok.SetParam n x ∉ typeLoop env refs u := by
  intro h
  obtain ⟨k', v', hkv', hm⟩ := typeLoop_mem h
  rcases typeEntry_mem_cases hm with hc | ⟨hkk, _, _, _⟩
  · exact hp hc
  · exact hk (by rw [hkk]; exact mem_keysOf hkv')

theorem createAsset_params_mem_iff (env : Env) (refs : Refs) (u : GoMap) {n : String}
    (hr : n ∉ reservedNames) (x : String) :
    XmlTok.SetParam n x ∈ createAsset_params env refs u ↔
      (XmlTok.SetParam n x ∈ genericLoop env refs u
        ∨ XmlTok.SetParam n x ∈ typeLoop env refs u) := by
  simp only [reservedNames, pairNames, List.mem_append, List.mem_cons, List.mem_singleton,
    List.not_mem_nil, or_false, not_or] at hr
  simp [createAsset_params, hr]

theorem updateAsset_params_mem_iff (env : Env) (refs : Refs) (u : GoMap) (a : String)
    {n : String} (hr : n ∉ reservedNames) (x : String) :
    XmlTok.SetParam n x ∈ updateAsset_params env refs u a ↔
      XmlTok.SetParam n x ∈ genericLoop env refs u := by
  simp only [reservedNames, pairNames, List.mem_append, List.mem_cons, List.mem_singleton,
    List.not_mem_nil, or_false, not_or] at hr
  simp [updateAsset_params, hr]

theorem updateAsset_extParams_mem_iff (env : Env) (refs : Refs) (u : GoMap) (a : String)
    {n : String} (hr : n ∉ reservedNames) (x : String) :
    XmlTok.SetParam n x ∈ updateAsset_extParams env refs u a ↔
      XmlTok.SetParam n x ∈ typeLoop env refs u := by
  simp only [reservedNames, pairNames, List.mem_append, List.mem_cons, List.mem_singleton,
    List.not_mem_nil, or_false, not_or] at hr
  simp [updateAsset_extParams, hr]

theorem not_pairNames_of_not_reserved {n : String} (hr : n ∉ reservedNames) :
    n ∉ pairNames := by
  intro h
  exact hr (List.mem_append.mpr (Or.inr h))

theorem not_lastLoggedOn_of_not_reserved {n : String} (hr : n ∉ reservedNames) :
    n ≠ "h_last_logged_on_user" := by
  intro h
  exact hr (by rw [h]; decide)

theorem createAsset_createCalls (env : Env) (w : World) (u : GoMap)
    (hdry : env.configDryRun = false) :
    createCalls (createAsset env w u).trace
      = createCalls w.trace ++ [(createAsset_prepare env w u).params] := by
  have hb := createAsset_call_createCalls env w u
  unfold createAsset
  simp only [hdry, if_true]
  change createCalls (World.trace (match (createAsset_call env w u).1 with
    | Except.error _ => _
    | Except.ok XMLCreate => _)) = _
  cases hc : (createAsset_call env w u).1 with
  | error e => exact hb
  | ok body =>
    simp only []
    cases hu : env.unmarshalUpdateResponse body with
    | error e => exact hb
    | ok r =>
      simp only []
      by_cases hr : r.MethodResult ≠ "ok"
      · rw [if_pos hr]; exact hb
      · rw [if_neg hr, createAsset_followUp_eq]
        simp [createCalls_append]

theorem updateAsset_updateCalls_dry (env : Env) (w : World) (u : GoMap) (a : String)
    (hdry : env.configDryRun = true) :
    updateCalls (updateAsset env w u a).2.trace = updateCalls w.trace := by
  rw [updateAsset_eq]
  simp [hdry]

theorem updateAsset_updateCalls_hard (env : Env) (w : World) (u : GoMap) (a : String)
    (hdry : env.configDryRun = false)
    (h : updateResponse env (updateAsset_call env w u a).1 = none) :
    updateCalls (updateAsset env w u a).2.trace
      = updateCalls w.trace ++ [(updateAsset_prepare env w u a).2.params] := by
  rw [updateAsset_eq, if_pos hdry, h]
  simpa using updateAsset_call_updateCalls env w u a

theorem updateAsset_updateCalls_accepted (env : Env) (w : World) (u : GoMap) (a : String)
    (r1 : xmlmcUpdateResponse) (hdry : env.configDryRun = false)
    (h : updateResponse env (updateAsset_call env w u a).1 = some r1) :
    ∃ rest, (rest = [] ∨ rest = [updateAsset_stampParams env a])
      ∧ updateCalls (updateAsset env w u a).2.trace
        = updateCalls w.trace ++ (updateAsset_prepare env w u a).2.params
            :: updateAsset_extParams env (updateAsset_prepare env w u a).1 u a :: rest := by
  rw [updateAsset_eq, if_pos hdry, h]
  simp only []
  cases updateResponse env (updateAsset_extCall env w u a).1 with
  | none =>
    exact ⟨[], Or.inl rfl, by simpa using updateAsset_extCall_updateCalls env w u a⟩
  | some r2 =>
    simp only []
    by_cases hc : r1.ColList = [] ∧ r2.ColList = []
    · rw [if_pos hc]
      exact ⟨[], Or.inl rfl, by simpa using updateAsset_extCall_updateCalls env w u a⟩
    · rw [if_neg hc]
      exact ⟨[updateAsset_stampParams env a], Or.inr rfl,
        by simpa using updateAsset_stampCall_updateCalls env w u a⟩

theorem genericEntry_no_empty_value (env : Env) (refs : Refs) (u : GoMap) (k : String)
    (v : Value) (n : String) : XmlTok.SetParam n "" ∉ genericEntry env refs u k v := by
  intro h
  unfold genericEntry at h
  simp only [List.mem_append] at h
  rcases h with (((h | h) | h) | h) | h <;> split_ifs at h with hc <;> simp at h
  · rcases h with h | h
    · exact hc.2.2 h.2.symm
    · exact hc.2.1 h.2.symm
  · rcases h with h | h
    · exact hc.2.2 h.2.symm
    · exact hc.2.1 h.2.symm
  · rcases h with h | h
    · exact hc.2.2 h.2.symm
    · exact hc.2.1 h.2.symm
  · rcases h with h | h
    · exact hc.2.2 h.2.symm
    · exact hc.2.1 h.2.symm
  · exact hc.2.2.2.2.2 h.2.symm

theorem typeEntry_no_empty_value (env : Env) (refs : Refs) (u : GoMap) (k : String)
    (v : Value) (n : String) : XmlTok.SetParam n "" ∉ typeEntry env refs u k v := by
  intro h
  unfold typeEntry at h
  simp only [List.mem_append] at h
  rcases h with h | h <;> split_ifs at h with hc <;> simp at h
  · exact hc.2 h.2.symm
  · exact hc.2.2 h.2.symm

theorem genericLoop_no_empty_value (env : Env) (refs : Refs) (u : GoMap) (n : String) :
    XmlTok.SetParam n "" ∉ genericLoop env refs u := by
  intro h
  obtain ⟨k, v, _, hm⟩ := genericLoop_mem h
  exact genericEntry_no_empty_value env refs u k v n hm

theorem typeLoop_no_empty_value (env : Env) (refs : Refs) (u : GoMap) (n : String) :
    XmlTok.SetParam n "" ∉ typeLoop env refs u := by
  intro h
  obtain ⟨k, v, _, hm⟩ := typeLoop_mem h
  exact typeEntry_no_empty_value env refs u k v n hm

theorem createAsset_prepare_params (env : Env) (w : World) (u : GoMap) :
    (createAsset_prepare env w u).params
      = w.params ++ createAsset_params env (createAsset_resolve env w u).1 u := by
  simp [createAsset_prepare, (createAsset_resolve_ext env w u).params]

theorem updateAsset_prepare_params (env : Env) (w : World) (u : GoMap) (a : String) :
    (updateAsset_prepare env w u a).2.params
      = w.params ++ updateAsset_params env (updateAsset_resolve env w u).1 u a := by
  simp [updateAsset_prepare, (updateAsset_resolve_ext env w u).params]

/-! ## C12: ordinary mapping entries in the requests -/

/-- A row with a serial number. -/
def rowSerial : GoMap :=
  [("asset_tag", Value.str "A100"), ("name", Value.str "laptop-7"),
   ("serial", Value.str "S1")]

/-- The configuration `envSerial` under dry-run. -/
def envSerialDryRun : Env :=
  { envSerial with configDryRun := true }

/-- The asset class could not be resolved and is empty; the mapping lists `h_class` as a
field of its own, read from the column `cls`. -/
def envEmptyClass : Env :=
  { sampleEnv with
    AssetClass := ""
    AssetGenericFieldMapping := [("h_class", Value.str "cls")] }

/-- C12 (counterexample): under dry-run, for the type entry `h_serial ↦ serial` of a row
whose serial number is `S1`, the source column text and the value are both non-empty, yet
`updateAsset` sends no update request and the one request it builds, the primary one,
does not contain `h_serial = S1`.  And for the generic entry `h_class ↦ cls` of a row
without a class, the value is empty, yet the create request contains `h_class` with the
empty value, written by `createAsset` itself. -/
theorem updateAsset_dryRun_type_entry_absent :
    (("h_serial", Value.str "serial") ∈ envSerialDryRun.AssetTypeFieldMapping
      ∧ sprintfV (some (Value.str "serial")) ≠ ""
      ∧ envSerialDryRun.getFieldValue "h_serial" (sprintfV (some (Value.str "serial")))
          rowSerial = "S1"
      ∧ updateCalls (updateAsset envSerialDryRun sampleWorld rowSerial "77").2.trace = []
      ∧ XmlTok.SetParam "h_serial" "S1"
          ∉ (updateAsset_prepare envSerialDryRun sampleWorld rowSerial "77").2.params)
    ∧ (("h_class", Value.str "cls") ∈ envEmptyClass.AssetGenericFieldMapping
      ∧ envEmptyClass.getFieldValue "h_class" (sprintfV (some (Value.str "cls"))) sampleRow
          = ""
      ∧ XmlTok.SetParam "h_class" ""
          ∈ (createAsset_prepare envEmptyClass sampleWorld sampleRow).params) := by
  refine ⟨⟨by decide, by decide, by decide, by decide, by decide⟩,
    ⟨by decide, by decide, by decide⟩⟩

/-- C12 (amended): let `k ↦ v` be an entry of the generic mapping and `t ↦ tv` an entry of
the type mapping, the keys of each mapping being distinct, with `k` and `t` not among the
parameter names the functions write on their own account (`reservedNames`, which holds
`h_site`, `h_used_by`, `h_owned_by`, `h_company_name` and `h_last_logged_on_user`).  The
request built by `createAsset` (sent outside dry-run) contains `k = x` exactly when `x`
is the row's value for the entry and the source column text and that value are
non-empty, or when the type loop writes it, which needs `k` to be a key of the type
mapping too; likewise `t = x` with the two mappings exchanged.  The primary update request
built by `updateAsset` contains `k = x` under the same condition, and `t = x` only as an
entry of the generic mapping.  The related update request contains `t = x` under the same
condition, and `k = x` only as an entry of the type mapping; `updateAsset` sends it only
outside dry-run after a primary answer that is not a hard failure: under dry-run it sends
no update request and after a primary hard failure only the primary one.  Neither loop
ever writes an empty value. -/
theorem mapping_passthrough (env : Env) (w : World) (u : GoMap) (a : String)
    (k : String) (v : Value) (t : String) (tv : Value)
    (hk : (k, v) ∈ env.AssetGenericFieldMapping)
    (ht : (t, tv) ∈ env.AssetTypeFieldMapping)
    (hnk : (keysOf env.AssetGenericFieldMapping).Nodup)
    (hnt : (keysOf env.AssetTypeFieldMapping).Nodup)
    (hrk : k ∉ reservedNames) (hrt : t ∉ reservedNames) :
    ((createAsset_prepare env w u).params
        = w.params ++ createAsset_params env (createAsset_resolve env w u).1 u
      ∧ (env.configDryRun = false →
          createCalls (createAsset env w u).trace
            = createCalls w.trace ++ [(createAsset_prepare env w u).params])
      ∧ (∀ x, XmlTok.SetParam k x ∈ createAsset_params env (createAsset_resolve env w u).1 u ↔
          ((x = env.getFieldValue k (sprintfV (some v)) u ∧ sprintfV (some v) ≠ "" ∧ x ≠ "")
            ∨ XmlTok.SetParam k x ∈ typeLoop env (createAsset_resolve env w u).1 u))
      ∧ (∀ x, XmlTok.SetParam t x ∈ createAsset_params env (createAsset_resolve env w u).1 u ↔
          ((x = env.getFieldValue t (sprintfV (some tv)) u ∧ sprintfV (some tv) ≠ ""
              ∧ x ≠ "")
            ∨ XmlTok.SetParam t x ∈ genericLoop env (createAsset_resolve env w u).1 u)))
    ∧ ((updateAsset_prepare env w u a).2.params
        = w.params ++ updateAsset_params env (updateAsset_resolve env w u).1 u a
      ∧ (∀ x, XmlTok.SetParam k x
            ∈ updateAsset_params env (updateAsset_resolve env w u).1 u a ↔
          (x = env.getFieldValue k (sprintfV (some v)) u ∧ sprintfV (some v) ≠ "" ∧ x ≠ ""))
      ∧ (∀ x, XmlTok.SetParam t x
            ∈ updateAsset_params env (updateAsset_resolve env w u).1 u a ↔
          XmlTok.SetParam t x ∈ genericLoop env (updateAsset_resolve env w u).1 u))
    ∧ ((∀ x, XmlTok.SetParam t x
            ∈ updateAsset_extParams env (updateAsset_resolve env w u).1 u a ↔
          (x = env.getFieldValue t (sprintfV (some tv)) u ∧ sprintfV (some tv) ≠ ""
            ∧ x ≠ ""))
      ∧ (∀ x, XmlTok.SetParam k x
            ∈ updateAsset_extParams env (updateAsset_resolve env w u).1 u a ↔
          XmlTok.SetParam k x ∈ typeLoop env (updateAsset_resolve env w u).1 u))
    ∧ ((k ∉ keysOf env.AssetTypeFieldMapping →
          ∀ refs x, XmlTok.SetParam k x ∉ typeLoop env refs u)
      ∧ (t ∉ keysOf env.AssetGenericFieldMapping →
          ∀ refs x, XmlTok.SetParam t x ∉ genericLoop env refs u))
    ∧ ((env.configDryRun = false →
          ∀ r1, updateResponse env (updateAsset_call env w u a).1 = some r1 →
            ∃ rest, (rest = [] ∨ rest = [updateAsset_stampParams env a])
              ∧ updateCalls (updateAsset env w u a).2.trace
                = updateCalls w.trace ++ (updateAsset_prepare env w u a).2.params
                    :: updateAsset_extParams env (updateAsset_resolve env w u).1 u a :: rest)
      ∧ (env.configDryRun = false →
          updateResponse env (updateAsset_call env w u a).1 = none →
          updateCalls (updateAsset env w u a).2.trace
            = updateCalls w.trace ++ [(updateAsset_prepare env w u a).2.params])
      ∧ (env.configDryRun = true →
          updateCalls (updateAsset env w u a).2.trace = updateCalls w.trace))
    ∧ ((∀ refs n, XmlTok.SetParam n "" ∉ genericLoop env refs u)
      ∧ (∀ refs n, XmlTok.SetParam n "" ∉ typeLoop env refs u)) := by
  have hpk := not_pairNames_of_not_reserved hrk
  have hpt := not_pairNames_of_not_reserved hrt
  have hlk := not_lastLoggedOn_of_not_reserved hrk
  have hlt := not_lastLoggedOn_of_not_reserved hrt
  refine ⟨⟨createAsset_prepare_params env w u, createAsset_createCalls env w u, ?_, ?_⟩,
    ⟨updateAsset_prepare_params env w u a, ?_, ?_⟩, ⟨?_, ?_⟩,
    ⟨fun hx refs x => typeLoop_not_mem refs u hlk hx x,
     fun hx refs x => genericLoop_not_mem refs u hpt hx x⟩,
    ⟨fun hdry r1 h => updateAsset_updateCalls_accepted env w u a r1 hdry h,
     updateAsset_updateCalls_hard env w u a, updateAsset_updateCalls_dry env w u a⟩,
    ⟨fun refs n => genericLoop_no_empty_value env refs u n,
     fun refs n => typeLoop_no_empty_value env refs u n⟩⟩
  · intro x
    rw [createAsset_params_mem_iff env _ u hrk x,
      ← genericLoop_passthrough_iff (createAsset_resolve env w u).1 u hk hnk hpk x]
  · intro x
    rw [createAsset_params_mem_iff env _ u hrt x,
      ← typeLoop_passthrough_iff (createAsset_resolve env w u).1 u ht hnt hlt x]
    exact Or.comm
  · intro x
    rw [updateAsset_params_mem_iff env _ u a hrk x,
      ← genericLoop_passthrough_iff (updateAsset_resolve env w u).1 u hk hnk hpk x]
  · intro x
    exact updateAsset_params_mem_iff env _ u a hrt x
  · intro x
    rw [updateAsset_extParams_mem_iff env _ u a hrt x,
      ← typeLoop_passthrough_iff (updateAsset_resolve env w u).1 u ht hnt hlt x]
  · intro x
    exact updateAsset_extParams_mem_iff env _ u a hrk x

/-- C12 (witness): in the configuration with the generic entry `h_name ↦ name` and the
type entry `h_serial ↦ serial`, the create request of the row with serial number `S1`
contains `h_name = laptop-7` and `h_serial = S1`, and the primary update request contains
no `h_serial`. -/
theorem mapping_passthrough_witness :
    (("h_name", Value.str "name") ∈ envSerial.AssetGenericFieldMapping
      ∧ ("h_serial", Value.str "serial") ∈ envSerial.AssetTypeFieldMapping
      ∧ (keysOf envSerial.AssetGenericFieldMapping).Nodup
      ∧ (keysOf envSerial.AssetTypeFieldMapping).Nodup
      ∧ "h_name" ∉ reservedNames ∧ "h_serial" ∉ reservedNames)
    ∧ XmlTok.SetParam "h_name" "laptop-7"
        ∈ createAsset_params envSerial (createAsset_resolve envSerial sampleWorld rowSerial).1
            rowSerial
    ∧ XmlTok.SetParam "h_serial" "S1"
        ∈ createAsset_params envSerial (createAsset_resolve envSerial sampleWorld rowSerial).1
            rowSerial
    ∧ XmlTok.SetParam "h_serial" "S1"
        ∉ updateAsset_params envSerial (updateAsset_resolve envSerial sampleWorld rowSerial).1
            rowSerial "77" := by
  have h := mapping_passthrough envSerial sampleWorld rowSerial "77"
    "h_name" (Value.str "name") "h_serial" (Value.str "serial")
    (by decide) (by decide) (by decide) (by decide) (by decide) (by decide)
  refine ⟨⟨by decide, by decide, by decide, by decide, by decide, by decide⟩, ?_, ?_, ?_⟩
  · exact (h.1.2.2.1 "laptop-7").mpr (Or.inl ⟨by decide, by decide, by decide⟩)
  · exact (h.1.2.2.2 "S1").mpr (Or.inl ⟨by decide, by decide, by decide⟩)
  · rw [h.2.1.2.2 "S1"]
    exact h.2.2.2.1.2 (by decide) _ "S1"

/-! ## The site and company pairs: resolution and emission -/

theorem toDigitsCore_length_ge (b : Nat) : ∀ (f n : Nat) (ds : List Char),
    ds.length ≤ (Nat.toDigitsCore b f n ds).length := by
  intro f
  induction f with
  | zero => intro n ds; simp [Nat.toDigitsCore]
  | succ f ih =>
    intro n ds
    simp only [Nat.toDigitsCore]
    split_ifs
    · simp
    · exact Nat.le_trans (by simp) (ih _ _)

theorem toDigits_ne_nil (b n : Nat) : Nat.toDigits b n ≠ [] := by
  intro h
  have hl := congrArg List.length h
  unfold Nat.toDigits at hl
  simp only [Nat.toDigitsCore] at hl
  split_ifs at hl
  · simp at hl
  · have := toDigitsCore_length_ge b n (n / b) [Nat.digitChar (n % b)]
    rw [hl] at this
    simp at this

theorem nat_toString_ne_empty (n : Nat) : toString n ≠ "" := by
  intro h
  have : (Nat.repr n).data = [] := by
    have h' : Nat.repr n = "" := h
    rw [h']
  simp [Nat.repr, List.asString] at this
  exact toDigits_ne_nil 10 n this

theorem int_toString_ne_empty (i : Int) : toString i ≠ "" := by
  cases i with
  | ofNat n => exact nat_toString_ne_empty n
  | negSucc n =>
    intro h
    have hl := congrArg String.length h
    change ("-" ++ toString (n + 1)).length = "".length at hl
    have h1 : "-".length = 1 := by decide
    have h0 : "".length = 0 := by decide
    rw [String.length_append, h1, h0] at hl
    omega

/-- The site id found for a site name after the calls in `tr` (lines 147-157 and 401-411):
the cached id on a cache hit, otherwise the id returned by a successful remote search,
otherwise none; the id is printed with `strconv.Itoa`. -/
def siteIDOf (env : Env) (tr : List Event) (siteName : String) : String :=
  if (env.siteInCache tr siteName).1 = true then toString (env.siteInCache tr siteName).2
  else if (env.searchSite tr siteName).1 = true then toString (env.searchSite tr siteName).2
  else ""

/-- The company id found for a company name after the calls in `tr` (lines 166-174 and
420-428): the cached id on a cache hit, otherwise the id returned by a successful remote
search of group type 5, otherwise none. -/
def companyIDOf (env : Env) (tr : List Event) (companyName : String) : String :=
  if (env.groupInCache tr companyName 5).1 = true then (env.groupInCache tr companyName 5).2
  else if (env.searchGroup tr companyName 5).1 = true then
    (env.searchGroup tr companyName 5).2
  else ""

theorem siteIDOf_ne_empty_iff (env : Env) (tr : List Event) (n : String) :
    siteIDOf env tr n ≠ "" ↔
      ((env.siteInCache tr n).1 = true ∨ (env.searchSite tr n).1 = true) := by
  unfold siteIDOf
  split_ifs with h1 h2
  · simp [h1, int_toString_ne_empty]
  · simp [h1, h2, int_toString_ne_empty]
  · simp [h1, h2]

theorem createAsset_site_eq (env : Env) (b : World) (u : GoMap) :
    (createAsset_site env b u).1
      = (siteValue env u,
          if siteValue env u ≠ "" then siteIDOf env b.trace (siteValue env u) else "") := by
  unfold createAsset_site siteValue siteIDOf
  simp only []
  split_ifs <;> simp_all [searchSite]

theorem updateAsset_site_eq (env : Env) (b : World) (u : GoMap) :
    (updateAsset_site env b u).1
      = (siteValue env u,
          if siteValue env u ≠ "" ∧ siteValue env u ≠ "<nil>" then
            siteIDOf env b.trace (siteValue env u)
          else "") := by
  unfold updateAsset_site siteValue siteIDOf
  simp only []
  split_ifs <;> simp_all [searchSite]

theorem resolveCompany_eq (env : Env) (b : World) (u : GoMap) :
    (resolveCompany env b u).1
      = (companyValue env u,
          if companyValue env u ≠ "" ∧ companyValue env u ≠ "<nil>" then
            companyIDOf env b.trace (companyValue env u)
          else "") := by
  unfold resolveCompany companyValue companyIDOf
  simp only []
  split_ifs <;> simp_all [searchGroup]

theorem genericEntry_site_key {env : Env} {refs : Refs} {u : GoMap} {k : String} {v : Value}
    {x : String} (h : XmlTok.SetParam "h_site" x ∈ genericEntry env refs u k v) :
    k = "h_site" := by
  unfold genericEntry at h
  simp only [List.mem_append] at h
  rcases h with (((h | h) | h) | h) | h
  · split_ifs at h <;> simp at h
  · split_ifs at h <;> simp at h
  · split_ifs at h with hc
    · exact hc.1
    · simp at h
  · split_ifs at h <;> simp at h
  · split_ifs at h with hc
    · simp at h
      exact absurd h.1.symm hc.1
    · simp at h

theorem genericEntry_company_key {env : Env} {refs : Refs} {u : GoMap} {k : String}
    {v : Value} {x : String}
    (h : XmlTok.SetParam "h_company_name" x ∈ genericEntry env refs u k v) :
    k = "h_company_name" := by
  unfold genericEntry at h
  simp only [List.mem_append] at h
  rcases h with (((h | h) | h) | h) | h
  · split_ifs at h <;> simp at h
  · split_ifs at h <;> simp at h
  · split_ifs at h <;> simp at h
  · split_ifs at h with hc
    · exact hc.1
    · simp at h
  · split_ifs at h with hc
    · simp at h
      exact absurd h.1.symm hc.2.2.2.1
    · simp at h

theorem genericEntry_site_id_mem {env : Env} {refs : Refs} {u : GoMap} {k : String}
    {v : Value} {x : String}
    (h : XmlTok.SetParam "h_site_id" x ∈ genericEntry env refs u k v) :
    (k = "h_site" ∧ x = refs.siteID ∧ refs.siteID ≠ "" ∧ refs.siteName ≠ "")
      ∨ (k = "h_site_id" ∧ x = env.getFieldValue "h_site_id" (sprintfV (some v)) u
          ∧ sprintfV (some v) ≠ "" ∧ x ≠ "") := by
  unfold genericEntry at h
  simp only [List.mem_append] at h
  rcases h with (((h | h) | h) | h) | h
  · split_ifs at h <;> simp at h
  · split_ifs at h <;> simp at h
  · split_ifs at h with hc
    · simp at h
      exact Or.inl ⟨hc.1, h, hc.2.1, hc.2.2⟩
    · simp at h
  · split_ifs at h <;> simp at h
  · split_ifs at h with hc
    · simp at h
      obtain ⟨hk, hx⟩ := h
      subst hk
      exact Or.inr ⟨rfl, hx, hc.2.2.2.2.1, by rw [hx]; exact hc.2.2.2.2.2⟩
    · simp at h

theorem genericEntry_company_id_mem {env : Env} {refs : Refs} {u : GoMap} {k : String}
    {v : Value} {x : String}
    (h : XmlTok.SetParam "h_company_id" x ∈ genericEntry env refs u k v) :
    (k = "h_company_name" ∧ x = refs.companyID ∧ refs.companyID ≠ ""
        ∧ refs.companyName ≠ "")
      ∨ (k = "h_company_id" ∧ x = env.getFieldValue "h_company_id" (sprintfV (some v)) u
          ∧ sprintfV (some v) ≠ "" ∧ x ≠ "") := by
  unfold genericEntry at h
  simp only [List.mem_append] at h
  rcases h with (((h | h) | h) | h) | h
  · split_ifs at h <;> simp at h
  · split_ifs at h <;> simp at h
  · split_ifs at h <;> simp at h
  · split_ifs at h with hc
    · simp at h
      exact Or.inl ⟨hc.1, h, hc.2.1, hc.2.2⟩
    · simp at h
  · split_ifs at h with hc
    · simp at h
      obtain ⟨hk, hx⟩ := h
      subst hk
      exact Or.inr ⟨rfl, hx, hc.2.2.2.2.1, by rw [hx]; exact hc.2.2.2.2.2⟩
    · simp at h

/-- The pair rule of the generic loop for the references held in `refs`.  The loop writes
`h_site = x` exactly when `x` is the site name, the site id and the name are non-empty
and `h_site` is a key of the mapping, and then it also writes `h_site_id = id`; a
parameter `h_site_id` comes from that pair or from a mapping entry keyed `h_site_id`
itself.  The same holds of `h_company_name` and `h_company_id`.  In the primary update
request `h_site` and `h_company_name` are written by the loop only; in the create request
they are written by the loop or, when the type mapping lists them as keys, by the type
loop. -/
def PairRule (env : Env) (u : GoMap) (refs : Refs) : Prop :=
  ((∀ x, XmlTok.SetParam "h_site" x ∈ genericLoop env refs u ↔
      (x = refs.siteName ∧ refs.siteID ≠ "" ∧ refs.siteName ≠ ""
        ∧ "h_site" ∈ keysOf env.AssetGenericFieldMapping))
    ∧ ("h_site" ∈ keysOf env.AssetGenericFieldMapping → refs.siteID ≠ "" →
        refs.siteName ≠ "" → XmlTok.SetParam "h_site_id" refs.siteID ∈ genericLoop env refs u)
    ∧ (∀ x, XmlTok.SetParam "h_site_id" x ∈ genericLoop env refs u →
        (x = refs.siteID ∧ refs.siteID ≠ "" ∧ refs.siteName ≠ ""
          ∧ "h_site" ∈ keysOf env.AssetGenericFieldMapping)
        ∨ ("h_site_id" ∈ keysOf env.AssetGenericFieldMapping ∧ x ≠ "")))
  ∧ ((∀ x, XmlTok.SetParam "h_company_name" x ∈ genericLoop env refs u ↔
      (x = refs.companyName ∧ refs.companyID ≠ "" ∧ refs.companyName ≠ ""
        ∧ "h_company_name" ∈ keysOf env.AssetGenericFieldMapping))
    ∧ ("h_company_name" ∈ keysOf env.AssetGenericFieldMapping → refs.companyID ≠ "" →
        refs.companyName ≠ "" →
        XmlTok.SetParam "h_company_id" refs.companyID ∈ genericLoop env refs u)
    ∧ (∀ x, XmlTok.SetParam "h_company_id" x ∈ genericLoop env refs u →
        (x = refs.companyID ∧ refs.companyID ≠ "" ∧ refs.companyName ≠ ""
          ∧ "h_company_name" ∈ keysOf env.AssetGenericFieldMapping)
        ∨ ("h_company_id" ∈ keysOf env.AssetGenericFieldMapping ∧ x ≠ "")))
  ∧ ((∀ a x, XmlTok.SetParam "h_site" x ∈ updateAsset_params env refs u a ↔
        XmlTok.SetParam "h_site" x ∈ genericLoop env refs u)
    ∧ (∀ a x, XmlTok.SetParam "h_company_name" x ∈ updateAsset_params env refs u a ↔
        XmlTok.SetParam "h_company_name" x ∈ genericLoop env refs u)
    ∧ (∀ x, XmlTok.SetParam "h_site" x ∈ createAsset_params env refs u ↔
        (XmlTok.SetParam "h_site" x ∈ genericLoop env refs u
          ∨ XmlTok.SetParam "h_site" x ∈ typeLoop env refs u))
    ∧ (∀ x, XmlTok.SetParam "h_company_name" x ∈ createAsset_params env refs u ↔
        (XmlTok.SetParam "h_company_name" x ∈ genericLoop env refs u
          ∨ XmlTok.SetParam "h_company_name" x ∈ typeLoop env refs u))
    ∧ ("h_site" ∉ keysOf env.AssetTypeFieldMapping →
        ∀ x, XmlTok.SetParam "h_site" x ∉ typeLoop env refs u)
    ∧ ("h_company_name" ∉ keysOf env.AssetTypeFieldMapping →
        ∀ x, XmlTok.SetParam "h_company_name" x ∉ typeLoop env refs u))

theorem exists_of_mem_keysOf {l : GoMap} {k : String} (h : k ∈ keysOf l) :
    ∃ v, (k, v) ∈ l := by
  unfold keysOf at h
  rw [List.mem_map] at h
  obtain ⟨kv, hkv, hk⟩ := h
  exact ⟨kv.2, by rw [← hk]; exact hkv⟩

theorem pairRule (env : Env) (u : GoMap) (refs : Refs) : PairRule env u refs := by
  refine ⟨⟨?_, ?_, ?_⟩, ⟨?_, ?_, ?_⟩, ⟨?_, ?_, ?_, ?_, ?_, ?_⟩⟩
  · intro x
    constructor
    · intro hx
      obtain ⟨k, v, hkv, hm⟩ := genericLoop_mem hx
      have hk := genericEntry_site_key hm
      have h := genericEntry_site_mem hm
      exact ⟨h.1, h.2.1, h.2.2, by rw [← hk]; exact mem_keysOf hkv⟩
    · rintro ⟨hx, hid, hname, hkey⟩
      obtain ⟨v, hv⟩ := exists_of_mem_keysOf hkey
      apply genericLoop_of_entry hv
      rw [genericEntry_site, if_pos ⟨hid, hname⟩, hx]
      simp
  · intro hkey hid hname
    obtain ⟨v, hv⟩ := exists_of_mem_keysOf hkey
    apply genericLoop_of_entry hv
    rw [genericEntry_site, if_pos ⟨hid, hname⟩]
    simp
  · intro x hx
    obtain ⟨k, v, hkv, hm⟩ := genericLoop_mem hx
    rcases genericEntry_site_id_mem hm with ⟨hk, h1, h2, h3⟩ | ⟨hk, _, _, h3⟩
    · exact Or.inl ⟨h1, h2, h3, by rw [← hk]; exact mem_keysOf hkv⟩
    · exact Or.inr ⟨by rw [← hk]; exact mem_keysOf hkv, h3⟩
  · intro x
    constructor
    · intro hx
      obtain ⟨k, v, hkv, hm⟩ := genericLoop_mem hx
      have hk := genericEntry_company_key hm
      have h := genericEntry_company_mem hm
      exact ⟨h.1, h.2.1, h.2.2, by rw [← hk]; exact mem_keysOf hkv⟩
    · rintro ⟨hx, hid, hname, hkey⟩
      obtain ⟨v, hv⟩ := exists_of_mem_keysOf hkey
      apply genericLoop_of_entry hv
      rw [genericEntry_company, if_pos ⟨hid, hname⟩, hx]
      simp
  · intro hkey hid hname
    obtain ⟨v, hv⟩ := exists_of_mem_keysOf hkey
    apply genericLoop_of_entry hv
    rw [genericEntry_company, if_pos ⟨hid, hname⟩]
    simp
  · intro x hx
    obtain ⟨k, v, hkv, hm⟩ := genericLoop_mem hx
    rcases genericEntry_company_id_mem hm with ⟨hk, h1, h2, h3⟩ | ⟨hk, _, _, h3⟩
    · exact Or.inl ⟨h1, h2, h3, by rw [← hk]; exact mem_keysOf hkv⟩
    · exact Or.inr ⟨by rw [← hk]; exact mem_keysOf hkv, h3⟩
  · intro a x
    simp [updateAsset_params]
  · intro a x
    simp [updateAsset_params]
  · intro x
    simp [createAsset_params]
  · intro x
    simp [createAsset_params]
  · intro hk x
    exact typeLoop_not_mem refs u (by decide) hk x
  · intro hk x
    exact typeLoop_not_mem refs u (by decide) hk x

/-! ## C13: the site and company pairs -/

/-- The mapping lists `h_site_id` as a field of its own next to `h_site`; no site is
cached or found. -/
def envSiteIdMapped : Env :=
  { sampleEnv with
    AssetGenericFieldMapping :=
      [("h_site", Value.str "site"), ("h_site_id", Value.str "site_id")] }

/-- A row in Paris carrying a site id of its own. -/
def rowParis : GoMap :=
  [("asset_tag", Value.str "A100"), ("site", Value.str "Paris"),
   ("site_id", Value.str "99")]

/-- C13 (counterexample): the mapping lists `h_site_id` next to `h_site`; the site
`Paris` is neither cached nor found, so both functions leave the site id unresolved and
write no `h_site`, yet the create request and the primary update request carry
`h_site_id = 99`, passed through from the row. -/
theorem site_id_passthrough_when_unresolved :
    (createAsset_resolve envSiteIdMapped sampleWorld rowParis).1.siteID = ""
    ∧ (updateAsset_resolve envSiteIdMapped sampleWorld rowParis).1.siteID = ""
    ∧ genericLoop envSiteIdMapped (createAsset_resolve envSiteIdMapped sampleWorld rowParis).1
        rowParis = [XmlTok.SetParam "h_site_id" "99"]
    ∧ XmlTok.SetParam "h_site_id" "99"
        ∈ (createAsset_prepare envSiteIdMapped sampleWorld rowParis).params
    ∧ XmlTok.SetParam "h_site_id" "99"
        ∈ (updateAsset_prepare envSiteIdMapped sampleWorld rowParis "77").2.params := by
  refine ⟨by decide, by decide, by decide, by decide, by decide⟩

/-- C13 (amended): the references resolved by either function obey `PairRule`: `h_site`
is written, with the name as its value and together with `h_site_id = id`, exactly when
the generic mapping has the key `h_site` and the name and the resolved id are non-empty,
and never with the raw value otherwise; `h_site_id` is written besides only by a mapping
entry keyed `h_site_id` itself; likewise for `h_company_name` and `h_company_id`.  The
name is the row's value.  The site id is the one found by `siteIDOf` (cache first, remote
search on a miss) when the name is non-empty, in `createAsset` for every name other than
`<nil>` and in `updateAsset` for every name, where `<nil>` resolves nothing; a cache hit
or a successful search always gives a non-empty site id.  The company id is the one found
by `companyIDOf` when the name is neither empty nor `<nil>`.  The requests built are the
buffer followed by `createAsset_params` and `updateAsset_params` of these references.
For the row with site `London`, not cached and found remotely with id 7, both requests
carry `h_site = London` and `h_site_id = 7`. -/
theorem site_company_pair (env : Env) (w : World) (u : GoMap) (a : String) :
    (PairRule env u (createAsset_resolve env w u).1
      ∧ PairRule env u (updateAsset_resolve env w u).1)
    ∧ ((createAsset_resolve env w u).1.siteName = siteValue env u
      ∧ (updateAsset_resolve env w u).1.siteName = siteValue env u
      ∧ (siteValue env u ≠ "<nil>" →
          (createAsset_resolve env w u).1.siteID
            = if siteValue env u ≠ "" then siteIDOf env w.trace (siteValue env u) else "")
      ∧ (updateAsset_resolve env w u).1.siteID
          = (if siteValue env u ≠ "" ∧ siteValue env u ≠ "<nil>" then
              siteIDOf env w.trace (siteValue env u)
            else "")
      ∧ (∀ tr n, siteIDOf env tr n ≠ "" ↔
          ((env.siteInCache tr n).1 = true ∨ (env.searchSite tr n).1 = true)))
    ∧ ((createAsset_resolve env w u).1.companyName = companyValue env u
      ∧ (updateAsset_resolve env w u).1.companyName = companyValue env u
      ∧ (createAsset_resolve env w u).1.companyID
          = (if companyValue env u ≠ "" ∧ companyValue env u ≠ "<nil>" then
              companyIDOf env (createAsset_site env w u).2.trace (companyValue env u)
            else "")
      ∧ (updateAsset_resolve env w u).1.companyID
          = (if companyValue env u ≠ "" ∧ companyValue env u ≠ "<nil>" then
              companyIDOf env (updateAsset_site env w u).2.trace (companyValue env u)
            else ""))
    ∧ ((createAsset_prepare env w u).params
        = w.params ++ createAsset_params env (createAsset_resolve env w u).1 u
      ∧ (updateAsset_prepare env w u a).2.params
        = w.params ++ updateAsset_params env (updateAsset_resolve env w u).1 u a)
    ∧ ((envLondon.siteInCache sampleWorld.trace "London").1 = false
      ∧ envLondon.searchSite sampleWorld.trace "London" = (true, 7)
      ∧ XmlTok.SetParam "h_site" "London"
          ∈ (createAsset_prepare envLondon sampleWorld rowLondon).params
      ∧ XmlTok.SetParam "h_site_id" "7"
          ∈ (createAsset_prepare envLondon sampleWorld rowLondon).params
      ∧ XmlTok.SetParam "h_site" "London"
          ∈ (updateAsset_prepare envLondon sampleWorld rowLondon "77").2.params
      ∧ XmlTok.SetParam "h_site_id" "7"
          ∈ (updateAsset_prepare envLondon sampleWorld rowLondon "77").2.params) := by
  have hcs := createAsset_site_eq env w u
  have hus := updateAsset_site_eq env w u
  have hcc := resolveCompany_eq env (createAsset_site env w u).2 u
  have huc := resolveCompany_eq env (updateAsset_site env w u).2 u
  refine ⟨⟨pairRule env u _, pairRule env u _⟩, ⟨?_, ?_, ?_, ?_, siteIDOf_ne_empty_iff env⟩,
    ⟨?_, ?_, ?_, ?_⟩,
    ⟨createAsset_prepare_params env w u, updateAsset_prepare_params env w u a⟩,
    ⟨by decide, by decide, by decide, by decide, by decide, by decide⟩⟩
  · exact congrArg Prod.fst hcs
  · exact congrArg Prod.fst hus
  · intro _
    exact congrArg Prod.snd hcs
  · exact congrArg Prod.snd hus
  · exact congrArg Prod.fst hcc
  · exact congrArg Prod.fst huc
  · exact congrArg Prod.snd hcc
  · exact congrArg Prod.snd huc

end GoDBAssetImport
